import Mathlib

/-!
Verification of the watchman NF-e ETL core against its specification.

The development shallow-embeds the Python sources:
  * `plugins/nfe_parser/operators/nfe_parser_operator.py`
      (extraction `extrair_dados_nfe`, helpers `parse_date_to_timestamp`,
       `_safe_float`, `_safe_int`, persistence `save_to_postgres`,
       `_insert_or_get_pessoa_id`, `_insert_endereco`,
       `save_processing_status`);
  * `app/services/nota_fiscal_service.py`
      (query `get_nota_fiscal_by_identifier`).

Modelling conventions:
  * Python scalar values that flow through dicts and database cells are the
    inductive `Py` (None, str, int, float, date).  Python floats are modelled
    as exact rationals: every claim below compares values produced by the
    same parse on both sides, so only the success/failure domain and exact
    decimal values matter, never binary rounding.
  * Python dicts are association lists in insertion order (`Dict`), as are
    database rows; a missing key reads as SQL NULL / `Py.none`.
  * The relational store is `DB`: one list of rows per table plus a single
    surrogate-key counter (Postgres uses one SERIAL sequence per table; the
    claims never compare keys across tables, so one counter is used and row
    identity is what matters).
  * Every SQL statement in the source runs with `autocommit=True`; the
    failure-free executions are the plain functions, and
    `save_to_postgresRun` additionally threads a statement counter with an
    oracle naming the one statement (if any) that raises, reproducing the
    per-statement try/except structure of the source.
  * XML documents are their element trees (`Xml`); parsing of the raw byte
    stream is outside the model.  ElementTree navigation (`find`,
    `findall` with a descendant path, `findtext` with default, attribute
    lookup, element truthiness = has children) is embedded directly.
  * Wall-clock timestamps (`datetime.now()`, column defaults such as
    `data_atualizacao`) are outside the model and stored as `Py.none`.
-/

set_option maxHeartbeats 1000000
set_option maxRecDepth 8000
set_option exponentiation.threshold 1100

namespace Watchman

/-- Model of the Python scalar values that appear in the extracted data and in
database cells: `None`, `str`, `int`, `float` (as an exact rational) and
`datetime.date`. -/
inductive Py where
  | none
  | str (s : String)
  | int (n : Int)
  | float (q : Rat)
  | date (y m d : Nat)
deriving DecidableEq, Repr

/-- A Python dict (and a database row): an association list in insertion
order. -/
abbrev Dict := List (String × Py)

/-- `d.get(k)`: first binding of `k`, if any. -/
def dictGet (d : Dict) (k : String) : Option Py :=
  (d.find? (fun p => decide (p.1 = k))).map Prod.snd

/-- `d.get(k, default)`. -/
def dictGetD (d : Dict) (k : String) (v : Py) : Py :=
  (dictGet d k).getD v

/-- Reading a column of a row: a missing column is SQL NULL. -/
def rowGet (r : Dict) (k : String) : Py :=
  dictGetD r k Py.none

/-- Python dict assignment `d[k] = v`: overwrite in place if the key exists,
else append (Python dicts preserve insertion order). -/
def dictSet (d : Dict) (k : String) (v : Py) : Dict :=
  if (d.find? (fun p => decide (p.1 = k))).isSome then
    d.map (fun p => if p.1 = k then (k, v) else p)
  else
    d ++ [(k, v)]

/-- Python truthiness of a scalar value (`if value:`). -/
def pyTruthy : Py → Bool
  | Py.none => false
  | Py.str s => s ≠ ""
  | Py.int n => n ≠ 0
  | Py.float q => q ≠ 0
  | Py.date _ _ _ => true

/-- Python truthiness of a dict (`if data.get('emitente'):`): non-empty. -/
def dictTruthy (d : Dict) : Bool := d ≠ []

/-! ### Numeric string parsing

`float(text)` and `int(text)` as used by the source.  A finite decimal
literal is optional ASCII whitespace, an optional sign, digits with an
optional decimal point and an optional decimal exponent (`float`), or a
plain digit run (`int`); finite values are kept as exact rationals rather
than rounded to 53 bits, and digit-group underscores are not modelled (they
never occur in NF-e numeric fields).  For the safe-parse helpers, where
they decide whether an exception escapes, the `inf`/`infinity`/`nan`
spellings and the overflow of large literals to an infinity are modelled
in full. -/

def isWs (c : Char) : Bool := c = ' ' ∨ c = '\t' ∨ c = '\n' ∨ c = '\r'

def stripWs (s : List Char) : List Char :=
  ((s.dropWhile isWs).reverse.dropWhile isWs).reverse

def digitsToNat (ds : List Char) : Nat :=
  ds.foldl (fun a c => a * 10 + (c.toNat - 48)) 0

/-- Parse an optional sign, returning the sign factor and the rest. -/
def takeSign : List Char → Int × List Char
  | '+' :: cs => (1, cs)
  | '-' :: cs => (-1, cs)
  | cs => (1, cs)

/-- Mantissa of a float literal, `digits [. digits]` or `. digits`, as the
pair (integer numerator, number of fractional digits). -/
def parseMantissa (cs : List Char) : Option ((Nat × Nat) × List Char) :=
  let ip := cs.takeWhile Char.isDigit
  let r1 := cs.dropWhile Char.isDigit
  match r1 with
  | '.' :: r2 =>
      let fp := r2.takeWhile Char.isDigit
      let r3 := r2.dropWhile Char.isDigit
      if ip.isEmpty ∧ fp.isEmpty then Option.none
      else some ((digitsToNat ip * 10 ^ fp.length + digitsToNat fp, fp.length), r3)
  | _ =>
      if ip.isEmpty then Option.none else some ((digitsToNat ip, 0), r1)

/-- Exponent suffix `e[sign]digits`, if present; fails on a dangling `e`. -/
def parseExponent (cs : List Char) : Option (Int × List Char) :=
  match cs with
  | 'e' :: r | 'E' :: r =>
      let (sg, r1) := takeSign r
      let ds := r1.takeWhile Char.isDigit
      let r2 := r1.dropWhile Char.isDigit
      if ds.isEmpty then Option.none else some (sg * (digitsToNat ds : Int), r2)
  | _ => some (0, cs)

/-- `float(s)` on a finite decimal literal; `none` models `ValueError`.
The value `sign * mant * 10 ^ (exp - frac)` is assembled with one `mkRat`. -/
def pyFloatOfString (s : String) : Option Rat := do
  let cs := stripWs s.data
  let (sg, cs) := takeSign cs
  let ((mant, frac), cs) ← parseMantissa cs
  let (ex, cs) ← parseExponent cs
  if cs.isEmpty then
    if ex ≥ 0 then
      pure (mkRat (sg * (mant : Int) * ((10 : Int) ^ ex.toNat)) (10 ^ frac))
    else
      pure (mkRat (sg * (mant : Int)) (10 ^ (frac + (-ex).toNat)))
  else
    Option.none

/-- `int(s)` (base 10): optional whitespace, optional sign, a digit run. -/
def pyIntOfString (s : String) : Option Int :=
  let cs := stripWs s.data
  let (sg, cs) := takeSign cs
  let ds := cs.takeWhile Char.isDigit
  let r := cs.dropWhile Char.isDigit
  if ds.isEmpty ∨ ¬ r.isEmpty then Option.none
  else some (sg * (digitsToNat ds : Int))

/-- `int(q)` on a float: truncation toward zero (`Int.tdiv` rounds toward
zero and the denominator of a `Rat` is positive). -/
def ratTrunc (q : Rat) : Int := Int.tdiv q.num (q.den : Int)

/-- A CPython float value as produced by `float(str)`: a finite value (an
exact rational in this model), a signed infinity (`true` is negative), or
NaN. -/
inductive PyFloat where
  | finite : Rat → PyFloat
  | inf : Bool → PyFloat
  | nan : PyFloat
deriving Repr, DecidableEq

def lowerAscii (c : Char) : Char :=
  if 'A' ≤ c ∧ c ≤ 'Z' then Char.ofNat (c.toNat + 32) else c

/-- The `inf`/`infinity`/`nan` spellings accepted by `float` (any case,
optional sign). -/
def parseInfNan (cs : List Char) : Option PyFloat :=
  let (sg, r) := takeSign cs
  let w := r.map lowerAscii
  if w = ['i', 'n', 'f'] ∨ w = ['i', 'n', 'f', 'i', 'n', 'i', 't', 'y'] then
    some (PyFloat.inf (decide (sg < 0)))
  else if w = ['n', 'a', 'n'] then some PyFloat.nan
  else Option.none

/-- `strtod` overflow: a decimal literal whose magnitude reaches
`2 ^ 1024 - 2 ^ 970` — the rounding boundary above the largest finite
double, which ties-to-even upward — converts to an infinity rather than
raising. -/
def overflows (q : Rat) : Bool :=
  decide ((2 ^ 1024 - 2 ^ 970 : Nat) * q.den ≤ q.num.natAbs)

/-- `float(s)` in full: the `inf`/`nan` spellings, and finite decimal
literals with overflow to an infinity; `none` models `ValueError`. -/
def pyFloatValOfString (s : String) : Option PyFloat :=
  match parseInfNan (stripWs s.data) with
  | some v => some v
  | Option.none =>
      (pyFloatOfString s).map (fun q =>
        if overflows q then PyFloat.inf (decide (q.num < 0))
        else PyFloat.finite q)

/-- `float(value)` as the safe-parse helpers call it: raises `ValueError`
on an unparsable string (and only `ValueError`). -/
def pyFloatCallE (s : String) : Except String PyFloat :=
  match pyFloatValOfString s with
  | some v => Except.ok v
  | Option.none => Except.error "ValueError"

/-- `int(x)` on a float value: truncation toward zero when finite;
`int(inf)` raises `OverflowError` and `int(nan)` raises `ValueError`. -/
def intOfPyFloat : PyFloat → Except String Int
  | PyFloat.finite q => Except.ok (ratTrunc q)
  | PyFloat.inf _ => Except.error "OverflowError"
  | PyFloat.nan => Except.error "ValueError"

/-- `_safe_float` (nfe_parser_operator.py, lines 499-504):
`try: return float(value) if value else None except ValueError: return
None`.  An `Except.error` result is an exception escaping the helper. -/
def safe_float (value : Option String) : Except String (Option PyFloat) :=
  let body : Except String (Option PyFloat) :=
    match value with
    | Option.none => Except.ok Option.none
    | some s =>
        if s = "" then Except.ok Option.none
        else (pyFloatCallE s).map some
  match body with
  | Except.error e =>
      if e = "ValueError" then Except.ok Option.none else Except.error e
  | r => r

/-- `_safe_int` (nfe_parser_operator.py, lines 506-511):
`try: return int(float(value)) if value else None except ValueError:
return None` (truncating through a float parse handles inputs like
"12.0").  Only `ValueError` is caught: the `OverflowError` raised by
`int` on an infinite float escapes the helper. -/
def safe_int (value : Option String) : Except String (Option Int) :=
  let body : Except String (Option Int) :=
    match value with
    | Option.none => Except.ok Option.none
    | some s =>
        if s = "" then Except.ok Option.none
        else
          match pyFloatCallE s with
          | Except.error e => Except.error e
          | Except.ok f =>
              match intOfPyFloat f with
              | Except.error e => Except.error e
              | Except.ok n => Except.ok (some n)
  match body with
  | Except.error e =>
      if e = "ValueError" then Except.ok Option.none else Except.error e
  | r => r

/-! ### XML documents and ElementTree navigation

A document is its element tree.  Tags are stored without the namespace
prefix: the sources always search with the single `nfe:` prefix bound to the
NF-e namespace, so tag identity is the plain local name. -/

mutual
/-- An XML element.  The children sit in the companion list type `XmlList`
(a plain nested `List` would force well-founded recursion on the descendant
walk, which the kernel cannot evaluate). -/
inductive Xml where
  | elem (tag : String) (attrs : List (String × String)) (text : Option String)
      (children : XmlList)
inductive XmlList where
  | nil
  | cons (head : Xml) (tail : XmlList)
end

def XmlList.toList : XmlList → List Xml
  | XmlList.nil => []
  | XmlList.cons c rest => c :: rest.toList

/-- Build an `XmlList` from a list literal (used for concrete documents). -/
def xmlList : List Xml → XmlList
  | [] => XmlList.nil
  | c :: rest => XmlList.cons c (xmlList rest)

/-- Concrete-document constructor taking the children as a list literal. -/
def el (tag : String) (attrs : List (String × String)) (text : Option String)
    (children : List Xml) : Xml :=
  Xml.elem tag attrs text (xmlList children)

def Xml.tag : Xml → String
  | Xml.elem t _ _ _ => t

def Xml.attrs : Xml → List (String × String)
  | Xml.elem _ a _ _ => a

def Xml.text : Xml → Option String
  | Xml.elem _ _ x _ => x

def Xml.children : Xml → List Xml
  | Xml.elem _ _ _ cs => cs.toList

/-- `element.attrib.get(key, default)`. -/
def attrGetD (e : Xml) (k d : String) : String :=
  ((e.attrs.find? (fun p => decide (p.1 = k))).map Prod.snd).getD d

/-- `element.attrib.get(key)` with no default. -/
def attrGet (e : Xml) (k : String) : Option String :=
  (e.attrs.find? (fun p => decide (p.1 = k))).map Prod.snd

mutual
/-- An element followed by all its descendants, in document (pre-)order. -/
def Xml.descPlus : Xml → List Xml
  | Xml.elem t a x cs => Xml.elem t a x cs :: XmlList.descAll cs
/-- All elements of the list with their descendants, in document order. -/
def XmlList.descAll : XmlList → List Xml
  | XmlList.nil => []
  | XmlList.cons c rest => c.descPlus ++ XmlList.descAll rest
end

/-- All proper descendants of an element, in document order. -/
def descList (e : Xml) : List Xml :=
  match e with
  | Xml.elem _ _ _ cs => XmlList.descAll cs

/-- `e.findall('.//tag')`: all descendants with the tag, document order. -/
def findallDesc (e : Xml) (t : String) : List Xml :=
  (descList e).filter (fun c => decide (c.tag = t))

/-- `e.find('.//tag')`: first descendant with the tag, if any. -/
def findDesc (e : Xml) (t : String) : Option Xml :=
  (descList e).find? (fun c => decide (c.tag = t))

/-- `e.find('tag')`: first direct child with the tag, if any. -/
def findChild (e : Xml) (t : String) : Option Xml :=
  e.children.find? (fun c => decide (c.tag = t))

/-- `e.findtext('tag', default)`: the text of the first direct child with the
tag (the empty string when that element has no text), or the default when no
element matches. -/
def findtextD (e : Xml) (t : String) (d : String) : String :=
  match findChild e t with
  | some c => c.text.getD ""
  | Option.none => d

/-- `e.findtext('tag')` with default `None`
(as used by `e.findtext('nfe:CNPJ', None, ns)`). -/
def findtextN (e : Xml) (t : String) : Option String :=
  match findChild e t with
  | some c => some (c.text.getD "")
  | Option.none => Option.none

/-- `e.findtext('.//tag', default)`: descendant variant. -/
def findtextDescD (e : Xml) (t : String) (d : String) : String :=
  match findDesc e t with
  | some c => c.text.getD ""
  | Option.none => d

/-- Python truthiness of an optional Element (`if node:`): an Element is
truthy exactly when it has children, and `None` is falsy. -/
def elemTruthy : Option Xml → Bool
  | Option.none => false
  | some e => !e.children.isEmpty

/-! ### `parse_date_to_timestamp` (nfe_parser_operator.py, lines 101-141)

`datetime.strptime` is modelled for the eight formats the source tries, with
CPython's field syntax: `%Y` is exactly four digits, `%m`/`%d`/`%H`/`%M`/`%S`
are one or two digits within range, `%f` is one to six digits, and `%z` is
`Z` or a sign followed by `HH:MM` or `HHMM`.  The resulting date is validated
against the calendar (as the `datetime` constructor does). -/

structure PyDateTime where
  year : Nat
  month : Nat
  day : Nat
  hour : Nat
  minute : Nat
  second : Nat
  micro : Nat
  /-- UTC offset in minutes, when the format carried `%z`. -/
  tzmin : Option Int
deriving DecidableEq, Repr

inductive FmtTok where
  | lit (c : Char)
  | Y | m | d | H | Mi | S | f | z
deriving Repr

/-- Match one or two digits whose value lies within the range, preferring the
two-digit reading when it is in range (CPython's regex alternation order). -/
def takeNum2 (lo hi : Nat) : List Char → Option (Nat × List Char)
  | c1 :: c2 :: r =>
      if c1.isDigit ∧ c2.isDigit ∧
          lo ≤ digitsToNat [c1, c2] ∧ digitsToNat [c1, c2] ≤ hi then
        some (digitsToNat [c1, c2], r)
      else if c1.isDigit ∧ lo ≤ digitsToNat [c1] ∧ digitsToNat [c1] ≤ hi then
        some (digitsToNat [c1], c2 :: r)
      else Option.none
  | [c1] =>
      if c1.isDigit ∧ lo ≤ digitsToNat [c1] ∧ digitsToNat [c1] ≤ hi then
        some (digitsToNat [c1], [])
      else Option.none
  | [] => Option.none

/-- Match exactly four digits (`%Y`). -/
def takeYear : List Char → Option (Nat × List Char)
  | c1 :: c2 :: c3 :: c4 :: r =>
      if c1.isDigit ∧ c2.isDigit ∧ c3.isDigit ∧ c4.isDigit then
        some (digitsToNat [c1, c2, c3, c4], r)
      else Option.none
  | _ => Option.none

/-- Match `%z`: `Z`, or a sign and `HH:MM` or `HHMM` (offset in minutes). -/
def takeTz : List Char → Option (Int × List Char)
  | 'Z' :: r => some (0, r)
  | sgn :: h1 :: h2 :: rest =>
      if (sgn = '+' ∨ sgn = '-') ∧ h1.isDigit ∧ h2.isDigit then
        let sg : Int := if sgn = '-' then -1 else 1
        let hh := digitsToNat [h1, h2]
        match rest with
        | ':' :: m1 :: m2 :: r =>
            if m1.isDigit ∧ m2.isDigit then
              some (sg * ((hh * 60 : Nat) + digitsToNat [m1, m2] : Int), r)
            else Option.none
        | m1 :: m2 :: r =>
            if m1.isDigit ∧ m2.isDigit then
              some (sg * ((hh * 60 : Nat) + digitsToNat [m1, m2] : Int), r)
            else Option.none
        | _ => Option.none
      else Option.none
  | _ => Option.none

/-- Match `%f`: one to six digits, scaled to microseconds. -/
def takeMicro (cs : List Char) : Option (Nat × List Char) :=
  let ds := (cs.takeWhile Char.isDigit).take 6
  let r := cs.drop ds.length
  if ds.isEmpty then Option.none
  else some (digitsToNat ds * 10 ^ (6 - ds.length), r)

def isLeapYear (y : Nat) : Bool :=
  (y % 4 = 0 ∧ y % 100 ≠ 0) ∨ y % 400 = 0

def daysInMonth (y m : Nat) : Nat :=
  if m = 2 then (if isLeapYear y then 29 else 28)
  else if m = 4 ∨ m = 6 ∨ m = 9 ∨ m = 11 then 30
  else 31

/-- Run a format token list over the input; all tokens and all input must be
consumed (`strptime` anchors both ends). -/
def runFmt : List FmtTok → List Char → PyDateTime → Option PyDateTime
  | [], [], acc => some acc
  | [], _ :: _, _ => Option.none
  | FmtTok.lit c :: toks, cs, acc =>
      match cs with
      | c1 :: r => if c1 = c then runFmt toks r acc else Option.none
      | [] => Option.none
  | FmtTok.Y :: toks, cs, acc =>
      match takeYear cs with
      | some (v, r) => runFmt toks r { acc with year := v }
      | Option.none => Option.none
  | FmtTok.m :: toks, cs, acc =>
      match takeNum2 1 12 cs with
      | some (v, r) => runFmt toks r { acc with month := v }
      | Option.none => Option.none
  | FmtTok.d :: toks, cs, acc =>
      match takeNum2 1 31 cs with
      | some (v, r) => runFmt toks r { acc with day := v }
      | Option.none => Option.none
  | FmtTok.H :: toks, cs, acc =>
      match takeNum2 0 23 cs with
      | some (v, r) => runFmt toks r { acc with hour := v }
      | Option.none => Option.none
  | FmtTok.Mi :: toks, cs, acc =>
      match takeNum2 0 59 cs with
      | some (v, r) => runFmt toks r { acc with minute := v }
      | Option.none => Option.none
  | FmtTok.S :: toks, cs, acc =>
      match takeNum2 0 59 cs with
      | some (v, r) => runFmt toks r { acc with second := v }
      | Option.none => Option.none
  | FmtTok.f :: toks, cs, acc =>
      match takeMicro cs with
      | some (v, r) => runFmt toks r { acc with micro := v }
      | Option.none => Option.none
  | FmtTok.z :: toks, cs, acc =>
      match takeTz cs with
      | some (v, r) => runFmt toks r { acc with tzmin := some v }
      | Option.none => Option.none

/-- `datetime.strptime(s, fmt)`: run the tokens, then validate the date the
way the `datetime` constructor does. -/
def strptime (toks : List FmtTok) (s : String) : Option PyDateTime :=
  match runFmt toks s.data
      { year := 1900, month := 1, day := 1, hour := 0, minute := 0,
        second := 0, micro := 0, tzmin := Option.none } with
  | some dt =>
      if 1 ≤ dt.year ∧ dt.year ≤ 9999 ∧ 1 ≤ dt.month ∧ dt.month ≤ 12 ∧
          1 ≤ dt.day ∧ dt.day ≤ daysInMonth dt.year dt.month then
        some dt
      else Option.none
  | Option.none => Option.none

/-- The eight formats of `parse_date_to_timestamp`, in the order tried. -/
def nfeDateFormats : List (List FmtTok) :=
  [ [FmtTok.Y, FmtTok.lit '-', FmtTok.m, FmtTok.lit '-', FmtTok.d,
     FmtTok.lit 'T', FmtTok.H, FmtTok.lit ':', FmtTok.Mi, FmtTok.lit ':',
     FmtTok.S, FmtTok.z],
    [FmtTok.Y, FmtTok.lit '-', FmtTok.m, FmtTok.lit '-', FmtTok.d,
     FmtTok.lit 'T', FmtTok.H, FmtTok.lit ':', FmtTok.Mi, FmtTok.lit ':',
     FmtTok.S, FmtTok.lit '.', FmtTok.f, FmtTok.z],
    [FmtTok.Y, FmtTok.lit '-', FmtTok.m, FmtTok.lit '-', FmtTok.d,
     FmtTok.lit 'T', FmtTok.H, FmtTok.lit ':', FmtTok.Mi, FmtTok.lit ':',
     FmtTok.S],
    [FmtTok.Y, FmtTok.lit '-', FmtTok.m, FmtTok.lit '-', FmtTok.d,
     FmtTok.lit 'T', FmtTok.H, FmtTok.lit ':', FmtTok.Mi, FmtTok.lit ':',
     FmtTok.S, FmtTok.lit '.', FmtTok.f],
    [FmtTok.Y, FmtTok.lit '-', FmtTok.m, FmtTok.lit '-', FmtTok.d,
     FmtTok.lit ' ', FmtTok.H, FmtTok.lit ':', FmtTok.Mi, FmtTok.lit ':',
     FmtTok.S],
    [FmtTok.d, FmtTok.lit '/', FmtTok.m, FmtTok.lit '/', FmtTok.Y,
     FmtTok.lit ' ', FmtTok.H, FmtTok.lit ':', FmtTok.Mi, FmtTok.lit ':',
     FmtTok.S],
    [FmtTok.d, FmtTok.lit '/', FmtTok.m, FmtTok.lit '/', FmtTok.Y],
    [FmtTok.Y, FmtTok.lit '-', FmtTok.m, FmtTok.lit '-', FmtTok.d] ]

/-- Try the formats in order, returning the first success. -/
def tryFormats : List (List FmtTok) → String → Option PyDateTime
  | [], _ => Option.none
  | f :: fs, s =>
      match strptime f s with
      | some dt => some dt
      | Option.none => tryFormats fs s

/-- `parse_date_to_timestamp(date_str)`: empty input gives `None`; a
bracketed zone-name suffix (`-03:00[America/Sao_Paulo]`) is cut off; then
each format is tried in order; any failure yields `None`, never an
exception. -/
def parse_date_to_timestamp (date_str : String) : Option PyDateTime :=
  if date_str = "" then Option.none
  else
    let cs := date_str.data
    let cs := if cs.contains '[' then cs.takeWhile (fun c => c ≠ '[') else cs
    tryFormats nfeDateFormats (String.mk cs)

/-- `dt.date()`: keep only the date component. -/
def PyDateTime.toDate (dt : PyDateTime) : Py :=
  Py.date dt.year dt.month dt.day

/-! ### Extraction (`extrair_dados_nfe`, nfe_parser_operator.py, lines 143-497)

The body of `extrair_dados_nfe` runs inside one `try`: any exception raised
while converting a field (a strict `int(...)`/`float(...)`, or `.date()` on
the `None` returned by a failed date parse) aborts the whole extraction and
the function returns `None`.  The `Except`-valued core `extrairCore` mirrors
the body; `extrair_dados_nfe` is the

outer `try`/`except` collapsing the error to `None`. -/

/-- Python slice `s[n:]`. -/
def strDrop (s : String) (n : Nat) : String := String.mk (s.data.drop n)

/-- Strict `int(text)`: `ValueError` is an exception. -/
def pyIntE (s : String) : Except String Int :=
  match pyIntOfString s with
  | some n => Except.ok n
  | Option.none => Except.error "ValueError: invalid literal for int"

/-- Strict `float(text)`: `ValueError` is an exception. -/
def pyFloatE (s : String) : Except String Rat :=
  match pyFloatOfString s with
  | some q => Except.ok q
  | Option.none => Except.error "ValueError: could not convert string to float"

/-- `_safe_float(e.findtext(tag, default))` as a cell value.  The NF-e
numeric fields carry finite decimal literals, so at the extraction call
sites the helper is its restriction to `pyFloatOfString` (on an `inf`/`nan`
spelling or an overflowing magnitude the full `safe_float`/`safe_int`
diverge from this restriction — `safe_int` by raising — but such strings
do not occur in these fields; `pySafeInt_agrees` states the agreement). -/
def pySafeFloat (s : String) : Py :=
  match pyFloatOfString s with
  | some q => Py.float q
  | Option.none => Py.none

/-- `_safe_int(e.findtext(tag, default))` as a cell value (see
`pySafeFloat` on the finite-literal restriction). -/
def pySafeInt (s : String) : Py :=
  match (pyFloatOfString s).map ratTrunc with
  | some n => Py.int n
  | Option.none => Py.none

/-- One line item of the extracted data: the item dict (with the `impostos`
list held apart, as `save_to_postgres` pops it before the insert). -/
structure Item where
  fields : Dict
  impostos : List Dict
deriving Repr, DecidableEq

/-- The extracted data of one document: the fixed-key top-level dict of
`extrair_dados_nfe` as a structure (the original XML string kept in
`xml_original` by the source carries no structure and is left out). -/
structure Extracted where
  nfe : Dict
  emitente : Dict
  emitente_endereco : Dict
  destinatario : Dict
  destinatario_endereco : Dict
  itens : List Item
  totais : Dict
  transporte : Dict
  transportadora : Dict
  transportadora_endereco : Dict
  volumes : List Dict
  lacres : List Dict
  veiculos : List Dict
  informacoes_adicionais : Dict
deriving Repr, DecidableEq

/-- A header date cell:
`self.parse_date_to_timestamp(s).date() if s else None` — a non-empty value
that matches none of the formats makes `.date()` be called on `None`, which
raises. -/
def header_date (s : String) : Except String Py :=
  if s = "" then pure Py.none
  else
    match parse_date_to_timestamp s with
    | some dt => pure dt.toDate
    | Option.none =>
        Except.error "AttributeError: NoneType object has no attribute date"

/-- Header section (lines 173-203): `infNFe` attributes, then the `ide`
fields. -/
def extract_nfe_header (root : Xml) : Except String Dict := do
  let nfe1 : Dict :=
    match findDesc root "infNFe" with
    | some infNFe =>
        [("chave_acesso", Py.str (strDrop (attrGetD infNFe "Id" "") 3)),
         ("versao", Py.str (attrGetD infNFe "versao" ""))]
    | Option.none => []
  match findDesc root "ide" with
  | Option.none => pure nfe1
  | some ide => do
      let codigo_uf ← pyIntE (findtextD ide "cUF" "0")
      let indicador_pagamento ← pyIntE (findtextD ide "indPag" "0")
      let modelo ← pyIntE (findtextD ide "mod" "0")
      let serie ← pyIntE (findtextD ide "serie" "0")
      let numero ← pyIntE (findtextD ide "nNF" "0")
      let data_emissao ← header_date (findtextD ide "dhEmi" "")
      let data_saida_entrada ← header_date (findtextD ide "dhSaiEnt" "")
      let tipo_nf ← pyIntE (findtextD ide "tpNF" "0")
      let tipo_impressao ← pyIntE (findtextD ide "tpImp" "0")
      let tipo_emissao ← pyIntE (findtextD ide "tpEmis" "0")
      let digito_verificador ← pyIntE (findtextD ide "cDV" "0")
      let ambiente ← pyIntE (findtextD ide "tpAmb" "0")
      let finalidade_nf ← pyIntE (findtextD ide "finNFe" "0")
      let processo_emissao ← pyIntE (findtextD ide "procEmi" "0")
      pure (nfe1 ++
        [("codigo_uf", Py.int codigo_uf),
         ("codigo_nf", Py.str (findtextD ide "cNF" "")),
         ("natureza_operacao", Py.str (findtextD ide "natOp" "")),
         ("indicador_pagamento", Py.int indicador_pagamento),
         ("modelo", Py.int modelo),
         ("serie", Py.int serie),
         ("numero", Py.int numero),
         ("data_emissao", data_emissao),
         ("data_saida_entrada", data_saida_entrada),
         ("tipo_nf", Py.int tipo_nf),
         ("codigo_municipio_fato_gerador", Py.str (findtextD ide "cMunFG" "")),
         ("tipo_impressao", Py.int tipo_impressao),
         ("tipo_emissao", Py.int tipo_emissao),
         ("digito_verificador", Py.int digito_verificador),
         ("ambiente", Py.int ambiente),
         ("finalidade_nf", Py.int finalidade_nf),
         ("processo_emissao", Py.int processo_emissao),
         ("versao_processo", Py.str (findtextD ide "verProc" ""))])

/-- Issuer section (lines 205-234): the `emit` dict and its `enderEmit`
address dict. -/
def extract_emitente (root : Xml) : Except String (Dict × Dict) :=
  match findDesc root "emit" with
  | Option.none => pure ([], [])
  | some emit => do
      let regime_tributario ← pyIntE (findtextD emit "CRT" "0")
      let emitente : Dict :=
        [("tipo_pessoa", Py.str "EMITENTE"),
         ("cnpj", Py.str (findtextD emit "CNPJ" "")),
         ("cpf", Py.str (findtextD emit "CPF" "")),
         ("nome", Py.str (findtextD emit "xNome" "")),
         ("nome_fantasia", Py.str (findtextD emit "xFant" "")),
         ("inscricao_estadual", Py.str (findtextD emit "IE" "")),
         ("inscricao_municipal", Py.str (findtextD emit "IM" "")),
         ("inscricao_suframa", Py.str (findtextD emit "ISUF" "")),
         ("cnae", Py.str (findtextD emit "CNAE" "")),
         ("regime_tributario", Py.int regime_tributario)]
      let endereco : Dict :=
        match findChild emit "enderEmit" with
        | Option.none => []
        | some enderEmit =>
            [("tipo_endereco", Py.str "PRINCIPAL"),
             ("logradouro", Py.str (findtextD enderEmit "xLgr" "")),
             ("numero", Py.str (findtextD enderEmit "nro" "")),
             ("complemento", Py.str (findtextD enderEmit "xCpl" "")),
             ("bairro", Py.str (findtextD enderEmit "xBairro" "")),
             ("codigo_municipio", Py.str (findtextD enderEmit "cMun" "")),
             ("municipio", Py.str (findtextD enderEmit "xMun" "")),
             ("uf", Py.str (findtextD enderEmit "UF" "")),
             ("cep", Py.str (findtextD enderEmit "CEP" "")),
             ("codigo_pais", Py.str (findtextD enderEmit "cPais" "")),
             ("pais", Py.str (findtextD enderEmit "xPais" "")),
             ("telefone", Py.str (findtextD enderEmit "fone" ""))]
      pure (emitente, endereco)

/-- Recipient section (lines 236-262): the `dest` dict and its `enderDest`
address dict; no strict conversion occurs here. -/
def extract_destinatario (root : Xml) : Dict × Dict :=
  match findDesc root "dest" with
  | Option.none => ([], [])
  | some dest =>
      let destinatario : Dict :=
        [("tipo_pessoa", Py.str "DESTINATARIO"),
         ("cnpj", Py.str (findtextD dest "CNPJ" "")),
         ("cpf", Py.str (findtextD dest "CPF" "")),
         ("id_estrangeiro", Py.str (findtextD dest "idEstrangeiro" "")),
         ("nome", Py.str (findtextD dest "xNome" "")),
         ("inscricao_estadual", Py.str (findtextD dest "IE" "")),
         ("email", Py.str (findtextD dest "email" ""))]
      let endereco : Dict :=
        match findChild dest "enderDest" with
        | Option.none => []
        | some enderDest =>
            [("tipo_endereco", Py.str "PRINCIPAL"),
             ("logradouro", Py.str (findtextD enderDest "xLgr" "")),
             ("numero", Py.str (findtextD enderDest "nro" "")),
             ("complemento", Py.str (findtextD enderDest "xCpl" "")),
             ("bairro", Py.str (findtextD enderDest "xBairro" "")),
             ("codigo_municipio", Py.str (findtextD enderDest "cMun" "")),
             ("municipio", Py.str (findtextD enderDest "xMun" "")),
             ("uf", Py.str (findtextD enderDest "UF" "")),
             ("cep", Py.str (findtextD enderDest "CEP" "")),
             ("codigo_pais", Py.str (findtextD enderDest "cPais" "")),
             ("pais", Py.str (findtextD enderDest "xPais" "")),
             ("telefone", Py.str (findtextD enderDest "fone" ""))]
      (destinatario, endereco)

/-- One ICMS entry (lines 293-316), built per child of the `ICMS` container;
`orig` is converted with a strict `int`. -/
def extract_icms_entry (icms_type_node : Xml) : Except String Dict := do
  let origem ← pyIntE (findtextD icms_type_node "orig" "0")
  pure
    [("tipo_imposto", Py.str "ICMS"),
     ("cst", Py.str (findtextD icms_type_node "CST" "")),
     ("csosn", Py.str (findtextD icms_type_node "CSOSN" "")),
     ("origem", Py.int origem),
     ("modalidade_base_calculo", pySafeInt (findtextD icms_type_node "modBC" "")),
     ("percentual_reducao_base_calculo", pySafeFloat (findtextD icms_type_node "pRedBC" "")),
     ("valor_base_calculo", pySafeFloat (findtextD icms_type_node "vBC" "")),
     ("aliquota_percentual", pySafeFloat (findtextD icms_type_node "pICMS" "")),
     ("valor", pySafeFloat (findtextD icms_type_node "vICMS" "")),
     ("modalidade_base_calculo_st", pySafeInt (findtextD icms_type_node "modBCST" "")),
     ("percentual_margem_valor_adicionado_st", pySafeFloat (findtextD icms_type_node "pMVAST" "")),
     ("percentual_reducao_base_calculo_st", pySafeFloat (findtextD icms_type_node "pRedBCST" "")),
     ("valor_base_calculo_st", pySafeFloat (findtextD icms_type_node "vBCST" "")),
     ("aliquota_st", pySafeFloat (findtextD icms_type_node "pICMSST" "")),
     ("valor_st", pySafeFloat (findtextD icms_type_node "vICMSST" "")),
     ("percentual_credito_sn", pySafeFloat (findtextD icms_type_node "pCredSN" "")),
     ("valor_credito_sn", pySafeFloat (findtextD icms_type_node "vCredICMSSN" ""))]

/-- The IPI entry (lines 318-343); the two `IPITrib` conditionals rewrite the
base entry with Python dict assignment. -/
def extract_ipi_entry (ipi_node : Xml) : Dict :=
  let e0 : Dict :=
    [("tipo_imposto", Py.str "IPI"),
     ("cst", Py.str (findtextDescD ipi_node "CST" "")),
     ("classe_enquadramento", Py.str (findtextD ipi_node "clEnq" "")),
     ("cnpj_produtor", Py.str (findtextD ipi_node "CNPJProd" "")),
     ("codigo_selo", Py.str (findtextD ipi_node "cSelo" "")),
     ("quantidade_selo", pySafeInt (findtextD ipi_node "qSelo" "")),
     ("codigo_enquadramento", Py.str (findtextD ipi_node "cEnq" ""))]
  let ipitrib := findDesc ipi_node "IPITrib"
  let e1 :=
    if elemTruthy ipitrib &&
        (match ipitrib with
         | some n => decide (findtextD n "pIPI" "" ≠ "")
         | Option.none => false) then
      match ipitrib with
      | some n =>
          dictSet (dictSet (dictSet e0
            "valor_base_calculo" (pySafeFloat (findtextD n "vBC" "")))
            "aliquota_percentual" (pySafeFloat (findtextD n "pIPI" "")))
            "valor" (pySafeFloat (findtextD n "vIPI" ""))
      | Option.none => e0
    else e0
  if elemTruthy ipitrib &&
      (match ipitrib with
       | some n => decide (findtextD n "qUnid" "" ≠ "")
       | Option.none => false) then
    match ipitrib with
    | some n =>
        dictSet (dictSet (dictSet e1
          "quantidade_unidade" (pySafeFloat (findtextD n "qUnid" "")))
          "valor_unidade" (pySafeFloat (findtextD n "vUnid" "")))
          "valor" (pySafeFloat (findtextD n "vIPI" ""))
    | Option.none => e1
  else e1

/-- The PIS entry (lines 345-367). -/
def extract_pis_entry (pis_node : Xml) : Dict :=
  let e0 : Dict :=
    [("tipo_imposto", Py.str "PIS"),
     ("cst", Py.str (findtextDescD pis_node "CST" ""))]
  let aliq := findDesc pis_node "PISAliq"
  let e1 :=
    match aliq with
    | some n =>
        if elemTruthy aliq then
          dictSet (dictSet (dictSet (dictSet e0
            "tipo_calculo" (Py.str "P"))
            "valor_base_calculo" (pySafeFloat (findtextD n "vBC" "")))
            "aliquota_percentual" (pySafeFloat (findtextD n "pPIS" "")))
            "valor" (pySafeFloat (findtextD n "vPIS" ""))
        else e0
    | Option.none => e0
  match findDesc pis_node "PISQtde" with
  | some n =>
      if elemTruthy (some n) then
        dictSet (dictSet (dictSet (dictSet e1
          "tipo_calculo" (Py.str "V"))
          "quantidade_unidade" (pySafeFloat (findtextD n "qBCProd" "")))
          "aliquota_valor" (pySafeFloat (findtextD n "vAliqProd" "")))
          "valor" (pySafeFloat (findtextD n "vPIS" ""))
      else e1
  | Option.none => e1

/-- The COFINS entry (lines 369-391). -/
def extract_cofins_entry (cofins_node : Xml) : Dict :=
  let e0 : Dict :=
    [("tipo_imposto", Py.str "COFINS"),
     ("cst", Py.str (findtextDescD cofins_node "CST" ""))]
  let e1 :=
    match findDesc cofins_node "COFINSAliq" with
    | some n =>
        if elemTruthy (some n) then
          dictSet (dictSet (dictSet (dictSet e0
            "tipo_calculo" (Py.str "P"))
            "valor_base_calculo" (pySafeFloat (findtextD n "vBC" "")))
            "aliquota_percentual" (pySafeFloat (findtextD n "pCOFINS" "")))
            "valor" (pySafeFloat (findtextD n "vCOFINS" ""))
        else e0
    | Option.none => e0
  match findDesc cofins_node "COFINSQtde" with
  | some n =>
      if elemTruthy (some n) then
        dictSet (dictSet (dictSet (dictSet e1
          "tipo_calculo" (Py.str "V"))
          "quantidade_unidade" (pySafeFloat (findtextD n "qBCProd" "")))
          "aliquota_valor" (pySafeFloat (findtextD n "vAliqProd" "")))
          "valor" (pySafeFloat (findtextD n "vCOFINS" ""))
      else e1
  | Option.none => e1

/-- The tax list of one `det` (lines 286-391).  `if imposto_node:` is Python
element truthiness: a childless `imposto` is skipped. -/
def extract_impostos (det : Xml) : Except String (List Dict) := do
  let imposto := findChild det "imposto"
  if elemTruthy imposto then
    match imposto with
    | Option.none => pure []
    | some imposto_node => do
        let icmsEntries ←
          match findDesc imposto_node "ICMS" with
          | some icms_node => icms_node.children.mapM extract_icms_entry
          | Option.none => pure []
        let ipiEntries :=
          match findDesc imposto_node "IPI" with
          | some ipi_node => [extract_ipi_entry ipi_node]
          | Option.none => []
        let pisEntries :=
          match findDesc imposto_node "PIS" with
          | some pis_node => [extract_pis_entry pis_node]
          | Option.none => []
        let cofinsEntries :=
          match findDesc imposto_node "COFINS" with
          | some cofins_node => [extract_cofins_entry cofins_node]
          | Option.none => []
        pure (icmsEntries ++ ipiEntries ++ pisEntries ++ cofinsEntries)
  else
    pure []

/-- One line item (lines 265-394).  The sequence number is
`int(det.attrib.get('nItem', str(i+1)))` for the 0-based position `i`: when
the attribute is absent the strict `int` re-parses the printed fallback,
which is exactly `i+1`; when it is present its text goes through the strict
`int` and a non-numeric value raises. -/
def extract_item_prod (fields0 : Dict) (det : Xml) : Except String Dict :=
  match findChild det "prod" with
  | Option.none => pure fields0
  | some prod => do
      let quantidade_comercial ← pyFloatE (findtextD prod "qCom" "0.0")
      let valor_unitario_comercial ← pyFloatE (findtextD prod "vUnCom" "0.0")
      let valor_total_bruto ← pyFloatE (findtextD prod "vProd" "0.0")
      let quantidade_tributavel ← pyFloatE (findtextD prod "qTrib" "0.0")
      let valor_unitario_tributavel ← pyFloatE (findtextD prod "vUnTrib" "0.0")
      let origem_mercadoria ← pyIntE (findtextD prod "orig" "0")
      pure (fields0 ++
        [("codigo_produto", Py.str (findtextD prod "cProd" "")),
         ("gtin", Py.str (findtextD prod "cEAN" "")),
         ("descricao", Py.str (findtextD prod "xProd" "")),
         ("ncm", Py.str (findtextD prod "NCM" "")),
         ("cfop", Py.str (findtextD prod "CFOP" "")),
         ("unidade_comercial", Py.str (findtextD prod "uCom" "")),
         ("quantidade_comercial", Py.float quantidade_comercial),
         ("valor_unitario_comercial", Py.float valor_unitario_comercial),
         ("valor_total_bruto", Py.float valor_total_bruto),
         ("gtin_tributavel", Py.str (findtextD prod "cEANTrib" "")),
         ("unidade_tributavel", Py.str (findtextD prod "uTrib" "")),
         ("quantidade_tributavel", Py.float quantidade_tributavel),
         ("valor_unitario_tributavel", Py.float valor_unitario_tributavel),
         ("origem_mercadoria", Py.int origem_mercadoria)])

/-- `int(det.attrib.get('nItem', str(i+1)))`: the attribute text through the
strict `int` when present; the printed 0-based position plus one re-parsed
(exactly `i+1`) when absent. -/
def item_numero (i : Nat) (det : Xml) : Except String Int :=
  match attrGet det "nItem" with
  | some s => pyIntE s
  | Option.none => pure ((i + 1 : Nat) : Int)

def extract_item (i : Nat) (det : Xml) : Except String Item := do
  let numero_item ← item_numero i det
  let fields ← extract_item_prod [("numero_item", Py.int numero_item)] det
  let impostos ← extract_impostos det
  pure { fields := fields, impostos := impostos }

/-- The item loop `for i, det in enumerate(root.findall('.//nfe:det'))`. -/
def extract_itens_from (i : Nat) : List Xml → Except String (List Item)
  | [] => pure []
  | det :: rest => do
      let item ← extract_item i det
      let items ← extract_itens_from (i + 1) rest
      pure (item :: items)

def extract_itens (dets : List Xml) : Except String (List Item) :=
  extract_itens_from 0 dets

/-- Totals section (lines 396-412), strict `float` conversions. -/
def extract_totais (root : Xml) : Except String Dict :=
  match findDesc root "ICMSTot" with
  | Option.none => pure []
  | some total_node => do
      let base_calculo_icms ← pyFloatE (findtextD total_node "vBC" "0.0")
      let valor_icms ← pyFloatE (findtextD total_node "vICMS" "0.0")
      let base_calculo_icms_st ← pyFloatE (findtextD total_node "vBCST" "0.0")
      let valor_icms_st ← pyFloatE (findtextD total_node "vST" "0.0")
      let valor_produtos ← pyFloatE (findtextD total_node "vProd" "0.0")
      let valor_frete ← pyFloatE (findtextD total_node "vFrete" "0.0")
      let valor_seguro ← pyFloatE (findtextD total_node "vSeg" "0.0")
      let valor_desconto ← pyFloatE (findtextD total_node "vDesc" "0.0")
      let valor_ii ← pyFloatE (findtextD total_node "vII" "0.0")
      let valor_ipi ← pyFloatE (findtextD total_node "vIPI" "0.0")
      let valor_pis ← pyFloatE (findtextD total_node "vPIS" "0.0")
      let valor_cofins ← pyFloatE (findtextD total_node "vCOFINS" "0.0")
      let valor_outros ← pyFloatE (findtextD total_node "vOutro" "0.0")
      let valor_total_nfe ← pyFloatE (findtextD total_node "vNF" "0.0")
      pure
        [("base_calculo_icms", Py.float base_calculo_icms),
         ("valor_icms", Py.float valor_icms),
         ("base_calculo_icms_st", Py.float base_calculo_icms_st),
         ("valor_icms_st", Py.float valor_icms_st),
         ("valor_produtos", Py.float valor_produtos),
         ("valor_frete", Py.float valor_frete),
         ("valor_seguro", Py.float valor_seguro),
         ("valor_desconto", Py.float valor_desconto),
         ("valor_ii", Py.float valor_ii),
         ("valor_ipi", Py.float valor_ipi),
         ("valor_pis", Py.float valor_pis),
         ("valor_cofins", Py.float valor_cofins),
         ("valor_outros", Py.float valor_outros),
         ("valor_total_nfe", Py.float valor_total_nfe)]

/-- Transport section (lines 414-485): freight modality, carrier party and
its placeholder address, volumes with their (flat) seals, and vehicles. -/
def extract_transporte (root : Xml) :
    Except String (Dict × Dict × Dict × List Dict × List Dict × List Dict) :=
  match findDesc root "transp" with
  | Option.none => pure ([], [], [], [], [], [])
  | some transp => do
      let modalidade_frete ← pyIntE (findtextD transp "modFrete" "0")
      let transporte : Dict := [("modalidade_frete", Py.int modalidade_frete)]
      let (transportadora, transportadora_endereco) :=
        match findChild transp "transporta" with
        | Option.none => ([], [])
        | some transporta =>
            ([("tipo_pessoa", Py.str "TRANSPORTADORA"),
              ("cnpj", Py.str (findtextD transporta "CNPJ" "")),
              ("cpf", Py.str (findtextD transporta "CPF" "")),
              ("nome", Py.str (findtextD transporta "xNome" "")),
              ("inscricao_estadual", Py.str (findtextD transporta "IE" ""))],
             [("tipo_endereco", Py.str "PRINCIPAL"),
              ("logradouro", Py.str (findtextD transporta "xEnder" "")),
              ("municipio", Py.str (findtextD transporta "xMun" "")),
              ("uf", Py.str (findtextD transporta "UF" "")),
              ("numero", Py.str "S/N"),
              ("bairro", Py.str "N/A"),
              ("codigo_municipio", Py.str ""),
              ("cep", Py.str ""),
              ("codigo_pais", Py.str ""),
              ("pais", Py.str ""),
              ("telefone", Py.str "")])
      let vols := findallDesc transp "vol"
      let volumes := vols.map (fun vol =>
        ([("tipo_item", Py.str "VOLUME"),
          ("quantidade", pySafeInt (findtextD vol "qVol" "")),
          ("especie", Py.str (findtextD vol "esp" "")),
          ("marca", Py.str (findtextD vol "marca" "")),
          ("numeracao", Py.str (findtextD vol "nVol" "")),
          ("peso_liquido", pySafeFloat (findtextD vol "pesoL" "")),
          ("peso_bruto", pySafeFloat (findtextD vol "pesoB" ""))] : Dict))
      let lacres := vols.flatMap (fun vol =>
        (findallDesc vol "lacres").map (fun lac =>
          ([("tipo_item", Py.str "LACRE"),
            ("numero_lacre", Py.str (findtextD lac "nLacre" "")),
            ("item_pai_id", Py.none)] : Dict)))
      let reboques := (findallDesc transp "reboque").map (fun veic =>
        ([("tipo_item", Py.str "VEICULO"),
          ("tipo_veiculo", Py.str "REBOQUE"),
          ("placa", Py.str (findtextD veic "placa" "")),
          ("uf", Py.str (findtextD veic "UF" "")),
          ("rntc", Py.str (findtextD veic "RNTC" ""))] : Dict))
      let veiculos :=
        let vt := findChild transp "veicTransp"
        if elemTruthy vt then
          match vt with
          | some veic_transp =>
              reboques ++
                [[("tipo_item", Py.str "VEICULO"),
                  ("tipo_veiculo", Py.str "PRINCIPAL"),
                  ("placa", Py.str (findtextD veic_transp "placa" "")),
                  ("uf", Py.str (findtextD veic_transp "UF" "")),
                  ("rntc", Py.str (findtextD veic_transp "RNTC" ""))]]
          | Option.none => reboques
        else reboques
      pure (transporte, transportadora, transportadora_endereco, volumes,
        lacres, veiculos)

/-- Additional-information section (lines 487-491). -/
def extract_inf_adic (root : Xml) : Dict :=
  match findDesc root "infAdic" with
  | Option.none => []
  | some infAdic =>
      [("info_contribuinte", Py.str (findtextD infAdic "infCpl" "")),
       ("info_fisco", Py.str (findtextD infAdic "infAdFisco" ""))]

/-- The `try` body of `extrair_dados_nfe`. -/
def extrairCore (root : Xml) : Except String Extracted := do
  let nfe ← extract_nfe_header root
  let (emitente, emitente_endereco) ← extract_emitente root
  let (destinatario, destinatario_endereco) := extract_destinatario root
  let itens ← extract_itens (findallDesc root "det")
  let totais ← extract_totais root
  let (transporte, transportadora, transportadora_endereco, volumes, lacres,
      veiculos) ← extract_transporte root
  let informacoes_adicionais := extract_inf_adic root
  pure
    { nfe := nfe, emitente := emitente,
      emitente_endereco := emitente_endereco,
      destinatario := destinatario,
      destinatario_endereco := destinatario_endereco,
      itens := itens, totais := totais, transporte := transporte,
      transportadora := transportadora,
      transportadora_endereco := transportadora_endereco,
      volumes := volumes, lacres := lacres, veiculos := veiculos,
      informacoes_adicionais := informacoes_adicionais }

/-- `extrair_dados_nfe`: any exception in the body is caught and turned into
`None`. -/
def extrair_dados_nfe (root : Xml) : Option Extracted :=
  (extrairCore root).toOption

/-! ### The relational store

One list of rows per table of the `nfe` schema plus the surrogate-key
counter.  Every insert appends one row carrying an `id` column and bumps the
counter; nothing ever removes or rewrites committed rows except the
`ON CONFLICT` update of the header upsert. -/

structure DB where
  nfe : List Dict
  pessoa : List Dict
  endereco : List Dict
  nfe_pessoa : List Dict
  item_nfe : List Dict
  imposto : List Dict
  totais_nfe : List Dict
  transporte : List Dict
  transporte_item : List Dict
  informacoes_adicionais : List Dict
  processamento_nfe : List Dict
  nextId : Int
deriving Repr, DecidableEq

/-- The empty store; Postgres sequences start at 1. -/
def DB.empty : DB :=
  { nfe := [], pessoa := [], endereco := [], nfe_pessoa := [], item_nfe := [],
    imposto := [], totais_nfe := [], transporte := [], transporte_item := [],
    informacoes_adicionais := [], processamento_nfe := [], nextId := 1 }

/-- Append a row, giving it the next surrogate key. -/
def insertRow (rows : List Dict) (row : Dict) (nid : Int) : List Dict :=
  rows ++ [dictSet row "id" (Py.int nid)]

/-- The integer of an `id`-like cell (`result[0][0]`); inserts performed by
the model always store `Py.int` there. -/
def pyIntVal (v : Py) : Int :=
  match v with
  | Py.int n => n
  | _ => 0

/-- A `pessoa_id`/`transportadora_id` value as a cell (`None` is NULL). -/
def optIdPy : Option Int → Py
  | some n => Py.int n
  | Option.none => Py.none

/-- Python truthiness of an id variable (`if emitente_id:`). -/
def optIdTruthy : Option Int → Bool
  | some n => n ≠ 0
  | Option.none => false

/-- `_insert_or_get_pessoa_id` (lines 513-551): look up by CNPJ when truthy,
else by CPF when truthy, and return the existing id on a hit; in every other
case fall through to the INSERT (the source logs a warning for a party with
neither tax id and, per its own comment, proceeds with the insertion,
potentially creating duplicates).  On the failure-free executions the INSERT
always succeeds and returns the fresh id. -/
def insert_or_get_pessoa_id (db : DB) (pessoa_data : Dict) : DB × Option Int :=
  let cnpj := dictGetD pessoa_data "cnpj" Py.none
  let cpf := dictGetD pessoa_data "cpf" Py.none
  let hit :=
    if pyTruthy cnpj then
      db.pessoa.find? (fun r => decide (rowGet r "cnpj" = cnpj))
    else if pyTruthy cpf then
      db.pessoa.find? (fun r => decide (rowGet r "cpf" = cpf))
    else Option.none
  match hit with
  | some r => (db, some (pyIntVal (rowGet r "id")))
  | Option.none =>
      ({ db with pessoa := (insertRow db.pessoa pessoa_data db.nextId),
                 nextId := db.nextId + 1 }, some db.nextId)

/-- `_insert_endereco` (lines 553-563): a single unconditional INSERT; no
completeness check of any address field happens anywhere. -/
def insert_endereco (db : DB) (endereco_data : Dict) : DB :=
  { db with endereco := (insertRow db.endereco endereco_data db.nextId),
            nextId := db.nextId + 1 }

/-- Append one `processamento_nfe` row (the wall-clock timestamp and the raw
XML payload carry no structure and are stored as NULL in the model). -/
def insertProcRow (db : DB) (nfeIdVal : Py) (status msg : String) : DB :=
  let row : Dict :=
    [("nfe_id", nfeIdVal), ("data_processamento", Py.none),
     ("status", Py.str status), ("mensagem", Py.str msg),
     ("xml_original", Py.none), ("xml_processado", Py.none)]
  { db with processamento_nfe := insertRow db.processamento_nfe row db.nextId,
            nextId := db.nextId + 1 }

/-- `save_processing_status` (lines 768-799).  With `nfe_id is None` and an
XML payload the source re-extracts the document to find the header id by
access key; when that re-extraction returns `None`, `None.get('nfe')` raises
`AttributeError` inside the surrounding `try` and no audit row is written at
all. -/
def save_processing_status (db : DB) (nfe_id : Option Int) (xml : Option Xml)
    (status msg : String) : DB :=
  match nfe_id with
  | some n => insertProcRow db (Py.int n) status msg
  | Option.none =>
      match xml with
      | Option.none => insertProcRow db Py.none status msg
      | some root =>
          match extrair_dados_nfe root with
          | Option.none => db
          | some data =>
              match dictGet data.nfe "chave_acesso" with
              | Option.none => insertProcRow db Py.none status msg
              | some k =>
                  match db.nfe.find?
                      (fun r => decide (rowGet r "chave_acesso" = k)) with
                  | some r => insertProcRow db (rowGet r "id") status msg
                  | Option.none => insertProcRow db Py.none status msg

/-! ### `save_to_postgres` (lines 565-766), failure-free executions

The numbered steps of the source become one helper each.  Every statement
runs with `autocommit=True`; there is no transaction around the steps. -/

/-- Step 2 (lines 592-604): `INSERT ... ON CONFLICT (chave_acesso) DO UPDATE
SET data_atualizacao = EXCLUDED.data_atualizacao RETURNING id`.  A conflict
happens when the inserted key is non-NULL and equal to a stored key; the
update touches only `data_atualizacao` (a wall-clock column outside the
model) and the statement returns the id of the already-stored row. -/
def nfe_upsert (db : DB) (nfe_data : Dict) : DB × Int :=
  let key := dictGetD nfe_data "chave_acesso" Py.none
  let conflict := fun (r : Dict) =>
    decide (key ≠ Py.none) && decide (rowGet r "chave_acesso" = key)
  match db.nfe.find? conflict with
  | some r =>
      ({ db with nfe := db.nfe.map (fun row =>
            if conflict row then dictSet row "data_atualizacao" Py.none
            else row) },
       pyIntVal (rowGet r "id"))
  | Option.none =>
      ({ db with nfe := (insertRow db.nfe nfe_data db.nextId),
                 nextId := db.nextId + 1 }, db.nextId)

/-- Step 3 (lines 609-626), one party: `if <pessoa>_id and
data.get('<pessoa>_endereco'):` insert the address with `pessoa_id` set and
`nfe_id` NULL. -/
def save_endereco_for (db : DB) (pid : Option Int) (endereco : Dict) : DB :=
  match pid with
  | some e =>
      if e ≠ 0 && dictTruthy endereco then
        insert_endereco db
          (dictSet (dictSet endereco "pessoa_id" (Py.int e)) "nfe_id" Py.none)
      else db
  | Option.none => db

/-- Step 4 (lines 640-646): the issuer and recipient links (no carrier link
is written). -/
def save_links (db : DB) (nfe_id : Int)
    (emitente_id destinatario_id : Option Int) : DB :=
  let db :=
    match emitente_id with
    | some e =>
        if e ≠ 0 then
          let row : Dict :=
            [("nfe_id", Py.int nfe_id), ("pessoa_id", Py.int e),
             ("tipo_relacao", Py.str "EMITENTE")]
          { db with nfe_pessoa := insertRow db.nfe_pessoa row db.nextId,
                    nextId := db.nextId + 1 }
        else db
    | Option.none => db
  match destinatario_id with
  | some d =>
      if d ≠ 0 then
        let row : Dict :=
          [("nfe_id", Py.int nfe_id), ("pessoa_id", Py.int d),
           ("tipo_relacao", Py.str "DESTINATARIO")]
        { db with nfe_pessoa := insertRow db.nfe_pessoa row db.nextId,
                  nextId := db.nextId + 1 }
      else db
  | Option.none => db

/-- Step 5 (lines 648-679), one item: insert the item row (the `impostos`
list was popped from the dict), then its tax entries when the returned item
id is truthy. -/
def save_item (db : DB) (nfe_id : Int) (item : Item) : DB :=
  let item_row := dictSet item.fields "nfe_id" (Py.int nfe_id)
  let db1 := { db with item_nfe := insertRow db.item_nfe item_row db.nextId,
                       nextId := db.nextId + 1 }
  let item_nfe_id := db.nextId
  if item_nfe_id ≠ 0 then
    item.impostos.foldl (fun d imp =>
      let imp_row := dictSet imp "item_nfe_id" (Py.int item_nfe_id)
      { d with imposto := insertRow d.imposto imp_row d.nextId,
               nextId := d.nextId + 1 }) db1
  else db1

def save_itens (db : DB) (nfe_id : Int) (itens : List Item) : DB :=
  itens.foldl (fun d it => save_item d nfe_id it) db

/-- Step 6 (lines 681-691): the totals row, only when the totals dict is
truthy (non-empty). -/
def save_totais (db : DB) (nfe_id : Int) (totais : Dict) : DB :=
  if dictTruthy totais then
    let row := dictSet totais "nfe_id" (Py.int nfe_id)
    { db with totais_nfe := insertRow db.totais_nfe row db.nextId,
              nextId := db.nextId + 1 }
  else db

/-- Step 7 (lines 693-741): the transport row (linked to the carrier party id
or NULL), then its volumes and vehicles; the seal loop of the source is a
literal `pass` and writes nothing. -/
def save_transporte (db : DB) (nfe_id : Int) (transportadora_id : Option Int)
    (transporte : Dict) (volumes veiculos : List Dict) : DB :=
  if dictTruthy transporte then
    let trow := dictSet (dictSet transporte "nfe_id" (Py.int nfe_id))
      "transportadora_id" (optIdPy transportadora_id)
    let db1 := { db with transporte := insertRow db.transporte trow db.nextId,
                         nextId := db.nextId + 1 }
    let transporte_id := db.nextId
    if transporte_id ≠ 0 then
      let db2 := volumes.foldl (fun d vol =>
        let vol_row := dictSet vol "transporte_id" (Py.int transporte_id)
        { d with transporte_item := insertRow d.transporte_item vol_row d.nextId,
                 nextId := d.nextId + 1 }) db1
      veiculos.foldl (fun d veic =>
        let veic_row := dictSet veic "transporte_id" (Py.int transporte_id)
        { d with transporte_item := insertRow d.transporte_item veic_row d.nextId,
                 nextId := d.nextId + 1 }) db2
    else db1
  else db

/-- Step 8 (lines 743-753): the additional-information row, when truthy. -/
def save_inf_adic (db : DB) (nfe_id : Int) (inf : Dict) : DB :=
  if dictTruthy inf then
    let row := dictSet inf "nfe_id" (Py.int nfe_id)
    { db with informacoes_adicionais := insertRow db.informacoes_adicionais row db.nextId,
              nextId := db.nextId + 1 }
  else db

/-- Step 1 (lines 576-590) for one optional party dict:
`if data.get('<party>'):` resolve or insert, else no id. -/
def party_step (db : DB) (d : Dict) : DB × Option Int :=
  if dictTruthy d then insert_or_get_pessoa_id db d else (db, Option.none)

/-- `save_to_postgres` on the failure-free executions (no SQL statement
raises).  The only exception the body itself can raise is
`"Falha ao inserir NFe principal"` when the returned header id is falsy; it
is caught by the outer handler, which records a FALHA_DB audit row and
returns `None`.  Note that a conflicting access key is NOT such a failure:
the upsert returns the existing id and every child-row step still runs. -/
def save_to_postgres (db : DB) (data : Extracted) (xml : Xml) :
    DB × Option Int :=
  let step1e := party_step db data.emitente
  let db := step1e.1
  let emitente_id := step1e.2
  let step1d := party_step db data.destinatario
  let db := step1d.1
  let destinatario_id := step1d.2
  let step1t := party_step db data.transportadora
  let db := step1t.1
  let transportadora_id := step1t.2
  let step2 := nfe_upsert db data.nfe
  let db := step2.1
  let nfe_id := step2.2
  if nfe_id = 0 then
    (save_processing_status db (some 0) (some xml) "FALHA_DB"
      "Falha ao inserir NFe principal.", Option.none)
  else
    let db := save_endereco_for db emitente_id data.emitente_endereco
    let db := save_endereco_for db destinatario_id data.destinatario_endereco
    let db := save_endereco_for db transportadora_id data.transportadora_endereco
    let db := save_links db nfe_id emitente_id destinatario_id
    let db := save_itens db nfe_id data.itens
    let db := save_totais db nfe_id data.totais
    let db := save_transporte db nfe_id transportadora_id data.transporte
      data.volumes data.veiculos
    let db := save_inf_adic db nfe_id data.informacoes_adicionais
    (db, some nfe_id)

/-! ### `save_to_postgres` with a failing statement

The same function, now threading a statement counter and an oracle naming
the one SQL statement (if any) that raises.  Every `pg_hook.run`/`get_first`
call consumes one index.  A raise inside one of the source's inner
`try`/`except` blocks (the party INSERT, each address INSERT, each tax-entry
INSERT, the audit writer) is swallowed exactly where the source swallows it;
everything else propagates to the outer handler of `save_to_postgres`, which
records a FALHA_DB audit row and returns `None`.  Because every statement
ran with `autocommit=True`, nothing is ever rolled back. -/

structure Exec where
  db : DB
  idx : Nat
  failAt : Option Nat

/-- Execute one SQL statement: it raises exactly when the oracle names its
index; otherwise its effect is applied. -/
def runStmt (e : Exec) (f : DB → DB × α) : Exec × Except Unit α :=
  if e.failAt = some e.idx then
    ({ e with idx := e.idx + 1 }, Except.error ())
  else
    let r := f e.db
    ({ e with db := r.1, idx := e.idx + 1 }, Except.ok r.2)

/-- The party INSERT, inside its own `try`: a raise returns `None`. -/
def pessoa_insertRun (e : Exec) (pessoa_data : Dict) :
    Exec × Except Unit (Option Int) :=
  match runStmt e (fun db =>
      ({ db with pessoa := insertRow db.pessoa pessoa_data db.nextId,
                 nextId := db.nextId + 1 }, db.nextId)) with
  | (e, Except.error _) => (e, Except.ok Option.none)
  | (e, Except.ok n) => (e, Except.ok (some n))

/-- `_insert_or_get_pessoa_id` with the oracle: the SELECT is outside the
inner `try` and propagates; the INSERT is caught. -/
def insert_or_get_pessoa_idRun (e : Exec) (pessoa_data : Dict) :
    Exec × Except Unit (Option Int) :=
  let cnpj := dictGetD pessoa_data "cnpj" Py.none
  let cpf := dictGetD pessoa_data "cpf" Py.none
  if pyTruthy cnpj then
    match runStmt e (fun db =>
        (db, db.pessoa.find? (fun r => decide (rowGet r "cnpj" = cnpj)))) with
    | (e, Except.error _) => (e, Except.error ())
    | (e, Except.ok (some r)) => (e, Except.ok (some (pyIntVal (rowGet r "id"))))
    | (e, Except.ok Option.none) => pessoa_insertRun e pessoa_data
  else if pyTruthy cpf then
    match runStmt e (fun db =>
        (db, db.pessoa.find? (fun r => decide (rowGet r "cpf" = cpf)))) with
    | (e, Except.error _) => (e, Except.error ())
    | (e, Except.ok (some r)) => (e, Except.ok (some (pyIntVal (rowGet r "id"))))
    | (e, Except.ok Option.none) => pessoa_insertRun e pessoa_data
  else pessoa_insertRun e pessoa_data

/-- `_insert_endereco` with the oracle: the INSERT error is logged and
swallowed. -/
def insert_enderecoRun (e : Exec) (endereco_data : Dict) : Exec :=
  (runStmt e (fun db => (insert_endereco db endereco_data, ()))).1

def save_endereco_forRun (e : Exec) (pid : Option Int) (endereco : Dict) :
    Exec :=
  match pid with
  | some p =>
      if p ≠ 0 && dictTruthy endereco then
        insert_enderecoRun e
          (dictSet (dictSet endereco "pessoa_id" (Py.int p)) "nfe_id" Py.none)
      else e
  | Option.none => e

/-- The audit INSERT of `save_processing_status`; its surrounding `try`
swallows any raise. -/
def proc_insertRun (e : Exec) (nfeIdVal : Py) (status msg : String) : Exec :=
  (runStmt e (fun db => (insertProcRow db nfeIdVal status msg, ()))).1

/-- `save_processing_status` with the oracle (a raise of the lookup SELECT is
also swallowed by the surrounding `try`, so no audit row is written then). -/
def save_processing_statusRun (e : Exec) (nfe_id : Option Int)
    (xml : Option Xml) (status msg : String) : Exec :=
  match nfe_id with
  | some n => proc_insertRun e (Py.int n) status msg
  | Option.none =>
      match xml with
      | Option.none => proc_insertRun e Py.none status msg
      | some root =>
          match extrair_dados_nfe root with
          | Option.none => e
          | some data =>
              match dictGet data.nfe "chave_acesso" with
              | Option.none => proc_insertRun e Py.none status msg
              | some k =>
                  match runStmt e (fun db => (db, db.nfe.find?
                      (fun r => decide (rowGet r "chave_acesso" = k)))) with
                  | (e, Except.error _) => e
                  | (e, Except.ok (some r)) =>
                      proc_insertRun e (rowGet r "id") status msg
                  | (e, Except.ok Option.none) =>
                      proc_insertRun e Py.none status msg

/-- The outer `except` of `save_to_postgres`: log, write the FALHA_DB audit
row, return `None`. -/
def saveFailRun (e : Exec) (nfe_id : Option Int) (xml : Xml) :
    Exec × Option Int :=
  (save_processing_statusRun e nfe_id (some xml) "FALHA_DB" "erro", Option.none)

def save_linksRun (e : Exec) (nfe_id : Int)
    (emitente_id destinatario_id : Option Int) : Exec × Except Unit Unit :=
  let step :=
    match emitente_id with
    | some p =>
        if p ≠ 0 then
          runStmt e (fun db =>
            let row : Dict :=
              [("nfe_id", Py.int nfe_id), ("pessoa_id", Py.int p),
               ("tipo_relacao", Py.str "EMITENTE")]
            ({ db with nfe_pessoa := insertRow db.nfe_pessoa row db.nextId,
                       nextId := db.nextId + 1 }, ()))
        else (e, Except.ok ())
    | Option.none => (e, Except.ok ())
  match step with
  | (e, Except.error x) => (e, Except.error x)
  | (e, Except.ok _) =>
      match destinatario_id with
      | some p =>
          if p ≠ 0 then
            match runStmt e (fun db =>
                let row : Dict :=
                  [("nfe_id", Py.int nfe_id), ("pessoa_id", Py.int p),
                   ("tipo_relacao", Py.str "DESTINATARIO")]
                ({ db with nfe_pessoa := insertRow db.nfe_pessoa row db.nextId,
                           nextId := db.nextId + 1 }, ())) with
            | (e, Except.error x) => (e, Except.error x)
            | (e, Except.ok _) => (e, Except.ok ())
          else (e, Except.ok ())
      | Option.none => (e, Except.ok ())

/-- One item with the oracle: the item INSERT propagates, each tax INSERT is
swallowed. -/
def save_itemRun (e : Exec) (nfe_id : Int) (item : Item) :
    Exec × Except Unit Unit :=
  match runStmt e (fun db =>
      let item_row := dictSet item.fields "nfe_id" (Py.int nfe_id)
      ({ db with item_nfe := insertRow db.item_nfe item_row db.nextId,
                 nextId := db.nextId + 1 }, db.nextId)) with
  | (e, Except.error x) => (e, Except.error x)
  | (e, Except.ok item_nfe_id) =>
      if item_nfe_id ≠ 0 then
        (item.impostos.foldl (fun ex imp =>
          (runStmt ex (fun db =>
            let imp_row := dictSet imp "item_nfe_id" (Py.int item_nfe_id)
            ({ db with imposto := insertRow db.imposto imp_row db.nextId,
                       nextId := db.nextId + 1 }, ()))).1) e, Except.ok ())
      else (e, Except.ok ())

def save_itensRun (e : Exec) (nfe_id : Int) :
    List Item → Exec × Except Unit Unit
  | [] => (e, Except.ok ())
  | it :: rest =>
      match save_itemRun e nfe_id it with
      | (e, Except.error x) => (e, Except.error x)
      | (e, Except.ok _) => save_itensRun e nfe_id rest

def save_totaisRun (e : Exec) (nfe_id : Int) (totais : Dict) :
    Exec × Except Unit Unit :=
  if dictTruthy totais then
    runStmt e (fun db => (save_totais db nfe_id totais, ()))
  else (e, Except.ok ())

def insertTranspItemsRun (e : Exec) (transporte_id : Int) :
    List Dict → Exec × Except Unit Unit
  | [] => (e, Except.ok ())
  | row :: rest =>
      match runStmt e (fun db =>
          let item_row := dictSet row "transporte_id" (Py.int transporte_id)
          ({ db with
             transporte_item := insertRow db.transporte_item item_row db.nextId,
             nextId := db.nextId + 1 }, ())) with
      | (e, Except.error x) => (e, Except.error x)
      | (e, Except.ok _) => insertTranspItemsRun e transporte_id rest

def save_transporteRun (e : Exec) (nfe_id : Int)
    (transportadora_id : Option Int) (transporte : Dict)
    (volumes veiculos : List Dict) : Exec × Except Unit Unit :=
  if dictTruthy transporte then
    match runStmt e (fun db =>
        let trow := dictSet (dictSet transporte "nfe_id" (Py.int nfe_id))
          "transportadora_id" (optIdPy transportadora_id)
        ({ db with transporte := insertRow db.transporte trow db.nextId,
                   nextId := db.nextId + 1 }, db.nextId)) with
    | (e, Except.error x) => (e, Except.error x)
    | (e, Except.ok transporte_id) =>
        if transporte_id ≠ 0 then
          match insertTranspItemsRun e transporte_id volumes with
          | (e, Except.error x) => (e, Except.error x)
          | (e, Except.ok _) => insertTranspItemsRun e transporte_id veiculos
        else (e, Except.ok ())
  else (e, Except.ok ())

def save_inf_adicRun (e : Exec) (nfe_id : Int) (inf : Dict) :
    Exec × Except Unit Unit :=
  if dictTruthy inf then
    runStmt e (fun db => (save_inf_adic db nfe_id inf, ()))
  else (e, Except.ok ())

/-- `save_to_postgres` with the statement-failure oracle. -/
def save_to_postgresRun (e : Exec) (data : Extracted) (xml : Xml) :
    Exec × Option Int :=
  match (if dictTruthy data.emitente then
      insert_or_get_pessoa_idRun e data.emitente
    else (e, Except.ok Option.none)) with
  | (e, Except.error _) => saveFailRun e Option.none xml
  | (e, Except.ok emitente_id) =>
  match (if dictTruthy data.destinatario then
      insert_or_get_pessoa_idRun e data.destinatario
    else (e, Except.ok Option.none)) with
  | (e, Except.error _) => saveFailRun e Option.none xml
  | (e, Except.ok destinatario_id) =>
  match (if dictTruthy data.transportadora then
      insert_or_get_pessoa_idRun e data.transportadora
    else (e, Except.ok Option.none)) with
  | (e, Except.error _) => saveFailRun e Option.none xml
  | (e, Except.ok transportadora_id) =>
  match runStmt e (fun db => nfe_upsert db data.nfe) with
  | (e, Except.error _) => saveFailRun e Option.none xml
  | (e, Except.ok nfe_id) =>
  if nfe_id = 0 then saveFailRun e (some 0) xml
  else
  let e := save_endereco_forRun e emitente_id data.emitente_endereco
  let e := save_endereco_forRun e destinatario_id data.destinatario_endereco
  let e := save_endereco_forRun e transportadora_id data.transportadora_endereco
  match save_linksRun e nfe_id emitente_id destinatario_id with
  | (e, Except.error _) => saveFailRun e (some nfe_id) xml
  | (e, Except.ok _) =>
  match save_itensRun e nfe_id data.itens with
  | (e, Except.error _) => saveFailRun e (some nfe_id) xml
  | (e, Except.ok _) =>
  match save_totaisRun e nfe_id data.totais with
  | (e, Except.error _) => saveFailRun e (some nfe_id) xml
  | (e, Except.ok _) =>
  match save_transporteRun e nfe_id transportadora_id data.transporte
      data.volumes data.veiculos with
  | (e, Except.error _) => saveFailRun e (some nfe_id) xml
  | (e, Except.ok _) =>
  match save_inf_adicRun e nfe_id data.informacoes_adicionais with
  | (e, Except.error _) => saveFailRun e (some nfe_id) xml
  | (e, Except.ok _) => (e, some nfe_id)

/-! ### Query service (`get_nota_fiscal_by_identifier`,
nota_fiscal_service.py, lines 53-207) -/

/-- `identifier.isdigit()`: non-empty and all digits (the identifiers of
this service are ASCII strings). -/
def pyIsdigit (s : String) : Bool :=
  !s.data.isEmpty && s.data.all Char.isDigit

/-- The 21 columns of the header SELECT (lines 66-89). -/
def nfeSelectCols : List String :=
  ["id", "chave_acesso", "versao", "codigo_uf", "codigo_nf",
   "natureza_operacao", "indicador_pagamento", "modelo", "serie", "numero",
   "data_emissao", "data_saida_entrada", "tipo_nf",
   "codigo_municipio_fato_gerador", "tipo_impressao", "tipo_emissao",
   "digito_verificador", "ambiente", "finalidade_nf", "processo_emissao",
   "versao_processo"]

/-- Projection of a row onto a column list (absent columns are NULL). -/
def selectCols (r : Dict) (cols : List String) : Dict :=
  cols.map (fun c => (c, rowGet r c))

def pyNumKey (r : Dict) : Int := pyIntVal (rowGet r "numero_item")

/-- Stable insertion step for `ORDER BY numero_item`. -/
def insertByNumero : List Dict → Dict → List Dict
  | [], r => [r]
  | x :: xs, r =>
      if pyNumKey r < pyNumKey x then r :: x :: xs else x :: insertByNumero xs r

/-- `ORDER BY numero_item` (stable). -/
def sortByNumero (rows : List Dict) : List Dict :=
  rows.foldl insertByNumero []

/-- The transport block of the assembled result: the transport row plus the
nested carrier, carrier address, volumes (each with its seals) and
vehicles. -/
structure TransporteData where
  row : Dict
  transportadora : Option Dict
  transportadora_endereco : Option Dict
  volumes : List (Dict × List Dict)
  veiculos : List Dict
deriving Repr, DecidableEq

/-- The assembled nested representation of one invoice (the keys the service
adds to the header dict, as structure fields). -/
structure NotaFiscal where
  nfe : Dict
  emitente : Option Dict
  emitente_endereco : Option Dict
  destinatario : Option Dict
  destinatario_endereco : Option Dict
  itens : List (Dict × List Dict)
  totais : Option Dict
  transporte : Option TransporteData
  informacoes_adicionais : Option Dict
deriving Repr, DecidableEq

def padNat (width : Nat) (n : Nat) : String :=
  let s := toString n
  if s.length < width then
    String.mk (List.replicate (width - s.length) '0') ++ s
  else s

/-- `date.isoformat()`. -/
def isoDate (y m d : Nat) : String :=
  padNat 4 y ++ "-" ++ padNat 2 m ++ "-" ++ padNat 2 d

/-- `_json_serial` on one cell: dates become their ISO string; scalars pass
through (Postgres `numeric` comes back as `Decimal` and is turned back into
a float, an identity in the rational model). -/
def pySerial : Py → Py
  | Py.date y m d => Py.str (isoDate y m d)
  | v => v

def serialDict (d : Dict) : Dict := d.map (fun p => (p.1, pySerial p.2))

def serialNota (r : NotaFiscal) : NotaFiscal :=
  { nfe := serialDict r.nfe,
    emitente := r.emitente.map serialDict,
    emitente_endereco := r.emitente_endereco.map serialDict,
    destinatario := r.destinatario.map serialDict,
    destinatario_endereco := r.destinatario_endereco.map serialDict,
    itens := r.itens.map (fun p => (serialDict p.1, p.2.map serialDict)),
    totais := r.totais.map serialDict,
    transporte := r.transporte.map (fun t =>
      { row := serialDict t.row,
        transportadora := t.transportadora.map serialDict,
        transportadora_endereco := t.transportadora_endereco.map serialDict,
        volumes := t.volumes.map (fun p => (serialDict p.1, p.2.map serialDict)),
        veiculos := t.veiculos.map serialDict }),
    informacoes_adicionais := r.informacoes_adicionais.map serialDict }

/-- The header row lookup: `identifier.isdigit()` routes to `WHERE n.id =
int(identifier)`, anything else to `WHERE n.chave_acesso = identifier`. -/
def fetch_nfe_row (db : DB) (identifier : String) : Option Dict :=
  if pyIsdigit identifier then
    db.nfe.find? (fun r =>
      decide (rowGet r "id" = Py.int ((pyIntOfString identifier).getD 0)))
  else
    db.nfe.find? (fun r => decide (rowGet r "chave_acesso" = Py.str identifier))

/-- Assembly of the nested representation from a found header row
(lines 96-207). -/
def assemble_nota (db : DB) (nfe_row : Dict) : NotaFiscal :=
  let nfe_id := rowGet nfe_row "id"
  let nfe_data := selectCols nfe_row nfeSelectCols
  let rels := db.nfe_pessoa.filter (fun r => decide (rowGet r "nfe_id" = nfe_id))
  let ids := rels.foldl (fun (p : Py × Py) r =>
      if rowGet r "tipo_relacao" = Py.str "EMITENTE" then
        (rowGet r "pessoa_id", p.2)
      else if rowGet r "tipo_relacao" = Py.str "DESTINATARIO" then
        (p.1, rowGet r "pessoa_id")
      else p) (Py.none, Py.none)
  let emitente_id := ids.1
  let destinatario_id := ids.2
  let emitente :=
    if pyTruthy emitente_id then
      db.pessoa.find? (fun r => decide (rowGet r "id" = emitente_id))
    else Option.none
  let emitente_endereco :=
    match emitente with
    | some _ => db.endereco.find? (fun r =>
        decide (rowGet r "pessoa_id" = emitente_id ∧
          rowGet r "tipo_endereco" = Py.str "PRINCIPAL"))
    | Option.none => Option.none
  let destinatario :=
    if pyTruthy destinatario_id then
      db.pessoa.find? (fun r => decide (rowGet r "id" = destinatario_id))
    else Option.none
  let destinatario_endereco :=
    match destinatario with
    | some _ => db.endereco.find? (fun r =>
        decide (rowGet r "pessoa_id" = destinatario_id ∧
          rowGet r "tipo_endereco" = Py.str "PRINCIPAL"))
    | Option.none => Option.none
  let itens := (sortByNumero (db.item_nfe.filter (fun r =>
      decide (rowGet r "nfe_id" = nfe_id)))).map (fun item_row =>
        (item_row, db.imposto.filter (fun r =>
          decide (rowGet r "item_nfe_id" = rowGet item_row "id"))))
  let totais := db.totais_nfe.find? (fun r => decide (rowGet r "nfe_id" = nfe_id))
  let transporte :=
    match db.transporte.find? (fun r => decide (rowGet r "nfe_id" = nfe_id)) with
    | Option.none => Option.none
    | some trow =>
        let tid := rowGet trow "transportadora_id"
        let transportadora :=
          if pyTruthy tid then
            db.pessoa.find? (fun r => decide (rowGet r "id" = tid))
          else Option.none
        let transportadora_endereco :=
          match transportadora with
          | some _ => db.endereco.find? (fun r =>
              decide (rowGet r "pessoa_id" = tid ∧
                rowGet r "tipo_endereco" = Py.str "PRINCIPAL"))
          | Option.none => Option.none
        let volumes := (db.transporte_item.filter (fun r =>
            decide (rowGet r "transporte_id" = rowGet trow "id" ∧
              rowGet r "tipo_item" = Py.str "VOLUME"))).map (fun v =>
                (v, db.transporte_item.filter (fun r =>
                  decide (rowGet r "item_pai_id" = rowGet v "id" ∧
                    rowGet r "tipo_item" = Py.str "LACRE"))))
        let veiculos := db.transporte_item.filter (fun r =>
            decide (rowGet r "transporte_id" = rowGet trow "id" ∧
              rowGet r "tipo_item" = Py.str "VEICULO"))
        some { row := trow, transportadora := transportadora,
               transportadora_endereco := transportadora_endereco,
               volumes := volumes, veiculos := veiculos }
  let inf := db.informacoes_adicionais.find? (fun r =>
      decide (rowGet r "nfe_id" = nfe_id))
  { nfe := nfe_data, emitente := emitente,
    emitente_endereco := emitente_endereco, destinatario := destinatario,
    destinatario_endereco := destinatario_endereco, itens := itens,
    totais := totais, transporte := transporte,
    informacoes_adicionais := inf }

/-- `get_nota_fiscal_by_identifier`: route on `isdigit`, return `None` when
no header row matches, else assemble and JSON-serialize the nested
representation. -/
def get_nota_fiscal_by_identifier (db : DB) (identifier : String) :
    Option NotaFiscal :=
  match fetch_nfe_row db identifier with
  | Option.none => Option.none
  | some nfe_row => some (serialNota (assemble_nota db nfe_row))

/-! ### Concrete fixtures used by witnesses and counterexamples -/

def Extracted.empty : Extracted :=
  { nfe := [], emitente := [], emitente_endereco := [], destinatario := [],
    destinatario_endereco := [], itens := [], totais := [], transporte := [],
    transportadora := [], transportadora_endereco := [], volumes := [],
    lacres := [], veiculos := [], informacoes_adicionais := [] }

/-- A leaf element with text. -/
def tEl (tag : String) (txt : String) : Xml := el tag [] (some txt) []

def chave44 : String := "35230512345678000199550010000000011000000015"

/-- A small well-formed product NF-e document. -/
def sampleDoc : Xml :=
  el "nfeProc" [] Option.none [
    el "NFe" [] Option.none [
      el "infNFe"
        [("Id", "NFe35230512345678000199550010000000011000000015"),
         ("versao", "4.00")] Option.none [
        el "ide" [] Option.none
          [tEl "cUF" "35", tEl "natOp" "VENDA", tEl "mod" "55",
           tEl "serie" "1", tEl "nNF" "101",
           tEl "dhEmi" "2023-05-01T14:30:00-03:00"],
        el "emit" [] Option.none
          [tEl "CNPJ" "12345678000199", tEl "xNome" "ACME"],
        el "dest" [] Option.none
          [tEl "CNPJ" "98765432000188", tEl "xNome" "BOB"],
        el "det" [("nItem", "1")] Option.none
          [el "prod" [] Option.none
            [tEl "cProd" "P1", tEl "xProd" "Widget", tEl "qCom" "2.0",
             tEl "vUnCom" "5.0", tEl "vProd" "10.0"]],
        el "total" [] Option.none
          [el "ICMSTot" [] Option.none
            [tEl "vProd" "10.0", tEl "vNF" "10.0"]]]]]

def sampleData : Extracted := (extrair_dados_nfe sampleDoc).getD Extracted.empty

/-- `sampleDoc` processed once and twice from the empty store. -/
def saved1 : DB × Option Int := save_to_postgres DB.empty sampleData sampleDoc

def saved2 : DB × Option Int := save_to_postgres saved1.1 sampleData sampleDoc

/-- `sampleDoc` with an emission date that matches none of the formats. -/
def docBadDate : Xml :=
  el "nfeProc" [] Option.none [
    el "infNFe"
      [("Id", "NFe35230512345678000199550010000000011000000015")]
      Option.none [
      el "ide" [] Option.none
        [tEl "cUF" "35", tEl "dhEmi" "not-a-date"],
      el "emit" [] Option.none
        [tEl "CNPJ" "12345678000199", tEl "xNome" "ACME"]]]

/-- A document whose only line item has a non-numeric sequence attribute. -/
def docBadItem : Xml :=
  el "nfeProc" [] Option.none [
    el "infNFe"
      [("Id", "NFe35230512345678000199550010000000011000000015")]
      Option.none [
      el "ide" [] Option.none [tEl "cUF" "35"],
      el "det" [("nItem", "abc")] Option.none
        [el "prod" [] Option.none [tEl "cProd" "P1"]]]]

/-- A document whose issuer address has no postal code element. -/
def docNoCep : Xml :=
  el "nfeProc" [] Option.none [
    el "infNFe"
      [("Id", "NFe35230512345678000199550010000000011000000015")]
      Option.none [
      el "ide" [] Option.none [tEl "cUF" "35"],
      el "emit" [] Option.none
        [tEl "CNPJ" "12345678000199", tEl "xNome" "ACME",
         el "enderEmit" [] Option.none
           [tEl "xLgr" "RUA A", tEl "nro" "10", tEl "xBairro" "CENTRO",
            tEl "cMun" "3550308", tEl "xMun" "SAO PAULO", tEl "UF" "SP"]]]]

def dataNoCep : Extracted := (extrair_dados_nfe docNoCep).getD Extracted.empty

def savedNoCep : DB × Option Int := save_to_postgres DB.empty dataNoCep docNoCep

/-- A party dict with neither CNPJ nor CPF. -/
def pessoaSemDoc : Dict :=
  [("tipo_pessoa", Py.str "TRANSPORTADORA"), ("cnpj", Py.str ""),
   ("cpf", Py.str ""), ("nome", Py.str "SEM DOCUMENTO")]

/-- A store holding one header row whose access key is the empty string. -/
def dbEmptyKey : DB :=
  { DB.empty with
    nfe := [[("id", Py.int 7), ("chave_acesso", Py.str "")]], nextId := 8 }

/-- `sampleDoc` persisted with the oracle making statement 8 (the totals
INSERT) raise: statements 0-7 (party lookups and inserts, the header upsert,
both links, the item insert) already committed. -/
def run8 : Exec × Option Int :=
  save_to_postgresRun { db := DB.empty, idx := 0, failAt := some 8 }
    sampleData sampleDoc

/-- Two line items for the sequence-number witness: one with a numeric
attribute, one with no attribute. -/
def detWithAttr : Xml := el "det" [("nItem", "7")] Option.none []

def detNoAttr : Xml := el "det" [] Option.none []

/-! ### Growth between store states

Because every statement runs with `autocommit=True`, a failing save can only
stop early: rows written by earlier statements stay.  `dbGrows d1 d2` says
that `d2` extends `d1`: every child table of `d2` is the corresponding table
of `d1` with rows appended, and the header table never shrinks (a header
conflict rewrites header rows in place, keeping the count). -/

def tableExtends (old new : List Dict) : Prop := ∃ t, new = old ++ t

def dbGrows (d1 d2 : DB) : Prop :=
  d1.nfe.length ≤ d2.nfe.length ∧
  tableExtends d1.pessoa d2.pessoa ∧
  tableExtends d1.endereco d2.endereco ∧
  tableExtends d1.nfe_pessoa d2.nfe_pessoa ∧
  tableExtends d1.item_nfe d2.item_nfe ∧
  tableExtends d1.imposto d2.imposto ∧
  tableExtends d1.totais_nfe d2.totais_nfe ∧
  tableExtends d1.transporte d2.transporte ∧
  tableExtends d1.transporte_item d2.transporte_item ∧
  tableExtends d1.informacoes_adicionais d2.informacoes_adicionais ∧
  tableExtends d1.processamento_nfe d2.processamento_nfe

end Watchman

namespace Watchman

/-! ## Lemmas about dict lookup and update -/

theorem dictGet_cons (p : String × Py) (d : Dict) (k : String) :
    dictGet (p :: d) k = if p.1 = k then some p.2 else dictGet d k := by
  simp only [dictGet, List.find?_cons]
  by_cases h : p.1 = k <;> simp [h]

theorem dictGet_append (d1 d2 : Dict) (k : String) :
    dictGet (d1 ++ d2) k = (dictGet d1 k).or (dictGet d2 k) := by
  simp only [dictGet, List.find?_append]
  cases h : List.find? (fun p => decide (p.1 = k)) d1 <;> simp [Option.or]

theorem dictSet_cons_ne (p : String × Py) (d : Dict) (k : String) (v : Py)
    (h : p.1 ≠ k) : dictSet (p :: d) k v = p :: dictSet d k v := by
  have hp : (decide (p.1 = k)) = false := by simp [h]
  simp only [dictSet, List.find?_cons, hp]
  by_cases h2 : (List.find? (fun q => decide (q.1 = k)) d).isSome <;>
    simp [h2, h]

theorem dictSet_cons_eq (p : String × Py) (d : Dict) (k : String) (v : Py)
    (h : p.1 = k) :
    dictSet (p :: d) k v =
      (k, v) :: d.map (fun q => if q.1 = k then (k, v) else q) := by
  have hp : (decide (p.1 = k)) = true := by simp [h]
  simp only [dictSet, List.find?_cons, hp]
  simp [h]

theorem dictGet_map_set_ne (d : Dict) (k k2 : String) (v : Py)
    (h : k2 ≠ k) :
    dictGet (d.map (fun q => if q.1 = k then (k, v) else q)) k2 =
      dictGet d k2 := by
  induction d with
  | nil => rfl
  | cons p rest ih =>
      by_cases hp : p.1 = k
      · rw [List.map_cons, if_pos hp, dictGet_cons, dictGet_cons]
        have h1 : k ≠ k2 := fun hh => h hh.symm
        have h2 : p.1 ≠ k2 := by rw [hp]; exact h1
        simp [h1, h2, ih]
      · rw [List.map_cons, if_neg hp, dictGet_cons, dictGet_cons, ih]

theorem dictGet_set (d : Dict) (k k2 : String) (v : Py) :
    dictGet (dictSet d k v) k2 = if k2 = k then some v else dictGet d k2 := by
  induction d with
  | nil =>
      have h0 : dictSet [] k v = [(k, v)] := rfl
      rw [h0, dictGet_cons]
      by_cases h : k2 = k
      · simp [h]
      · have h2 : k ≠ k2 := fun hh => h hh.symm
        simp [h, h2]
  | cons p rest ih =>
      by_cases hp : p.1 = k
      · rw [dictSet_cons_eq _ _ _ _ hp, dictGet_cons]
        by_cases h2 : k2 = k
        · simp [h2]
        · have h3 : k ≠ k2 := fun hh => h2 hh.symm
          rw [if_neg h3, if_neg h2, dictGet_map_set_ne _ _ _ _ h2,
            dictGet_cons]
          have h4 : p.1 ≠ k2 := by rw [hp]; exact h3
          rw [if_neg h4]
      · rw [dictSet_cons_ne _ _ _ _ hp, dictGet_cons, dictGet_cons, ih]
        by_cases h2 : k2 = k
        · have h4 : p.1 ≠ k2 := by rw [h2]; exact hp
          rw [if_neg h4, if_pos h2, if_pos h2]
        · rw [if_neg h2, if_neg h2]

theorem dictGet_set_self (d : Dict) (k : String) (v : Py) :
    dictGet (dictSet d k v) k = some v := by simp [dictGet_set]

theorem dictGet_set_ne (d : Dict) (k k2 : String) (v : Py) (h : k2 ≠ k) :
    dictGet (dictSet d k v) k2 = dictGet d k2 := by simp [dictGet_set, h]

theorem rowGet_set_self (d : Dict) (k : String) (v : Py) :
    rowGet (dictSet d k v) k = v := by
  simp [rowGet, dictGetD, dictGet_set_self]

theorem rowGet_set_ne (d : Dict) (k k2 : String) (v : Py) (h : k2 ≠ k) :
    rowGet (dictSet d k v) k2 = rowGet d k2 := by
  simp [rowGet, dictGetD, dictGet_set_ne _ _ _ _ h]

theorem rowGet_cons (p : String × Py) (d : Dict) (k : String) :
    rowGet (p :: d) k = if p.1 = k then p.2 else rowGet d k := by
  simp only [rowGet, dictGetD, dictGet_cons]
  by_cases h : p.1 = k <;> simp [h]

instance exceptDecEq {e a : Type} [DecidableEq e] [DecidableEq a] :
    DecidableEq (Except e a) := fun x y =>
  match x, y with
  | Except.error u, Except.error v =>
      if h : u = v then isTrue (by rw [h])
      else isFalse (by intro hc; cases hc; exact h rfl)
  | Except.ok u, Except.ok v =>
      if h : u = v then isTrue (by rw [h])
      else isFalse (by intro hc; cases hc; exact h rfl)
  | Except.error _, Except.ok _ => isFalse (by intro hc; cases hc)
  | Except.ok _, Except.error _ => isFalse (by intro hc; cases hc)

/-! ## C4 — the safe-parse helpers -/

/-- On a string that `float` parses to a finite value, the full `safe_int`
agrees with its finite-literal restriction used at the extraction call
sites. -/
theorem pySafeInt_agrees (s : String) (q : Rat) (hs : s ≠ "")
    (hinf : parseInfNan (stripWs s.data) = Option.none)
    (h : pyFloatOfString s = some q) (hov : overflows q = false) :
    safe_int (some s) = Except.ok (some (ratTrunc q)) ∧
    pySafeInt s = Py.int (ratTrunc q) := by
  constructor
  · simp only [safe_int, pyFloatCallE, pyFloatValOfString, hinf, h,
      Option.map_some, hov]
    rw [if_neg hs]
    simp [intOfPyFloat, hov]
  · simp [pySafeInt, h]

/-- **C4** (code bug): the claim's examples do hold — `_safe_float("abc")`
and `_safe_int("abc")` return `None`, `_safe_int("12.0")` truncates to 12 —
and `_safe_float` itself never lets an exception escape (`float` raises
only `ValueError`, which is caught; an overflowing literal *returns* an
infinity).  But the never-raise half of the claim is false for
`_safe_int`: `int(float(value))` raises `OverflowError` whenever
`float(value)` is infinite (an `inf` spelling or an overflowing literal
such as `"1e400"`), and `except ValueError` does not catch it.  The last
conjunct characterizes the raising inputs exactly. -/
theorem C4_safe_parse_bug :
    safe_float (some "abc") = Except.ok Option.none ∧
    safe_int (some "abc") = Except.ok Option.none ∧
    safe_int (some "12.0") = Except.ok (some 12) ∧
    safe_float (some "1e400") = Except.ok (some (PyFloat.inf false)) ∧
    safe_float (some "inf") = Except.ok (some (PyFloat.inf false)) ∧
    safe_int (some "inf") = Except.error "OverflowError" ∧
    safe_int (some "1e400") = Except.error "OverflowError" ∧
    safe_int (some "-Infinity") = Except.error "OverflowError" ∧
    (∀ v : Option String, ∃ r, safe_float v = Except.ok r) ∧
    (∀ s : String, safe_int (some s) = Except.error "OverflowError" ↔
      (s ≠ "" ∧ ∃ b, pyFloatValOfString s = some (PyFloat.inf b))) := by
  refine ⟨by decide, by decide, by decide, by rfl, by decide, by decide,
    by rfl, by decide, ?_, ?_⟩
  · intro v
    unfold safe_float pyFloatCallE
    rcases v with _ | s
    · exact ⟨Option.none, rfl⟩
    · dsimp only
      by_cases hs : s = ""
      · rw [if_pos hs]
        exact ⟨Option.none, rfl⟩
      · rw [if_neg hs]
        cases h : pyFloatValOfString s with
        | none => exact ⟨Option.none, rfl⟩
        | some f => exact ⟨some f, rfl⟩
  · intro s
    unfold safe_int pyFloatCallE
    dsimp only
    by_cases hs : s = ""
    · rw [if_pos hs]
      simp [hs]
    · rw [if_neg hs]
      cases h : pyFloatValOfString s with
      | none => simp [hs]
      | some f =>
          cases f with
          | finite q => simp [hs, intOfPyFloat, h]
          | inf b =>
              simp only [intOfPyFloat]
              constructor
              · intro _
                exact ⟨hs, b, rfl⟩
              · intro _
                rfl
          | nan => simp [hs, intOfPyFloat, h]

/-! ## C6 — party resolution -/

/-- C6 counterexample: a party carrying neither CNPJ nor CPF is nevertheless
inserted (one new row) and an identity is returned, contradicting the claim
that such a party is skipped with no identity. -/
theorem C6_counterexample :
    (insert_or_get_pessoa_id DB.empty pessoaSemDoc).2 = some 1 ∧
    (insert_or_get_pessoa_id DB.empty pessoaSemDoc).1.pessoa.length = 1 := by
  decide

/-- C6 amended: a party record with neither a truthy CNPJ nor a truthy CPF is
logged and then still inserted, returning the fresh surrogate identity (the
lookup-and-reuse step applies only to parties carrying a tax id). -/
theorem C6_party_without_tax_id (db : DB) (p : Dict)
    (h1 : pyTruthy (dictGetD p "cnpj" Py.none) = false)
    (h2 : pyTruthy (dictGetD p "cpf" Py.none) = false) :
    insert_or_get_pessoa_id db p =
      ({ db with pessoa := insertRow db.pessoa p db.nextId,
                 nextId := db.nextId + 1 }, some db.nextId) := by
  simp [insert_or_get_pessoa_id, h1, h2]

/-- C6 witness: the amended behaviour at the concrete no-tax-id party. -/
theorem C6_party_without_tax_id_witness :
    insert_or_get_pessoa_id DB.empty pessoaSemDoc =
      ({ DB.empty with pessoa := insertRow DB.empty.pessoa pessoaSemDoc 1,
                       nextId := 2 }, some 1) :=
  C6_party_without_tax_id DB.empty pessoaSemDoc (by decide) (by decide)

/-! ## C8 — date parsing -/

/-- C8: `parse_date_to_timestamp` itself is total and tolerant — it accepts a
UTC-offset suffix and a bracketed zone name and returns `None` on an
unrecognized format — and the extracted header keeps only the date
component; but at the header call site the source computes
`parse_date_to_timestamp(s).date() if s else None`, so any non-empty
emission date matching no format makes `.date()` raise `AttributeError` on
`None` and the whole extraction fails, contrary to the claim that parsing
returns a value or null without raising. -/
theorem C8_date_parse_bug :
    (∀ s : String, parse_date_to_timestamp s = Option.none ∨
      ∃ dt, parse_date_to_timestamp s = some dt) ∧
    parse_date_to_timestamp "2023-05-01T14:30:00-03:00" =
      some { year := 2023, month := 5, day := 1, hour := 14, minute := 30,
             second := 0, micro := 0, tzmin := some (-180) } ∧
    parse_date_to_timestamp "2023-05-01T14:30:00-03:00[America/Sao_Paulo]" =
      some { year := 2023, month := 5, day := 1, hour := 14, minute := 30,
             second := 0, micro := 0, tzmin := some (-180) } ∧
    parse_date_to_timestamp "not-a-date" = Option.none ∧
    (extrairCore sampleDoc).toOption.map
        (fun d => dictGet d.nfe "data_emissao") =
      some (some (Py.date 2023 5 1)) ∧
    extrairCore docBadDate =
      Except.error "AttributeError: NoneType object has no attribute date" ∧
    extrair_dados_nfe docBadDate = Option.none := by
  refine ⟨?_, by decide, by decide, by decide, by decide, by decide, by decide⟩
  intro s
  cases h : parse_date_to_timestamp s with
  | none => exact Or.inl rfl
  | some dt => exact Or.inr ⟨dt, rfl⟩

/-! ## C9 — line-item sequence numbers -/

/-- C9 counterexample: a present but non-numeric `nItem` attribute does not
fall back to the positional index — the strict `int` raises and the whole
extraction fails. -/
theorem C9_counterexample :
    extract_itens [el "det" [("nItem", "abc")] Option.none []] =
      Except.error "ValueError: invalid literal for int" ∧
    extrair_dados_nfe docBadItem = Option.none := by
  decide

/-- Inversion of one `Except` bind that ended in `ok`. -/
theorem bindE {α β : Type} {m : Except String α} {f : α → Except String β}
    {b : β} (h : (m >>= f) = Except.ok b) :
    ∃ a, m = Except.ok a ∧ f a = Except.ok b := by
  cases m with
  | error e => simp [Bind.bind, Except.bind] at h
  | ok a => exact ⟨a, rfl, by simpa [Bind.bind, Except.bind] using h⟩

theorem pureE {α : Type} {a b : α}
    (h : (pure a : Except String α) = Except.ok b) : a = b := by
  simpa [pure, Except.pure] using h

/-- The item dict returned by `extract_item_prod` starts with the given
prefix (the sequence-number binding). -/
theorem extract_item_prod_prefix (fields0 : Dict) (det : Xml) (fl : Dict)
    (h : extract_item_prod fields0 det = Except.ok fl) :
    ∃ rest, fl = fields0 ++ rest := by
  unfold extract_item_prod at h
  cases hf : findChild det "prod" with
  | none =>
      rw [hf] at h
      exact ⟨[], by rw [← pureE h, List.append_nil]⟩
  | some prod =>
      rw [hf] at h
      obtain ⟨v1, -, h⟩ := bindE h
      obtain ⟨v2, -, h⟩ := bindE h
      obtain ⟨v3, -, h⟩ := bindE h
      obtain ⟨v4, -, h⟩ := bindE h
      obtain ⟨v5, -, h⟩ := bindE h
      obtain ⟨v6, -, h⟩ := bindE h
      exact ⟨_, (pureE h).symm⟩

theorem extract_item_numero (i : Nat) (det : Xml) (it : Item)
    (h : extract_item i det = Except.ok it) :
    (attrGet det "nItem" = Option.none →
      dictGet it.fields "numero_item" = some (Py.int ((i + 1 : Nat) : Int))) ∧
    (∀ s n, attrGet det "nItem" = some s → pyIntOfString s = some n →
      dictGet it.fields "numero_item" = some (Py.int n)) := by
  unfold extract_item at h
  obtain ⟨numero, hnum, h⟩ := bindE h
  obtain ⟨fl, hfl, h⟩ := bindE h
  obtain ⟨imps, -, h⟩ := bindE h
  have hit : it.fields = fl := by rw [← pureE h]
  obtain ⟨rest, hrest⟩ := extract_item_prod_prefix _ _ _ hfl
  have hget : dictGet it.fields "numero_item" = some (Py.int numero) := by
    rw [hit, hrest, dictGet_append, dictGet_cons]
    simp
  constructor
  · intro ha
    unfold item_numero at hnum
    rw [ha] at hnum
    have : ((i + 1 : Nat) : Int) = numero := pureE hnum
    rw [hget, ← this]
  · intro s n ha hs
    have h2 : item_numero i det = Except.ok n := by
      unfold item_numero
      rw [ha]
      show pyIntE s = Except.ok n
      unfold pyIntE
      rw [hs]
    rw [hnum] at h2
    have h3 := Except.ok.inj h2
    rw [hget, h3]

theorem extract_itens_from_spec (dets : List Xml) :
    ∀ (i : Nat) (items : List Item),
    extract_itens_from i dets = Except.ok items →
    items.length = dets.length ∧
    ∀ j (hj : j < dets.length) (hj2 : j < items.length),
      (attrGet (dets.get ⟨j, hj⟩) "nItem" = Option.none →
        dictGet (items.get ⟨j, hj2⟩).fields "numero_item" =
          some (Py.int ((i + j + 1 : Nat) : Int))) ∧
      (∀ s n, attrGet (dets.get ⟨j, hj⟩) "nItem" = some s →
        pyIntOfString s = some n →
        dictGet (items.get ⟨j, hj2⟩).fields "numero_item" =
          some (Py.int n)) := by
  induction dets with
  | nil =>
      intro i items h
      have h0 : ([] : List Item) = items := pureE h
      subst h0
      refine ⟨rfl, ?_⟩
      intro j hj
      exact absurd hj (by simp)
  | cons det rest ih =>
      intro i items h
      unfold extract_itens_from at h
      obtain ⟨it, hit, h⟩ := bindE h
      obtain ⟨tail, htail, h⟩ := bindE h
      have hcons : it :: tail = items := pureE h
      subst hcons
      obtain ⟨hlen, hspec⟩ := ih (i + 1) tail htail
      refine ⟨by simp [hlen], ?_⟩
      intro j hj hj2
      cases j with
      | zero =>
          have hnum := extract_item_numero i det it hit
          constructor
          · intro ha
            simpa using hnum.1 (by simpa using ha)
          · intro s n ha hs
            simpa using hnum.2 s n (by simpa using ha) hs
      | succ j0 =>
          have hj0 : j0 < rest.length := by simpa using hj
          have hj02 : j0 < tail.length := by simpa using hj2
          have hsp := hspec j0 hj0 hj02
          constructor
          · intro ha
            have h1 := hsp.1 (by simpa using ha)
            have harith : i + 1 + j0 + 1 = i + (j0 + 1) + 1 := by omega
            rw [harith] at h1
            simpa using h1
          · intro s n ha hs
            have h1 := hsp.2 s n (by simpa using ha) hs
            simpa using h1

/-- C9 amended: for a successful extraction, the item list has one entry per
`det` element in document order; the j-th extracted sequence number is the
value of the `nItem` attribute when it is present and numeric, and the
1-based position j+1 when the attribute is absent.  (When the attribute is
present but non-numeric the strict `int` raises and the whole extraction
fails — see the counterexample.) -/
theorem C9_item_sequence (dets : List Xml) (items : List Item)
    (h : extract_itens dets = Except.ok items) :
    items.length = dets.length ∧
    ∀ j (hj : j < dets.length) (hj2 : j < items.length),
      (attrGet (dets.get ⟨j, hj⟩) "nItem" = Option.none →
        dictGet (items.get ⟨j, hj2⟩).fields "numero_item" =
          some (Py.int ((j + 1 : Nat) : Int))) ∧
      (∀ s n, attrGet (dets.get ⟨j, hj⟩) "nItem" = some s →
        pyIntOfString s = some n →
        dictGet (items.get ⟨j, hj2⟩).fields "numero_item" =
          some (Py.int n)) := by
  have h0 := extract_itens_from_spec dets 0 items h
  refine ⟨h0.1, ?_⟩
  intro j hj hj2
  have := h0.2 j hj hj2
  simpa using this

/-- The items extracted from the two witness `det` elements. -/
def itensWitness : List Item :=
  [{ fields := [("numero_item", Py.int 7)], impostos := [] },
   { fields := [("numero_item", Py.int 2)], impostos := [] }]

/-- C9 witness: on a concrete pair of items — one with numeric attribute
`"7"`, one with no attribute — extraction succeeds and the theorem applies:
the first sequence number is 7 (from the attribute) and the second is 2
(positional fallback). -/
theorem C9_item_sequence_witness :
    itensWitness.length = [detWithAttr, detNoAttr].length ∧
    ∀ j (hj : j < [detWithAttr, detNoAttr].length)
      (hj2 : j < itensWitness.length),
      (attrGet ([detWithAttr, detNoAttr].get ⟨j, hj⟩) "nItem" = Option.none →
        dictGet (itensWitness.get ⟨j, hj2⟩).fields "numero_item" =
          some (Py.int ((j + 1 : Nat) : Int))) ∧
      (∀ s n, attrGet ([detWithAttr, detNoAttr].get ⟨j, hj⟩) "nItem" = some s →
        pyIntOfString s = some n →
        dictGet (itensWitness.get ⟨j, hj2⟩).fields "numero_item" =
          some (Py.int n)) :=
  C9_item_sequence [detWithAttr, detNoAttr] itensWitness (by decide)

/-! ## C10 — identifier routing in the query service -/

/-- C10 counterexample: for the empty identifier — which contains no
non-digit character — the access-key branch is taken (`isdigit` is false for
the empty string), and it can even find a row whose stored key is the empty
string; so the access-key branch is not taken exactly on identifiers with at
least one non-digit character. -/
theorem C10_counterexample :
    pyIsdigit "" = false ∧
    "".data.all Char.isDigit = true ∧
    fetch_nfe_row dbEmptyKey "" =
      some [("id", Py.int 7), ("chave_acesso", Py.str "")] ∧
    (get_nota_fiscal_by_identifier dbEmptyKey "").isSome = true := by
  decide

theorem str_eq_empty_iff (s : String) : s = "" ↔ s.data = [] := by
  cases s with
  | mk l =>
      constructor
      · intro h
        rw [h]
      · intro h
        have hl : l = [] := h
        subst hl
        rfl

/-- C10 amended: the surrogate-id branch is taken exactly for the non-empty
all-digit identifiers (so the access-key branch is taken exactly when the
identifier is empty or has a non-digit character); consequently a digit-only
identifier is only ever compared against the `id` column, and when no row
carries that numeric id the lookup finds nothing — even if some row stores
exactly that string as its access key. -/
theorem C10_digit_identifier_routing (db : DB) (s : String) :
    (pyIsdigit s = true ↔ (s ≠ "" ∧ ∀ c ∈ s.data, c.isDigit = true)) ∧
    (pyIsdigit s = true →
      (∀ r ∈ db.nfe, rowGet r "id" ≠ Py.int ((pyIntOfString s).getD 0)) →
      get_nota_fiscal_by_identifier db s = Option.none) := by
  have hiff : ((!s.data.isEmpty) = true) ↔ s.data ≠ [] := by
    cases s.data <;> simp
  constructor
  · unfold pyIsdigit
    rw [Bool.and_eq_true, List.all_eq_true]
    constructor
    · intro hb
      exact ⟨fun hc => (hiff.mp hb.1) ((str_eq_empty_iff s).mp hc), hb.2⟩
    · intro hb
      exact ⟨hiff.mpr (fun hc => hb.1 ((str_eq_empty_iff s).mpr hc)), hb.2⟩
  · intro hd hnone
    unfold get_nota_fiscal_by_identifier fetch_nfe_row
    rw [if_pos hd]
    have : db.nfe.find? (fun r =>
        decide (rowGet r "id" = Py.int ((pyIntOfString s).getD 0))) =
        Option.none := by
      rw [List.find?_eq_none]
      intro r hr
      simpa using hnone r hr
    rw [this]

/-- C10 witness: the invoice persisted from `sampleDoc` carries the
all-digit 44-character access key, yet looking it up by that key returns
nothing: the identifier routes to the surrogate-id branch and no row has the
key as its numeric id. -/
theorem C10_digit_identifier_routing_witness :
    get_nota_fiscal_by_identifier saved1.1 chave44 = Option.none :=
  (C10_digit_identifier_routing saved1.1 chave44).2 (by decide) (by decide)

/-! ## C5 — access-key derivation -/

theorem extrairCore_nfe_header (root : Xml) (data : Extracted)
    (hx : extrairCore root = Except.ok data) :
    extract_nfe_header root = Except.ok data.nfe := by
  unfold extrairCore at hx
  obtain ⟨nfe0, h1, hx⟩ := bindE hx
  obtain ⟨pe, h2, hx⟩ := bindE hx
  obtain ⟨e1, e2⟩ := pe
  rcases hdd : extract_destinatario root with ⟨d1, d2⟩
  rw [hdd] at hx
  obtain ⟨itens0, h3, hx⟩ := bindE hx
  obtain ⟨tot0, h4, hx⟩ := bindE hx
  obtain ⟨tr, h5, hx⟩ := bindE hx
  obtain ⟨t1, t2, t3, t4, t5, t6⟩ := tr
  have := pureE hx
  rw [h1]
  rw [← this]

theorem header_chave (root : Xml) (h : Dict) (infNFe : Xml)
    (hh : extract_nfe_header root = Except.ok h)
    (hinf : findDesc root "infNFe" = some infNFe) :
    dictGet h "chave_acesso" =
      some (Py.str (strDrop (attrGetD infNFe "Id" "") 3)) := by
  unfold extract_nfe_header at hh
  rw [hinf] at hh
  cases hide : findDesc root "ide" with
  | none =>
      rw [hide] at hh
      have := pureE hh
      rw [← this, dictGet_cons]
      simp
  | some ide =>
      rw [hide] at hh
      obtain ⟨v1, -, hh⟩ := bindE hh
      obtain ⟨v2, -, hh⟩ := bindE hh
      obtain ⟨v3, -, hh⟩ := bindE hh
      obtain ⟨v4, -, hh⟩ := bindE hh
      obtain ⟨v5, -, hh⟩ := bindE hh
      obtain ⟨v6, -, hh⟩ := bindE hh
      obtain ⟨v7, -, hh⟩ := bindE hh
      obtain ⟨v8, -, hh⟩ := bindE hh
      obtain ⟨v9, -, hh⟩ := bindE hh
      obtain ⟨v10, -, hh⟩ := bindE hh
      obtain ⟨v11, -, hh⟩ := bindE hh
      obtain ⟨v12, -, hh⟩ := bindE hh
      obtain ⟨v13, -, hh⟩ := bindE hh
      obtain ⟨v14, -, hh⟩ := bindE hh
      have := pureE hh
      rw [← this, dictGet_append, dictGet_cons]
      simp

/-- C5: access-key derivation strips the fixed 3-character prefix of the
header node identifying attribute — whenever extraction succeeds and the
`infNFe` node is present, the stored access key is the `Id` attribute minus
its first three characters. -/
theorem C5_access_key (root : Xml) (data : Extracted) (infNFe : Xml)
    (hx : extrairCore root = Except.ok data)
    (hinf : findDesc root "infNFe" = some infNFe) :
    dictGet data.nfe "chave_acesso" =
      some (Py.str (strDrop (attrGetD infNFe "Id" "") 3)) :=
  header_chave root data.nfe infNFe (extrairCore_nfe_header root data hx) hinf

/-- C5 witness: the document whose identifier attribute is
`"NFe35230512345678000199550010000000011000000015"` yields exactly the
44-character access key `"35230512345678000199550010000000011000000015"`. -/
theorem C5_access_key_witness :
    dictGet sampleData.nfe "chave_acesso" = some (Py.str chave44) ∧
    chave44.data.length = 44 := by
  constructor
  · have h1 : extrairCore sampleDoc = Except.ok sampleData := by decide
    have h2 := C5_access_key sampleDoc sampleData
      (el "infNFe"
        [("Id", "NFe35230512345678000199550010000000011000000015"),
         ("versao", "4.00")] Option.none
        [el "ide" [] Option.none
          [tEl "cUF" "35", tEl "natOp" "VENDA", tEl "mod" "55",
           tEl "serie" "1", tEl "nNF" "101",
           tEl "dhEmi" "2023-05-01T14:30:00-03:00"],
         el "emit" [] Option.none
           [tEl "CNPJ" "12345678000199", tEl "xNome" "ACME"],
         el "dest" [] Option.none
           [tEl "CNPJ" "98765432000188", tEl "xNome" "BOB"],
         el "det" [("nItem", "1")] Option.none
           [el "prod" [] Option.none
             [tEl "cProd" "P1", tEl "xProd" "Widget", tEl "qCom" "2.0",
              tEl "vUnCom" "5.0", tEl "vProd" "10.0"]],
         el "total" [] Option.none
           [el "ICMSTot" [] Option.none
             [tEl "vProd" "10.0", tEl "vNF" "10.0"]]])
      h1 rfl
    rw [h2]
    decide
  · decide

/-! ## Frame lemmas about the persistence steps -/

theorem insert_or_get_cases (db : DB) (p : Dict) :
    ((insert_or_get_pessoa_id db p).1 = db ∨
     (insert_or_get_pessoa_id db p).1 =
       { db with pessoa := insertRow db.pessoa p db.nextId,
                 nextId := db.nextId + 1 }) ∧
    ∃ e, (insert_or_get_pessoa_id db p).2 = some e := by
  simp only [insert_or_get_pessoa_id]
  constructor
  · split
    · exact Or.inl rfl
    · exact Or.inr rfl
  · split
    · exact ⟨_, rfl⟩
    · exact ⟨_, rfl⟩

theorem insert_or_get_frame (db : DB) (p : Dict) :
    (insert_or_get_pessoa_id db p).1.nfe = db.nfe ∧
    (insert_or_get_pessoa_id db p).1.endereco = db.endereco ∧
    (insert_or_get_pessoa_id db p).1.nfe_pessoa = db.nfe_pessoa ∧
    (insert_or_get_pessoa_id db p).1.item_nfe = db.item_nfe ∧
    (insert_or_get_pessoa_id db p).1.imposto = db.imposto ∧
    (insert_or_get_pessoa_id db p).1.totais_nfe = db.totais_nfe ∧
    (insert_or_get_pessoa_id db p).1.transporte = db.transporte ∧
    (insert_or_get_pessoa_id db p).1.transporte_item = db.transporte_item ∧
    (insert_or_get_pessoa_id db p).1.informacoes_adicionais =
      db.informacoes_adicionais ∧
    (insert_or_get_pessoa_id db p).1.processamento_nfe =
      db.processamento_nfe ∧
    db.nextId ≤ (insert_or_get_pessoa_id db p).1.nextId := by
  rcases (insert_or_get_cases db p).1 with h | h <;> rw [h]
  · exact ⟨rfl, rfl, rfl, rfl, rfl, rfl, rfl, rfl, rfl, rfl, le_refl _⟩
  · exact ⟨rfl, rfl, rfl, rfl, rfl, rfl, rfl, rfl, rfl, rfl,
      (by omega : db.nextId ≤ db.nextId + 1)⟩

theorem party_step_frame (db : DB) (d : Dict) :
    (party_step db d).1.nfe = db.nfe ∧
    (party_step db d).1.endereco = db.endereco ∧
    (party_step db d).1.nfe_pessoa = db.nfe_pessoa ∧
    (party_step db d).1.item_nfe = db.item_nfe ∧
    (party_step db d).1.imposto = db.imposto ∧
    (party_step db d).1.totais_nfe = db.totais_nfe ∧
    (party_step db d).1.transporte = db.transporte ∧
    (party_step db d).1.transporte_item = db.transporte_item ∧
    (party_step db d).1.informacoes_adicionais = db.informacoes_adicionais ∧
    (party_step db d).1.processamento_nfe = db.processamento_nfe ∧
    db.nextId ≤ (party_step db d).1.nextId := by
  unfold party_step
  split
  · exact insert_or_get_frame db d
  · exact ⟨rfl, rfl, rfl, rfl, rfl, rfl, rfl, rfl, rfl, rfl, le_refl _⟩

theorem save_endereco_for_frame (db : DB) (pid : Option Int) (endr : Dict) :
    (save_endereco_for db pid endr).nfe = db.nfe ∧
    (save_endereco_for db pid endr).pessoa = db.pessoa ∧
    (save_endereco_for db pid endr).nfe_pessoa = db.nfe_pessoa ∧
    (save_endereco_for db pid endr).item_nfe = db.item_nfe ∧
    (save_endereco_for db pid endr).imposto = db.imposto ∧
    (save_endereco_for db pid endr).totais_nfe = db.totais_nfe ∧
    (save_endereco_for db pid endr).transporte = db.transporte ∧
    (save_endereco_for db pid endr).transporte_item = db.transporte_item ∧
    (save_endereco_for db pid endr).informacoes_adicionais =
      db.informacoes_adicionais ∧
    (save_endereco_for db pid endr).processamento_nfe =
      db.processamento_nfe ∧
    db.nextId ≤ (save_endereco_for db pid endr).nextId := by
  unfold save_endereco_for insert_endereco
  rcases pid with _ | e
  · exact ⟨rfl, rfl, rfl, rfl, rfl, rfl, rfl, rfl, rfl, rfl, le_refl _⟩
  · dsimp only
    by_cases hc : (decide (e ≠ 0) && dictTruthy endr) = true
    · rw [if_pos hc]
      exact ⟨rfl, rfl, rfl, rfl, rfl, rfl, rfl, rfl, rfl, rfl,
        (by omega : db.nextId ≤ db.nextId + 1)⟩
    · rw [if_neg hc]
      exact ⟨rfl, rfl, rfl, rfl, rfl, rfl, rfl, rfl, rfl, rfl, le_refl _⟩

theorem save_links_frame (db : DB) (n : Int) (e d : Option Int) :
    (save_links db n e d).nfe = db.nfe ∧
    (save_links db n e d).pessoa = db.pessoa ∧
    (save_links db n e d).endereco = db.endereco ∧
    (save_links db n e d).item_nfe = db.item_nfe ∧
    (save_links db n e d).imposto = db.imposto ∧
    (save_links db n e d).totais_nfe = db.totais_nfe ∧
    (save_links db n e d).transporte = db.transporte ∧
    (save_links db n e d).transporte_item = db.transporte_item ∧
    (save_links db n e d).informacoes_adicionais =
      db.informacoes_adicionais ∧
    (save_links db n e d).processamento_nfe = db.processamento_nfe ∧
    db.nextId ≤ (save_links db n e d).nextId := by
  unfold save_links
  rcases e with _ | ev
  · rcases d with _ | dv
    · exact ⟨rfl, rfl, rfl, rfl, rfl, rfl, rfl, rfl, rfl, rfl, le_refl _⟩
    · dsimp only
      by_cases hd : dv ≠ 0
      · rw [if_pos hd]
        exact ⟨rfl, rfl, rfl, rfl, rfl, rfl, rfl, rfl, rfl, rfl,
          (by omega : db.nextId ≤ db.nextId + 1)⟩
      · rw [if_neg hd]
        exact ⟨rfl, rfl, rfl, rfl, rfl, rfl, rfl, rfl, rfl, rfl, le_refl _⟩
  · dsimp only
    by_cases he : ev ≠ 0
    · rw [if_pos he]
      rcases d with _ | dv
      · exact ⟨rfl, rfl, rfl, rfl, rfl, rfl, rfl, rfl, rfl, rfl,
          (by omega : db.nextId ≤ db.nextId + 1)⟩
      · dsimp only
        by_cases hd : dv ≠ 0
        · rw [if_pos hd]
          exact ⟨rfl, rfl, rfl, rfl, rfl, rfl, rfl, rfl, rfl, rfl,
            (by omega : db.nextId ≤ db.nextId + 1 + 1)⟩
        · rw [if_neg hd]
          exact ⟨rfl, rfl, rfl, rfl, rfl, rfl, rfl, rfl, rfl, rfl,
            (by omega : db.nextId ≤ db.nextId + 1)⟩
    · rw [if_neg he]
      rcases d with _ | dv
      · exact ⟨rfl, rfl, rfl, rfl, rfl, rfl, rfl, rfl, rfl, rfl, le_refl _⟩
      · dsimp only
        by_cases hd : dv ≠ 0
        · rw [if_pos hd]
          exact ⟨rfl, rfl, rfl, rfl, rfl, rfl, rfl, rfl, rfl, rfl,
            (by omega : db.nextId ≤ db.nextId + 1)⟩
        · rw [if_neg hd]
          exact ⟨rfl, rfl, rfl, rfl, rfl, rfl, rfl, rfl, rfl, rfl, le_refl _⟩

theorem imposto_fold_frame (rows : List Dict) (iid : Int) :
    ∀ db0 : DB,
    (rows.foldl (fun d imp =>
      { d with imposto := insertRow d.imposto (dictSet imp "item_nfe_id" (Py.int iid)) d.nextId,
               nextId := d.nextId + 1 }) db0).nfe = db0.nfe ∧
    (rows.foldl (fun d imp =>
      { d with imposto := insertRow d.imposto (dictSet imp "item_nfe_id" (Py.int iid)) d.nextId,
               nextId := d.nextId + 1 }) db0).pessoa = db0.pessoa ∧
    (rows.foldl (fun d imp =>
      { d with imposto := insertRow d.imposto (dictSet imp "item_nfe_id" (Py.int iid)) d.nextId,
               nextId := d.nextId + 1 }) db0).endereco = db0.endereco ∧
    (rows.foldl (fun d imp =>
      { d with imposto := insertRow d.imposto (dictSet imp "item_nfe_id" (Py.int iid)) d.nextId,
               nextId := d.nextId + 1 }) db0).nfe_pessoa = db0.nfe_pessoa ∧
    (rows.foldl (fun d imp =>
      { d with imposto := insertRow d.imposto (dictSet imp "item_nfe_id" (Py.int iid)) d.nextId,
               nextId := d.nextId + 1 }) db0).totais_nfe = db0.totais_nfe ∧
    (rows.foldl (fun d imp =>
      { d with imposto := insertRow d.imposto (dictSet imp "item_nfe_id" (Py.int iid)) d.nextId,
               nextId := d.nextId + 1 }) db0).transporte = db0.transporte ∧
    (rows.foldl (fun d imp =>
      { d with imposto := insertRow d.imposto (dictSet imp "item_nfe_id" (Py.int iid)) d.nextId,
               nextId := d.nextId + 1 }) db0).transporte_item = db0.transporte_item ∧
    (rows.foldl (fun d imp =>
      { d with imposto := insertRow d.imposto (dictSet imp "item_nfe_id" (Py.int iid)) d.nextId,
               nextId := d.nextId + 1 }) db0).informacoes_adicionais =
      db0.informacoes_adicionais ∧
    (rows.foldl (fun d imp =>
      { d with imposto := insertRow d.imposto (dictSet imp "item_nfe_id" (Py.int iid)) d.nextId,
               nextId := d.nextId + 1 }) db0).processamento_nfe =
      db0.processamento_nfe ∧
    db0.nextId ≤ (rows.foldl (fun d imp =>
      { d with imposto := insertRow d.imposto (dictSet imp "item_nfe_id" (Py.int iid)) d.nextId,
               nextId := d.nextId + 1 }) db0).nextId ∧
    (rows.foldl (fun d imp =>
      { d with imposto := insertRow d.imposto (dictSet imp "item_nfe_id" (Py.int iid)) d.nextId,
               nextId := d.nextId + 1 }) db0).item_nfe = db0.item_nfe := by
  induction rows with
  | nil =>
      intro db0
      exact ⟨rfl, rfl, rfl, rfl, rfl, rfl, rfl, rfl, rfl, le_refl _, rfl⟩
  | cons imp rest ih =>
      intro db0
      obtain ⟨a1, a2, a3, a4, a5, a6, a7, a8, a9, a10, a11⟩ :=
        ih { db0 with imposto := insertRow db0.imposto (dictSet imp "item_nfe_id" (Py.int iid)) db0.nextId,
                      nextId := db0.nextId + 1 }
      exact ⟨a1, a2, a3, a4, a5, a6, a7, a8, a9,
        le_trans (by omega : db0.nextId ≤ db0.nextId + 1) a10, a11⟩

theorem save_item_frame (db : DB) (n : Int) (it : Item) :
    (save_item db n it).nfe = db.nfe ∧
    (save_item db n it).pessoa = db.pessoa ∧
    (save_item db n it).endereco = db.endereco ∧
    (save_item db n it).nfe_pessoa = db.nfe_pessoa ∧
    (save_item db n it).totais_nfe = db.totais_nfe ∧
    (save_item db n it).transporte = db.transporte ∧
    (save_item db n it).transporte_item = db.transporte_item ∧
    (save_item db n it).informacoes_adicionais = db.informacoes_adicionais ∧
    (save_item db n it).processamento_nfe = db.processamento_nfe ∧
    db.nextId ≤ (save_item db n it).nextId ∧
    (save_item db n it).item_nfe =
      db.item_nfe ++
        [dictSet (dictSet it.fields "nfe_id" (Py.int n)) "id"
          (Py.int db.nextId)] := by
  simp only [save_item]
  by_cases hz : db.nextId ≠ 0
  case pos =>
    rw [if_pos hz]
    obtain ⟨a1, a2, a3, a4, a5, a6, a7, a8, a9, a10, a11⟩ :=
      imposto_fold_frame it.impostos db.nextId
        { db with item_nfe := insertRow db.item_nfe (dictSet it.fields "nfe_id" (Py.int n)) db.nextId,
                  nextId := db.nextId + 1 }
    exact ⟨a1, a2, a3, a4, a5, a6, a7, a8, a9,
      le_trans (by omega : db.nextId ≤ db.nextId + 1) a10, a11⟩
  case neg =>
    rw [if_neg hz]
    exact ⟨rfl, rfl, rfl, rfl, rfl, rfl, rfl, rfl, rfl,
      (by omega : db.nextId ≤ db.nextId + 1), rfl⟩

theorem save_itens_spec (itens : List Item) :
    ∀ (db : DB) (n : Int),
    (save_itens db n itens).nfe = db.nfe ∧
    (save_itens db n itens).pessoa = db.pessoa ∧
    (save_itens db n itens).endereco = db.endereco ∧
    (save_itens db n itens).nfe_pessoa = db.nfe_pessoa ∧
    (save_itens db n itens).totais_nfe = db.totais_nfe ∧
    (save_itens db n itens).transporte = db.transporte ∧
    (save_itens db n itens).transporte_item = db.transporte_item ∧
    (save_itens db n itens).informacoes_adicionais =
      db.informacoes_adicionais ∧
    (save_itens db n itens).processamento_nfe = db.processamento_nfe ∧
    db.nextId ≤ (save_itens db n itens).nextId ∧
    ∃ rows, (save_itens db n itens).item_nfe = db.item_nfe ++ rows ∧
      rows.length = itens.length ∧
      ∀ r ∈ rows, rowGet r "nfe_id" = Py.int n ∧
        ∀ k, k ≠ "nfe_id" → k ≠ "id" →
          ∃ it ∈ itens, dictGet r k = dictGet it.fields k := by
  induction itens with
  | nil =>
      intro db n
      exact ⟨rfl, rfl, rfl, rfl, rfl, rfl, rfl, rfl, rfl, le_refl _,
        [], by simp [save_itens], by simp, by simp⟩
  | cons it rest ih =>
      intro db n
      have hstep : save_itens db n (it :: rest) =
          save_itens (save_item db n it) n rest := by
        simp [save_itens]
      obtain ⟨f1, f2, f3, f4, f5, f6, f7, f8, f9, f10, f11⟩ :=
        save_item_frame db n it
      obtain ⟨g1, g2, g3, g4, g5, g6, g7, g8, g9, g10, rows, g11, g12, g13⟩ :=
        ih (save_item db n it) n
      rw [hstep]
      refine ⟨g1.trans f1, g2.trans f2, g3.trans f3, g4.trans f4,
        g5.trans f5, g6.trans f6, g7.trans f7, g8.trans f8, g9.trans f9,
        le_trans f10 g10, ?_⟩
      refine ⟨dictSet (dictSet it.fields "nfe_id" (Py.int n)) "id"
        (Py.int db.nextId) :: rows, ?_, by simp [g12], ?_⟩
      · rw [g11, f11]
        simp
      · intro r hr
        rcases List.mem_cons.mp hr with hr | hr
        · subst hr
          refine ⟨?_, ?_⟩
          · rw [rowGet_set_ne _ _ _ _ (by decide), rowGet_set_self]
          · intro k hk1 hk2
            refine ⟨it, by simp, ?_⟩
            rw [dictGet_set_ne _ _ _ _ hk2, dictGet_set_ne _ _ _ _ hk1]
        · obtain ⟨h1, h2⟩ := g13 r hr
          refine ⟨h1, ?_⟩
          intro k hk1 hk2
          obtain ⟨it2, hit2, he⟩ := h2 k hk1 hk2
          exact ⟨it2, by simp [hit2], he⟩

theorem save_totais_frame (db : DB) (n : Int) (t : Dict) :
    (save_totais db n t).nfe = db.nfe ∧
    (save_totais db n t).pessoa = db.pessoa ∧
    (save_totais db n t).endereco = db.endereco ∧
    (save_totais db n t).nfe_pessoa = db.nfe_pessoa ∧
    (save_totais db n t).item_nfe = db.item_nfe ∧
    (save_totais db n t).imposto = db.imposto ∧
    (save_totais db n t).transporte = db.transporte ∧
    (save_totais db n t).transporte_item = db.transporte_item ∧
    (save_totais db n t).informacoes_adicionais =
      db.informacoes_adicionais ∧
    (save_totais db n t).processamento_nfe = db.processamento_nfe ∧
    db.nextId ≤ (save_totais db n t).nextId ∧
    (dictTruthy t = true →
      (save_totais db n t).totais_nfe = db.totais_nfe ++
        [dictSet (dictSet t "nfe_id" (Py.int n)) "id" (Py.int db.nextId)]) ∧
    (dictTruthy t = false →
      (save_totais db n t).totais_nfe = db.totais_nfe) := by
  unfold save_totais
  by_cases hc : dictTruthy t = true
  · rw [if_pos hc]
    refine ⟨rfl, rfl, rfl, rfl, rfl, rfl, rfl, rfl, rfl, rfl,
      (by omega : db.nextId ≤ db.nextId + 1),
      fun _ => rfl, fun hcf => ?_⟩
    rw [hc] at hcf
    cases hcf
  · have hcf : dictTruthy t = false := by
      revert hc
      cases dictTruthy t <;> simp
    rw [if_neg hc]
    refine ⟨rfl, rfl, rfl, rfl, rfl, rfl, rfl, rfl, rfl, rfl, le_refl _,
      fun hct => ?_, fun _ => rfl⟩
    rw [hcf] at hct
    cases hct

theorem transp_item_fold_frame (rows : List Dict) (tid2 : Int) :
    ∀ db0 : DB,
    (rows.foldl (fun d vr =>
      let item_row := dictSet vr "transporte_id" (Py.int tid2)
      { d with transporte_item := insertRow d.transporte_item item_row d.nextId,
               nextId := d.nextId + 1 }) db0).nfe = db0.nfe ∧
    (rows.foldl (fun d vr =>
      let item_row := dictSet vr "transporte_id" (Py.int tid2)
      { d with transporte_item := insertRow d.transporte_item item_row d.nextId,
               nextId := d.nextId + 1 }) db0).pessoa = db0.pessoa ∧
    (rows.foldl (fun d vr =>
      let item_row := dictSet vr "transporte_id" (Py.int tid2)
      { d with transporte_item := insertRow d.transporte_item item_row d.nextId,
               nextId := d.nextId + 1 }) db0).endereco = db0.endereco ∧
    (rows.foldl (fun d vr =>
      let item_row := dictSet vr "transporte_id" (Py.int tid2)
      { d with transporte_item := insertRow d.transporte_item item_row d.nextId,
               nextId := d.nextId + 1 }) db0).nfe_pessoa = db0.nfe_pessoa ∧
    (rows.foldl (fun d vr =>
      let item_row := dictSet vr "transporte_id" (Py.int tid2)
      { d with transporte_item := insertRow d.transporte_item item_row d.nextId,
               nextId := d.nextId + 1 }) db0).item_nfe = db0.item_nfe ∧
    (rows.foldl (fun d vr =>
      let item_row := dictSet vr "transporte_id" (Py.int tid2)
      { d with transporte_item := insertRow d.transporte_item item_row d.nextId,
               nextId := d.nextId + 1 }) db0).imposto = db0.imposto ∧
    (rows.foldl (fun d vr =>
      let item_row := dictSet vr "transporte_id" (Py.int tid2)
      { d with transporte_item := insertRow d.transporte_item item_row d.nextId,
               nextId := d.nextId + 1 }) db0).totais_nfe = db0.totais_nfe ∧
    (rows.foldl (fun d vr =>
      let item_row := dictSet vr "transporte_id" (Py.int tid2)
      { d with transporte_item := insertRow d.transporte_item item_row d.nextId,
               nextId := d.nextId + 1 }) db0).transporte = db0.transporte ∧
    (rows.foldl (fun d vr =>
      let item_row := dictSet vr "transporte_id" (Py.int tid2)
      { d with transporte_item := insertRow d.transporte_item item_row d.nextId,
               nextId := d.nextId + 1 }) db0).informacoes_adicionais =
      db0.informacoes_adicionais ∧
    (rows.foldl (fun d vr =>
      let item_row := dictSet vr "transporte_id" (Py.int tid2)
      { d with transporte_item := insertRow d.transporte_item item_row d.nextId,
               nextId := d.nextId + 1 }) db0).processamento_nfe =
      db0.processamento_nfe ∧
    db0.nextId ≤ (rows.foldl (fun d vr =>
      let item_row := dictSet vr "transporte_id" (Py.int tid2)
      { d with transporte_item := insertRow d.transporte_item item_row d.nextId,
               nextId := d.nextId + 1 }) db0).nextId := by
  induction rows with
  | nil =>
      intro db0
      exact ⟨rfl, rfl, rfl, rfl, rfl, rfl, rfl, rfl, rfl, rfl, le_refl _⟩
  | cons vr rest ih =>
      intro db0
      obtain ⟨a1, a2, a3, a4, a5, a6, a7, a8, a9, a10, a11⟩ :=
        ih { db0 with transporte_item := insertRow db0.transporte_item (dictSet vr "transporte_id" (Py.int tid2)) db0.nextId,
                      nextId := db0.nextId + 1 }
      exact ⟨a1, a2, a3, a4, a5, a6, a7, a8, a9, a10,
        le_trans (by omega : db0.nextId ≤ db0.nextId + 1) a11⟩

theorem save_transporte_frame (db : DB) (n : Int) (tid : Option Int)
    (t : Dict) (vols veics : List Dict) :
    (save_transporte db n tid t vols veics).nfe = db.nfe ∧
    (save_transporte db n tid t vols veics).pessoa = db.pessoa ∧
    (save_transporte db n tid t vols veics).endereco = db.endereco ∧
    (save_transporte db n tid t vols veics).nfe_pessoa = db.nfe_pessoa ∧
    (save_transporte db n tid t vols veics).item_nfe = db.item_nfe ∧
    (save_transporte db n tid t vols veics).imposto = db.imposto ∧
    (save_transporte db n tid t vols veics).totais_nfe = db.totais_nfe ∧
    (save_transporte db n tid t vols veics).informacoes_adicionais =
      db.informacoes_adicionais ∧
    (save_transporte db n tid t vols veics).processamento_nfe =
      db.processamento_nfe ∧
    db.nextId ≤ (save_transporte db n tid t vols veics).nextId := by
  unfold save_transporte
  by_cases hc : dictTruthy t = true
  case neg =>
    rw [if_neg hc]
    exact ⟨rfl, rfl, rfl, rfl, rfl, rfl, rfl, rfl, rfl, le_refl _⟩
  case pos =>
    rw [if_pos hc]
    by_cases hz : db.nextId ≠ 0
    case neg =>
      rw [if_neg hz]
      exact ⟨rfl, rfl, rfl, rfl, rfl, rfl, rfl, rfl, rfl,
        (by omega : db.nextId ≤ db.nextId + 1)⟩
    case pos =>
      rw [if_pos hz]
      obtain ⟨b1, b2, b3, b4, b5, b6, b7, b8, b9, b10, b11⟩ :=
        transp_item_fold_frame vols db.nextId
          { db with transporte := insertRow db.transporte (dictSet (dictSet t "nfe_id" (Py.int n)) "transportadora_id" (optIdPy tid)) db.nextId,
                    nextId := db.nextId + 1 }
      obtain ⟨c1, c2, c3, c4, c5, c6, c7, c8, c9, c10, c11⟩ :=
        transp_item_fold_frame veics db.nextId _
      exact ⟨c1.trans b1, c2.trans b2, c3.trans b3, c4.trans b4, c5.trans b5,
        c6.trans b6, c7.trans b7, c9.trans b9, c10.trans b10,
        le_trans (le_trans (by omega : db.nextId ≤ db.nextId + 1) b11) c11⟩

theorem save_inf_adic_frame (db : DB) (n : Int) (inf : Dict) :
    (save_inf_adic db n inf).nfe = db.nfe ∧
    (save_inf_adic db n inf).pessoa = db.pessoa ∧
    (save_inf_adic db n inf).endereco = db.endereco ∧
    (save_inf_adic db n inf).nfe_pessoa = db.nfe_pessoa ∧
    (save_inf_adic db n inf).item_nfe = db.item_nfe ∧
    (save_inf_adic db n inf).imposto = db.imposto ∧
    (save_inf_adic db n inf).totais_nfe = db.totais_nfe ∧
    (save_inf_adic db n inf).transporte = db.transporte ∧
    (save_inf_adic db n inf).transporte_item = db.transporte_item ∧
    (save_inf_adic db n inf).processamento_nfe = db.processamento_nfe ∧
    db.nextId ≤ (save_inf_adic db n inf).nextId := by
  unfold save_inf_adic
  by_cases hc : dictTruthy inf = true
  · rw [if_pos hc]
    exact ⟨rfl, rfl, rfl, rfl, rfl, rfl, rfl, rfl, rfl, rfl,
      (by omega : db.nextId ≤ db.nextId + 1)⟩
  · rw [if_neg hc]
    exact ⟨rfl, rfl, rfl, rfl, rfl, rfl, rfl, rfl, rfl, rfl, le_refl _⟩

/-! ## The header upsert -/

theorem nfe_upsert_insert (db : DB) (nd : Dict) (v : Py)
    (hv : dictGet nd "chave_acesso" = some v)
    (hfresh : ∀ r ∈ db.nfe, rowGet r "chave_acesso" ≠ v) :
    nfe_upsert db nd =
      ({ db with nfe := insertRow db.nfe nd db.nextId,
                 nextId := db.nextId + 1 }, db.nextId) := by
  have hkey : dictGetD nd "chave_acesso" Py.none = v := by
    simp [dictGetD, hv]
  simp only [nfe_upsert, hkey]
  have hnone : db.nfe.find? (fun r =>
      decide (v ≠ Py.none) && decide (rowGet r "chave_acesso" = v)) =
      Option.none := by
    rw [List.find?_eq_none]
    intro r hr
    simp [hfresh r hr]
  rw [hnone]

theorem nfe_upsert_conflict (db : DB) (nd : Dict) (v : Py) (r0 : Dict)
    (hv : dictGet nd "chave_acesso" = some v) (hvn : v ≠ Py.none)
    (hfind : db.nfe.find? (fun r => decide (rowGet r "chave_acesso" = v)) =
      some r0) :
    nfe_upsert db nd =
      ({ db with nfe := db.nfe.map (fun row =>
           if (decide (v ≠ Py.none) && decide (rowGet row "chave_acesso" = v)) = true then
             dictSet row "data_atualizacao" Py.none
           else row) },
       pyIntVal (rowGet r0 "id")) := by
  have hkey : dictGetD nd "chave_acesso" Py.none = v := by
    simp [dictGetD, hv]
  simp only [nfe_upsert, hkey]
  have hpred : (fun r => decide (v ≠ Py.none) &&
      decide (rowGet r "chave_acesso" = v)) =
      (fun r => decide (rowGet r "chave_acesso" = v)) := by
    funext r
    simp [hvn]
  rw [hpred, hfind]

/-- A map that preserves the filter predicate preserves the filter count. -/
theorem filter_length_map_pres (p : Dict → Bool) (f : Dict → Dict)
    (hf : ∀ r, p (f r) = p r) (rows : List Dict) :
    ((rows.map f).filter p).length = (rows.filter p).length := by
  induction rows with
  | nil => rfl
  | cons r rest ih =>
      rw [List.map_cons, List.filter_cons, List.filter_cons, hf r]
      by_cases hp : p r = true
      · rw [if_pos hp, if_pos hp]
        simp [ih]
      · rw [if_neg hp, if_neg hp]
        exact ih

/-- Updating `data_atualizacao` on conflicting rows preserves the number of
rows carrying the access key. -/
theorem countKey_map_upd (v : Py) (rows : List Dict) :
    ((rows.map (fun row =>
      if (decide (v ≠ Py.none) && decide (rowGet row "chave_acesso" = v)) = true then
        dictSet row "data_atualizacao" Py.none
      else row)).filter
        (fun r => decide (rowGet r "chave_acesso" = v))).length =
    (rows.filter (fun r => decide (rowGet r "chave_acesso" = v))).length := by
  apply filter_length_map_pres
  intro r
  by_cases hcond : (decide (v ≠ Py.none) && decide (rowGet r "chave_acesso" = v)) = true
  · simp only [if_pos hcond]
    rw [rowGet_set_ne _ _ _ _ (by decide)]
  · simp only [if_neg hcond]

/-! ## The party phase returns a positive identity -/

theorem party_step_id (db : DB) (d : Dict)
    (hpess : ∀ r ∈ db.pessoa, 1 ≤ pyIntVal (rowGet r "id"))
    (hpos : 1 ≤ db.nextId) (ht : dictTruthy d = true) :
    ∃ e, (party_step db d).2 = some e ∧ 1 ≤ e := by
  unfold party_step
  rw [if_pos ht]
  simp only [insert_or_get_pessoa_id]
  split
  case h_1 r heq =>
      refine ⟨pyIntVal (rowGet r "id"), rfl, ?_⟩
      have hmem : r ∈ db.pessoa := by
        by_cases hc : pyTruthy (dictGetD d "cnpj" Py.none) = true
        · rw [if_pos hc] at heq
          exact List.mem_of_find?_eq_some heq
        · rw [if_neg hc] at heq
          by_cases hc2 : pyTruthy (dictGetD d "cpf" Py.none) = true
          · rw [if_pos hc2] at heq
            exact List.mem_of_find?_eq_some heq
          · rw [if_neg hc2] at heq
            cases heq
      exact hpess r hmem
  case h_2 heq => exact ⟨db.nextId, rfl, hpos⟩

/-! ## Address insertion content -/

theorem save_endereco_for_extends (db : DB) (pid : Option Int)
    (endr : Dict) :
    ∃ t, (save_endereco_for db pid endr).endereco = db.endereco ++ t := by
  unfold save_endereco_for insert_endereco
  rcases pid with _ | e
  · exact ⟨[], by simp⟩
  · dsimp only
    by_cases hc : (decide (e ≠ 0) && dictTruthy endr) = true
    · rw [if_pos hc]
      exact ⟨_, rfl⟩
    · rw [if_neg hc]
      exact ⟨[], by simp⟩

theorem save_endereco_for_mem (db : DB) (e : Int) (endr : Dict)
    (he : e ≠ 0) (hd : dictTruthy endr = true) :
    dictSet (dictSet (dictSet endr "pessoa_id" (Py.int e)) "nfe_id" Py.none)
        "id" (Py.int db.nextId) ∈
      (save_endereco_for db (some e) endr).endereco := by
  unfold save_endereco_for insert_endereco
  dsimp only
  have hc : (decide (e ≠ 0) && dictTruthy endr) = true := by
    simp [he, hd]
  rw [if_pos hc]
  simp [insertRow]

/-! ## Claim C1: re-processing the same access key -/

theorem save_itens_len (itens : List Item) (db : DB) (n : Int) :
    (save_itens db n itens).item_nfe.length =
      db.item_nfe.length + itens.length := by
  obtain ⟨-, -, -, -, -, -, -, -, -, -, rows, h1, h2, -⟩ :=
    save_itens_spec itens db n
  rw [h1, List.length_append, h2]

theorem save_totais_len_pos (db : DB) (n : Int) (t : Dict)
    (h : dictTruthy t = true) :
    (save_totais db n t).totais_nfe.length = db.totais_nfe.length + 1 := by
  have h12 := (save_totais_frame db n t).2.2.2.2.2.2.2.2.2.2.2.1 h
  rw [h12, List.length_append]
  rfl

/-- **C1** (counterexample): processing `sampleDoc` twice leaves exactly one
header row, and the second attempt returns the same id, but it is not a
no-op on the child tables: the item, totals and party-link rows are all
inserted a second time. -/
theorem C1_counterexample :
    saved1.2 = some 3 ∧ saved2.2 = some 3 ∧
    saved2.1.nfe.length = 1 ∧
    saved1.1.item_nfe.length = 1 ∧ saved2.1.item_nfe.length = 2 ∧
    saved1.1.totais_nfe.length = 1 ∧ saved2.1.totais_nfe.length = 2 ∧
    saved1.1.nfe_pessoa.length = 2 ∧ saved2.1.nfe_pessoa.length = 4 := by
  decide

/-- **C1** (amended): when the access key of the incoming document is
non-NULL and already stored in a header row carrying a non-zero id,
`save_to_postgres` adds no header row (the header count, and in particular
the number of rows with that key, is unchanged) and returns the stored id —
but it is not a no-op: one item row per extracted item is appended again,
and a non-empty totals dict appends another totals row. -/
theorem C1_reprocess_appends_child_rows (db : DB) (data : Extracted)
    (xml : Xml) (v : Py) (r0 : Dict)
    (hv : dictGet data.nfe "chave_acesso" = some v) (hvn : v ≠ Py.none)
    (hfind : db.nfe.find? (fun r => decide (rowGet r "chave_acesso" = v)) =
      some r0)
    (hid : pyIntVal (rowGet r0 "id") ≠ 0) :
    (save_to_postgres db data xml).2 = some (pyIntVal (rowGet r0 "id")) ∧
    (save_to_postgres db data xml).1.nfe.length = db.nfe.length ∧
    ((save_to_postgres db data xml).1.nfe.filter
        (fun r => decide (rowGet r "chave_acesso" = v))).length =
      (db.nfe.filter (fun r => decide (rowGet r "chave_acesso" = v))).length ∧
    (save_to_postgres db data xml).1.item_nfe.length =
      db.item_nfe.length + data.itens.length ∧
    (dictTruthy data.totais = true →
      (save_to_postgres db data xml).1.totais_nfe.length =
        db.totais_nfe.length + 1) := by
  have hnfe3 : (party_step (party_step (party_step db data.emitente).1
      data.destinatario).1 data.transportadora).1.nfe = db.nfe := by
    rw [(party_step_frame _ data.transportadora).1,
        (party_step_frame _ data.destinatario).1,
        (party_step_frame db data.emitente).1]
  have hup := nfe_upsert_conflict
    (party_step (party_step (party_step db data.emitente).1
      data.destinatario).1 data.transportadora).1 data.nfe v r0 hv hvn
    (by rw [hnfe3]; exact hfind)
  simp only [save_to_postgres, hup]
  rw [if_neg hid]
  refine ⟨rfl, ?_, ?_, ?_, ?_⟩
  · rw [(save_inf_adic_frame _ _ _).1, (save_transporte_frame _ _ _ _ _ _).1,
        (save_totais_frame _ _ _).1, ((save_itens_spec data.itens) _ _).1,
        (save_links_frame _ _ _ _).1, (save_endereco_for_frame _ _ _).1,
        (save_endereco_for_frame _ _ _).1, (save_endereco_for_frame _ _ _).1]
    dsimp only
    rw [List.length_map, hnfe3]
  · rw [(save_inf_adic_frame _ _ _).1, (save_transporte_frame _ _ _ _ _ _).1,
        (save_totais_frame _ _ _).1, ((save_itens_spec data.itens) _ _).1,
        (save_links_frame _ _ _ _).1, (save_endereco_for_frame _ _ _).1,
        (save_endereco_for_frame _ _ _).1, (save_endereco_for_frame _ _ _).1]
    dsimp only
    rw [hnfe3]
    exact countKey_map_upd v db.nfe
  · rw [(save_inf_adic_frame _ _ _).2.2.2.2.1,
        (save_transporte_frame _ _ _ _ _ _).2.2.2.2.1,
        (save_totais_frame _ _ _).2.2.2.2.1, save_itens_len,
        (save_links_frame _ _ _ _).2.2.2.1,
        (save_endereco_for_frame _ _ _).2.2.2.1,
        (save_endereco_for_frame _ _ _).2.2.2.1,
        (save_endereco_for_frame _ _ _).2.2.2.1]
    dsimp only
    rw [(party_step_frame _ data.transportadora).2.2.2.1,
        (party_step_frame _ data.destinatario).2.2.2.1,
        (party_step_frame db data.emitente).2.2.2.1]
  · intro htt
    rw [(save_inf_adic_frame _ _ _).2.2.2.2.2.2.1,
        (save_transporte_frame _ _ _ _ _ _).2.2.2.2.2.2.1,
        save_totais_len_pos _ _ _ htt,
        ((save_itens_spec data.itens) _ _).2.2.2.2.1,
        (save_links_frame _ _ _ _).2.2.2.2.2.1,
        (save_endereco_for_frame _ _ _).2.2.2.2.2.1,
        (save_endereco_for_frame _ _ _).2.2.2.2.2.1,
        (save_endereco_for_frame _ _ _).2.2.2.2.2.1]
    dsimp only
    rw [(party_step_frame _ data.transportadora).2.2.2.2.2.1,
        (party_step_frame _ data.destinatario).2.2.2.2.2.1,
        (party_step_frame db data.emitente).2.2.2.2.2.1]

/-- **C1** (witness): the amended theorem applied to the second processing
of `sampleDoc`. -/
theorem C1_reprocess_appends_child_rows_witness :
    (dictGet sampleData.nfe "chave_acesso" = some (Py.str chave44)) ∧
    (Py.str chave44 ≠ Py.none) ∧
    (saved1.1.nfe.find?
        (fun r => decide (rowGet r "chave_acesso" = Py.str chave44)) =
      some (saved1.1.nfe.headD [])) ∧
    (pyIntVal (rowGet (saved1.1.nfe.headD []) "id") ≠ 0) ∧
    ((save_to_postgres saved1.1 sampleData sampleDoc).2 =
        some (pyIntVal (rowGet (saved1.1.nfe.headD []) "id")) ∧
     (save_to_postgres saved1.1 sampleData sampleDoc).1.nfe.length =
        saved1.1.nfe.length ∧
     ((save_to_postgres saved1.1 sampleData sampleDoc).1.nfe.filter
         (fun r => decide (rowGet r "chave_acesso" = Py.str chave44))).length =
       (saved1.1.nfe.filter
         (fun r => decide (rowGet r "chave_acesso" = Py.str chave44))).length ∧
     (save_to_postgres saved1.1 sampleData sampleDoc).1.item_nfe.length =
        saved1.1.item_nfe.length + sampleData.itens.length ∧
     (dictTruthy sampleData.totais = true →
       (save_to_postgres saved1.1 sampleData sampleDoc).1.totais_nfe.length =
         saved1.1.totais_nfe.length + 1)) :=
  ⟨by decide, by decide, by decide, by decide,
   C1_reprocess_appends_child_rows saved1.1 sampleData sampleDoc
     (Py.str chave44) (saved1.1.nfe.headD [])
     (by decide) (by decide) (by decide) (by decide)⟩

/-! ## Claim C7: address completeness -/

/-- **C7** (counterexample): `docNoCep` carries an issuer address with no
postal-code element; its extraction has `cep = ""`, and persistence inserts
the address row anyway (it is not dropped): the stored row still has the
empty postal code, the other address fields, and the issuer party id, and
the rest of the document saves normally. -/
theorem C7_counterexample :
    savedNoCep.2 = some 2 ∧
    dataNoCep.emitente_endereco ≠ [] ∧
    rowGet dataNoCep.emitente_endereco "cep" = Py.str "" ∧
    savedNoCep.1.endereco.length = 1 ∧
    rowGet (savedNoCep.1.endereco.headD []) "cep" = Py.str "" ∧
    rowGet (savedNoCep.1.endereco.headD []) "logradouro" = Py.str "RUA A" ∧
    rowGet (savedNoCep.1.endereco.headD []) "pessoa_id" = Py.int 1 := by
  decide

/-- **C7** (amended): persistence performs no completeness check on
addresses: for any non-zero party id and any non-empty address dict — in
particular one whose postal code is empty or missing — a row is inserted
holding every original address field unchanged. -/
theorem C7_address_inserted_without_check (db : DB) (e : Int) (endr : Dict)
    (he : e ≠ 0) (hd : dictTruthy endr = true) :
    ∃ row ∈ (save_endereco_for db (some e) endr).endereco,
      rowGet row "pessoa_id" = Py.int e ∧
      ∀ k, k ≠ "pessoa_id" → k ≠ "nfe_id" → k ≠ "id" →
        rowGet row k = rowGet endr k := by
  refine ⟨dictSet (dictSet (dictSet endr "pessoa_id" (Py.int e)) "nfe_id"
      Py.none) "id" (Py.int db.nextId),
    save_endereco_for_mem db e endr he hd, ?_, ?_⟩
  · rw [rowGet_set_ne _ _ _ _ (by decide), rowGet_set_ne _ _ _ _ (by decide),
        rowGet_set_self]
  · intro k h1 h2 h3
    rw [rowGet_set_ne _ _ _ _ h3, rowGet_set_ne _ _ _ _ h2,
        rowGet_set_ne _ _ _ _ h1]

/-- **C7** (witness): the amended theorem applied to an address dict whose
only field is an empty postal code. -/
theorem C7_address_inserted_without_check_witness :
    ((1 : Int) ≠ 0) ∧ (dictTruthy [("cep", Py.str "")] = true) ∧
    (∃ row ∈ (save_endereco_for DB.empty (some 1)
        [("cep", Py.str "")]).endereco,
      rowGet row "pessoa_id" = Py.int 1 ∧
      ∀ k, k ≠ "pessoa_id" → k ≠ "nfe_id" → k ≠ "id" →
        rowGet row k = rowGet [("cep", Py.str "")] k) :=
  ⟨by decide, by decide,
   C7_address_inserted_without_check DB.empty 1 [("cep", Py.str "")]
     (by decide) (by decide)⟩

/-! ## Claim C2: atomicity of a failed save -/

/-- **C2** (counterexample): with the oracle making statement 8 (the totals
INSERT) raise while persisting `sampleDoc` into an empty store, the save
returns `None` and writes a FALHA_DB audit row — but the already-committed
header, parties, links and item row remain: partial rows of the failed
invoice persist, refuting atomicity. -/
theorem C2_counterexample :
    run8.2 = Option.none ∧
    run8.1.db.nfe.length = 1 ∧
    run8.1.db.pessoa.length = 2 ∧
    run8.1.db.nfe_pessoa.length = 2 ∧
    run8.1.db.item_nfe.length = 1 ∧
    run8.1.db.totais_nfe.length = 0 ∧
    run8.1.db.processamento_nfe.length = 1 := by
  decide

theorem tableExtends_refl (l : List Dict) : tableExtends l l :=
  ⟨[], by simp⟩

theorem tableExtends_trans {a b c : List Dict}
    (h1 : tableExtends a b) (h2 : tableExtends b c) : tableExtends a c := by
  obtain ⟨t1, h1⟩ := h1
  obtain ⟨t2, h2⟩ := h2
  exact ⟨t1 ++ t2, by rw [h2, h1, List.append_assoc]⟩

theorem extends_insertRow (rows : List Dict) (r : Dict) (n : Int) :
    tableExtends rows (insertRow rows r n) :=
  ⟨[dictSet r "id" (Py.int n)], rfl⟩

theorem dbGrows_refl (d : DB) : dbGrows d d :=
  ⟨le_refl _, tableExtends_refl _, tableExtends_refl _, tableExtends_refl _,
   tableExtends_refl _, tableExtends_refl _, tableExtends_refl _,
   tableExtends_refl _, tableExtends_refl _, tableExtends_refl _,
   tableExtends_refl _⟩

theorem dbGrows_trans {a b c : DB} (h1 : dbGrows a b) (h2 : dbGrows b c) :
    dbGrows a c := by
  obtain ⟨p1, p2, p3, p4, p5, p6, p7, p8, p9, p10, p11⟩ := h1
  obtain ⟨q1, q2, q3, q4, q5, q6, q7, q8, q9, q10, q11⟩ := h2
  exact ⟨le_trans p1 q1, tableExtends_trans p2 q2, tableExtends_trans p3 q3,
    tableExtends_trans p4 q4, tableExtends_trans p5 q5,
    tableExtends_trans p6 q6, tableExtends_trans p7 q7,
    tableExtends_trans p8 q8, tableExtends_trans p9 q9,
    tableExtends_trans p10 q10, tableExtends_trans p11 q11⟩

theorem runStmt_grows {α : Type} (e : Exec) (f : DB → DB × α)
    (hf : ∀ db, dbGrows db (f db).1) :
    dbGrows e.db ((runStmt e f).1).db := by
  unfold runStmt
  by_cases hc : e.failAt = some e.idx
  · rw [if_pos hc]
    exact dbGrows_refl _
  · rw [if_neg hc]
    exact hf e.db

theorem runStmt_fst_grows {α : Type} (e : Exec) (f : DB → DB × α)
    (hf : ∀ db, dbGrows db (f db).1) (e1 : Exec) (r : Except Unit α)
    (h : runStmt e f = (e1, r)) : dbGrows e.db e1.db := by
  have h0 := runStmt_grows e f hf
  rw [h] at h0
  exact h0

theorem pessoa_insertRun_grows (e : Exec) (p : Dict) :
    dbGrows e.db (pessoa_insertRun e p).1.db := by
  unfold pessoa_insertRun
  split
  next e1 x heq =>
    exact runStmt_fst_grows _ _
      (fun db => ⟨le_refl _, extends_insertRow _ _ _, tableExtends_refl _,
        tableExtends_refl _, tableExtends_refl _, tableExtends_refl _,
        tableExtends_refl _, tableExtends_refl _, tableExtends_refl _,
        tableExtends_refl _, tableExtends_refl _⟩) _ _ heq
  next e1 n heq =>
    exact runStmt_fst_grows _ _
      (fun db => ⟨le_refl _, extends_insertRow _ _ _, tableExtends_refl _,
        tableExtends_refl _, tableExtends_refl _, tableExtends_refl _,
        tableExtends_refl _, tableExtends_refl _, tableExtends_refl _,
        tableExtends_refl _, tableExtends_refl _⟩) _ _ heq

theorem insert_or_get_pessoa_idRun_grows (e : Exec) (p : Dict) :
    dbGrows e.db (insert_or_get_pessoa_idRun e p).1.db := by
  simp only [insert_or_get_pessoa_idRun]
  split
  · split
    next e1 x heq =>
      exact runStmt_fst_grows _ _ (fun db => dbGrows_refl db) _ _ heq
    next e1 r0 heq =>
      exact runStmt_fst_grows _ _ (fun db => dbGrows_refl db) _ _ heq
    next e1 heq =>
      exact dbGrows_trans
        (runStmt_fst_grows _ _ (fun db => dbGrows_refl db) _ _ heq)
        (pessoa_insertRun_grows e1 p)
  · split
    · split
      next e1 x heq =>
        exact runStmt_fst_grows _ _ (fun db => dbGrows_refl db) _ _ heq
      next e1 r0 heq =>
        exact runStmt_fst_grows _ _ (fun db => dbGrows_refl db) _ _ heq
      next e1 heq =>
        exact dbGrows_trans
          (runStmt_fst_grows _ _ (fun db => dbGrows_refl db) _ _ heq)
          (pessoa_insertRun_grows e1 p)
    · exact pessoa_insertRun_grows e p

theorem insert_enderecoRun_grows (e : Exec) (d : Dict) :
    dbGrows e.db (insert_enderecoRun e d).db :=
  runStmt_grows e _
    (fun _ => ⟨le_refl _, tableExtends_refl _, extends_insertRow _ _ _,
      tableExtends_refl _, tableExtends_refl _, tableExtends_refl _,
      tableExtends_refl _, tableExtends_refl _, tableExtends_refl _,
      tableExtends_refl _, tableExtends_refl _⟩)

theorem save_endereco_forRun_grows (e : Exec) (pid : Option Int)
    (endr : Dict) : dbGrows e.db (save_endereco_forRun e pid endr).db := by
  unfold save_endereco_forRun
  rcases pid with _ | p
  · exact dbGrows_refl _
  · dsimp only
    by_cases hc : (decide (p ≠ 0) && dictTruthy endr) = true
    · rw [if_pos hc]
      exact insert_enderecoRun_grows e _
    · rw [if_neg hc]
      exact dbGrows_refl _

theorem proc_insertRun_grows (e : Exec) (v : Py) (st ms : String) :
    dbGrows e.db (proc_insertRun e v st ms).db :=
  runStmt_grows e _
    (fun _ => ⟨le_refl _, tableExtends_refl _, tableExtends_refl _,
      tableExtends_refl _, tableExtends_refl _, tableExtends_refl _,
      tableExtends_refl _, tableExtends_refl _, tableExtends_refl _,
      tableExtends_refl _, extends_insertRow _ _ _⟩)

theorem save_processing_statusRun_grows (e : Exec) (nid : Option Int)
    (xml : Option Xml) (st ms : String) :
    dbGrows e.db (save_processing_statusRun e nid xml st ms).db := by
  unfold save_processing_statusRun
  rcases nid with _ | n
  · rcases xml with _ | root
    · exact proc_insertRun_grows _ _ _ _
    · dsimp only
      rcases extrair_dados_nfe root with _ | data
      · exact dbGrows_refl _
      · dsimp only
        rcases dictGet data.nfe "chave_acesso" with _ | k
        · exact proc_insertRun_grows _ _ _ _
        · dsimp only
          split
          next e1 x heq =>
            exact runStmt_fst_grows _ _ (fun db => dbGrows_refl db) _ _ heq
          next e1 r heq =>
            exact dbGrows_trans
              (runStmt_fst_grows _ _ (fun db => dbGrows_refl db) _ _ heq)
              (proc_insertRun_grows _ _ _ _)
          next e1 heq =>
            exact dbGrows_trans
              (runStmt_fst_grows _ _ (fun db => dbGrows_refl db) _ _ heq)
              (proc_insertRun_grows _ _ _ _)
  · exact proc_insertRun_grows _ _ _ _

theorem saveFailRun_grows (e : Exec) (nid : Option Int) (xml : Xml) :
    dbGrows e.db (saveFailRun e nid xml).1.db :=
  save_processing_statusRun_grows e nid (some xml) "FALHA_DB" "erro"

theorem grows_nfe_pessoa (row : Dict) (db : DB) :
    dbGrows db { db with
      nfe_pessoa := insertRow db.nfe_pessoa row db.nextId,
      nextId := db.nextId + 1 } :=
  ⟨le_refl _, tableExtends_refl _, tableExtends_refl _, extends_insertRow _ _ _,
   tableExtends_refl _, tableExtends_refl _, tableExtends_refl _,
   tableExtends_refl _, tableExtends_refl _, tableExtends_refl _,
   tableExtends_refl _⟩

theorem save_linksRun_grows (e : Exec) (n : Int) (eid did : Option Int) :
    dbGrows e.db (save_linksRun e n eid did).1.db := by
  have hsecond : ∀ e1 : Exec, dbGrows e.db e1.db →
      ∀ q : Int, dbGrows e.db
        ((match runStmt e1 (fun db =>
            ({ db with
               nfe_pessoa := insertRow db.nfe_pessoa
                 [("nfe_id", Py.int n), ("pessoa_id", Py.int q),
                  ("tipo_relacao", Py.str "DESTINATARIO")] db.nextId,
               nextId := db.nextId + 1 }, ())) with
          | (e, Except.error x) => (e, Except.error x)
          | (e, Except.ok _) => (e, Except.ok ())).1).db := by
    intro e1 hg1 q
    split
    next e2 x heq2 =>
      exact dbGrows_trans hg1
        (runStmt_fst_grows _ _ (fun db => grows_nfe_pessoa _ db) _ _ heq2)
    next e2 u2 heq2 =>
      exact dbGrows_trans hg1
        (runStmt_fst_grows _ _ (fun db => grows_nfe_pessoa _ db) _ _ heq2)
  unfold save_linksRun
  rcases eid with _ | p
  · dsimp only
    rcases did with _ | q
    · exact dbGrows_refl _
    · dsimp only
      by_cases hq : q ≠ 0
      · rw [if_pos hq]
        exact hsecond e (dbGrows_refl _) q
      · rw [if_neg hq]
        exact dbGrows_refl _
  · dsimp only
    by_cases hp : p ≠ 0
    · rw [if_pos hp]
      split
      next e1 x heq =>
        exact runStmt_fst_grows _ _ (fun db => grows_nfe_pessoa _ db) _ _ heq
      next e1 u heq =>
        have hg1 : dbGrows e.db e1.db :=
          runStmt_fst_grows _ _ (fun db => grows_nfe_pessoa _ db) _ _ heq
        rcases did with _ | q
        · exact hg1
        · dsimp only
          by_cases hq : q ≠ 0
          · rw [if_pos hq]
            exact hsecond e1 hg1 q
          · rw [if_neg hq]
            exact hg1
    · rw [if_neg hp]
      dsimp only
      rcases did with _ | q
      · exact dbGrows_refl _
      · dsimp only
        by_cases hq : q ≠ 0
        · rw [if_pos hq]
          exact hsecond e (dbGrows_refl _) q
        · rw [if_neg hq]
          exact dbGrows_refl _

theorem grows_item_nfe (row : Dict) (db : DB) :
    dbGrows db { db with
      item_nfe := insertRow db.item_nfe row db.nextId,
      nextId := db.nextId + 1 } :=
  ⟨le_refl _, tableExtends_refl _, tableExtends_refl _, tableExtends_refl _,
   extends_insertRow _ _ _, tableExtends_refl _, tableExtends_refl _,
   tableExtends_refl _, tableExtends_refl _, tableExtends_refl _,
   tableExtends_refl _⟩

theorem grows_imposto (row : Dict) (db : DB) :
    dbGrows db { db with
      imposto := insertRow db.imposto row db.nextId,
      nextId := db.nextId + 1 } :=
  ⟨le_refl _, tableExtends_refl _, tableExtends_refl _, tableExtends_refl _,
   tableExtends_refl _, extends_insertRow _ _ _, tableExtends_refl _,
   tableExtends_refl _, tableExtends_refl _, tableExtends_refl _,
   tableExtends_refl _⟩

theorem grows_transporte_row (row : Dict) (db : DB) :
    dbGrows db { db with
      transporte := insertRow db.transporte row db.nextId,
      nextId := db.nextId + 1 } :=
  ⟨le_refl _, tableExtends_refl _, tableExtends_refl _, tableExtends_refl _,
   tableExtends_refl _, tableExtends_refl _, tableExtends_refl _,
   extends_insertRow _ _ _, tableExtends_refl _, tableExtends_refl _,
   tableExtends_refl _⟩

theorem grows_transporte_item (row : Dict) (db : DB) :
    dbGrows db { db with
      transporte_item := insertRow db.transporte_item row db.nextId,
      nextId := db.nextId + 1 } :=
  ⟨le_refl _, tableExtends_refl _, tableExtends_refl _, tableExtends_refl _,
   tableExtends_refl _, tableExtends_refl _, tableExtends_refl _,
   tableExtends_refl _, extends_insertRow _ _ _, tableExtends_refl _,
   tableExtends_refl _⟩

theorem imposto_foldRun_grows (imps : List Dict) (iid : Int) :
    ∀ e : Exec, dbGrows e.db ((imps.foldl (fun ex imp =>
      (runStmt ex (fun db =>
        let imp_row := dictSet imp "item_nfe_id" (Py.int iid)
        ({ db with imposto := insertRow db.imposto imp_row db.nextId,
                   nextId := db.nextId + 1 }, ()))).1) e)).db := by
  induction imps with
  | nil =>
      intro e
      exact dbGrows_refl _
  | cons imp rest ih =>
      intro e
      rw [List.foldl_cons]
      exact dbGrows_trans
        (runStmt_grows _ _ (fun db => grows_imposto _ db)) (ih _)

theorem save_itemRun_grows (e : Exec) (n : Int) (it : Item) :
    dbGrows e.db (save_itemRun e n it).1.db := by
  unfold save_itemRun
  split
  next e1 x heq =>
    exact runStmt_fst_grows _ _ (fun db => grows_item_nfe _ db) _ _ heq
  next e1 iid heq =>
    have hg1 : dbGrows e.db e1.db :=
      runStmt_fst_grows _ _ (fun db => grows_item_nfe _ db) _ _ heq
    by_cases hz : iid ≠ 0
    · rw [if_pos hz]
      exact dbGrows_trans hg1 (imposto_foldRun_grows it.impostos iid e1)
    · rw [if_neg hz]
      exact hg1

theorem save_itensRun_grows (n : Int) (itens : List Item) :
    ∀ e : Exec, dbGrows e.db ((save_itensRun e n itens).1).db := by
  induction itens with
  | nil =>
      intro e
      exact dbGrows_refl _
  | cons it rest ih =>
      intro e
      unfold save_itensRun
      split
      next e1 x heq =>
        have h1 := save_itemRun_grows e n it
        rw [heq] at h1
        exact h1
      next e1 u heq =>
        have h1 := save_itemRun_grows e n it
        rw [heq] at h1
        exact dbGrows_trans h1 (ih e1)

theorem save_totais_grows (n : Int) (t : Dict) (db : DB) :
    dbGrows db (save_totais db n t) := by
  unfold save_totais
  by_cases h : dictTruthy t = true
  · rw [if_pos h]
    exact ⟨le_refl _, tableExtends_refl _, tableExtends_refl _,
      tableExtends_refl _, tableExtends_refl _, tableExtends_refl _,
      extends_insertRow _ _ _, tableExtends_refl _, tableExtends_refl _,
      tableExtends_refl _, tableExtends_refl _⟩
  · rw [if_neg h]
    exact dbGrows_refl _

theorem save_totaisRun_grows (e : Exec) (n : Int) (t : Dict) :
    dbGrows e.db (save_totaisRun e n t).1.db := by
  unfold save_totaisRun
  by_cases h : dictTruthy t = true
  · rw [if_pos h]
    exact runStmt_grows _ _ (fun db => save_totais_grows n t db)
  · rw [if_neg h]
    exact dbGrows_refl _

theorem save_inf_adic_grows (n : Int) (inf : Dict) (db : DB) :
    dbGrows db (save_inf_adic db n inf) := by
  unfold save_inf_adic
  by_cases h : dictTruthy inf = true
  · rw [if_pos h]
    exact ⟨le_refl _, tableExtends_refl _, tableExtends_refl _,
      tableExtends_refl _, tableExtends_refl _, tableExtends_refl _,
      tableExtends_refl _, tableExtends_refl _, tableExtends_refl _,
      extends_insertRow _ _ _, tableExtends_refl _⟩
  · rw [if_neg h]
    exact dbGrows_refl _

theorem save_inf_adicRun_grows (e : Exec) (n : Int) (inf : Dict) :
    dbGrows e.db (save_inf_adicRun e n inf).1.db := by
  unfold save_inf_adicRun
  by_cases h : dictTruthy inf = true
  · rw [if_pos h]
    exact runStmt_grows _ _ (fun db => save_inf_adic_grows n inf db)
  · rw [if_neg h]
    exact dbGrows_refl _

theorem insertTranspItemsRun_grows (tid : Int) (rows : List Dict) :
    ∀ e : Exec, dbGrows e.db ((insertTranspItemsRun e tid rows).1).db := by
  induction rows with
  | nil =>
      intro e
      exact dbGrows_refl _
  | cons row rest ih =>
      intro e
      unfold insertTranspItemsRun
      split
      next e1 x heq =>
        exact runStmt_fst_grows _ _ (fun db => grows_transporte_item _ db)
          _ _ heq
      next e1 u heq =>
        exact dbGrows_trans
          (runStmt_fst_grows _ _ (fun db => grows_transporte_item _ db)
            _ _ heq) (ih e1)

theorem save_transporteRun_grows (e : Exec) (n : Int) (tid : Option Int)
    (t : Dict) (vols veics : List Dict) :
    dbGrows e.db (save_transporteRun e n tid t vols veics).1.db := by
  unfold save_transporteRun
  by_cases ht : dictTruthy t = true
  · rw [if_pos ht]
    split
    next e1 x heq =>
      exact runStmt_fst_grows _ _ (fun db => grows_transporte_row _ db)
        _ _ heq
    next e1 tid2 heq =>
      have hg1 : dbGrows e.db e1.db :=
        runStmt_fst_grows _ _ (fun db => grows_transporte_row _ db) _ _ heq
      by_cases hz : tid2 ≠ 0
      · rw [if_pos hz]
        split
        next e2 x heq2 =>
          have h2 := insertTranspItemsRun_grows tid2 vols e1
          rw [heq2] at h2
          exact dbGrows_trans hg1 h2
        next e2 u heq2 =>
          have h2 := insertTranspItemsRun_grows tid2 vols e1
          rw [heq2] at h2
          exact dbGrows_trans hg1 (dbGrows_trans h2
            (insertTranspItemsRun_grows tid2 veics e2))
      · rw [if_neg hz]
        exact hg1
  · rw [if_neg ht]
    exact dbGrows_refl _

theorem nfe_upsert_grows (nd : Dict) (db : DB) :
    dbGrows db (nfe_upsert db nd).1 := by
  simp only [nfe_upsert]
  split
  · exact ⟨le_of_eq (List.length_map _ _).symm, tableExtends_refl _,
      tableExtends_refl _, tableExtends_refl _, tableExtends_refl _,
      tableExtends_refl _, tableExtends_refl _, tableExtends_refl _,
      tableExtends_refl _, tableExtends_refl _, tableExtends_refl _⟩
  · exact ⟨by simp [insertRow], tableExtends_refl _,
      tableExtends_refl _, tableExtends_refl _, tableExtends_refl _,
      tableExtends_refl _, tableExtends_refl _, tableExtends_refl _,
      tableExtends_refl _, tableExtends_refl _, tableExtends_refl _⟩

theorem party_ifRun_grows (e : Exec) (d : Dict) (e1 : Exec)
    (r : Except Unit (Option Int))
    (h : (if dictTruthy d = true then insert_or_get_pessoa_idRun e d
          else (e, Except.ok Option.none)) = (e1, r)) :
    dbGrows e.db e1.db := by
  by_cases hd : dictTruthy d = true
  · rw [if_pos hd] at h
    have h0 := insert_or_get_pessoa_idRun_grows e d
    rw [h] at h0
    exact h0
  · rw [if_neg hd] at h
    injection h with h1 h2
    subst h1
    exact dbGrows_refl _

/-- **C2** (amended): every statement runs with autocommit and nothing is
ever rolled back: whatever statement (if any) the oracle makes raise, the
store after `save_to_postgres` extends the store before it — every child
table keeps all its old rows (new rows are only appended) and the header
table never shrinks; on a failure the function merely stops early, writes
the FALHA_DB audit row, and returns `None`. -/
theorem C2_autocommit_no_rollback (e : Exec) (data : Extracted) (xml : Xml) :
    dbGrows e.db (save_to_postgresRun e data xml).1.db := by
  unfold save_to_postgresRun
  split
  next e1 x heq =>
    exact dbGrows_trans (party_ifRun_grows e data.emitente e1 _ heq)
      (saveFailRun_grows e1 _ xml)
  next e1 eid heq =>
    have hg1 := party_ifRun_grows e data.emitente e1 _ heq
    split
    next e2 x heq2 =>
      exact dbGrows_trans hg1
        (dbGrows_trans (party_ifRun_grows e1 data.destinatario e2 _ heq2)
          (saveFailRun_grows e2 _ xml))
    next e2 did heq2 =>
      have hg2 := dbGrows_trans hg1
        (party_ifRun_grows e1 data.destinatario e2 _ heq2)
      split
      next e3 x heq3 =>
        exact dbGrows_trans hg2
          (dbGrows_trans (party_ifRun_grows e2 data.transportadora e3 _ heq3)
            (saveFailRun_grows e3 _ xml))
      next e3 tid heq3 =>
        have hg3 := dbGrows_trans hg2
          (party_ifRun_grows e2 data.transportadora e3 _ heq3)
        split
        next e4 x heq4 =>
          exact dbGrows_trans hg3
            (dbGrows_trans
              (runStmt_fst_grows _ _ (fun db => nfe_upsert_grows data.nfe db)
                _ _ heq4)
              (saveFailRun_grows e4 _ xml))
        next e4 nid heq4 =>
          have hg4 := dbGrows_trans hg3
            (runStmt_fst_grows _ _ (fun db => nfe_upsert_grows data.nfe db)
              _ _ heq4)
          by_cases hz : nid = 0
          · rw [if_pos hz]
            exact dbGrows_trans hg4 (saveFailRun_grows e4 _ xml)
          · rw [if_neg hz]
            dsimp only
            set e5 := save_endereco_forRun e4 eid data.emitente_endereco
              with he5
            set e6 := save_endereco_forRun e5 did data.destinatario_endereco
              with he6
            set e7 := save_endereco_forRun e6 tid
              data.transportadora_endereco with he7
            have hg7 : dbGrows e.db e7.db :=
              dbGrows_trans hg4 (dbGrows_trans
                (save_endereco_forRun_grows e4 eid data.emitente_endereco)
                (dbGrows_trans
                  (save_endereco_forRun_grows e5 did
                    data.destinatario_endereco)
                  (save_endereco_forRun_grows e6 tid
                    data.transportadora_endereco)))
            split
            next e8 x heq8 =>
              have h8 := save_linksRun_grows e7 nid eid did
              rw [heq8] at h8
              exact dbGrows_trans hg7
                (dbGrows_trans h8 (saveFailRun_grows e8 _ xml))
            next e8 u8 heq8 =>
              have h8 := save_linksRun_grows e7 nid eid did
              rw [heq8] at h8
              have hg8 := dbGrows_trans hg7 h8
              split
              next e9 x heq9 =>
                have h9 := save_itensRun_grows nid data.itens e8
                rw [heq9] at h9
                exact dbGrows_trans hg8
                  (dbGrows_trans h9 (saveFailRun_grows e9 _ xml))
              next e9 u9 heq9 =>
                have h9 := save_itensRun_grows nid data.itens e8
                rw [heq9] at h9
                have hg9 := dbGrows_trans hg8 h9
                split
                next e10 x heq10 =>
                  have h10 := save_totaisRun_grows e9 nid data.totais
                  rw [heq10] at h10
                  exact dbGrows_trans hg9
                    (dbGrows_trans h10 (saveFailRun_grows e10 _ xml))
                next e10 u10 heq10 =>
                  have h10 := save_totaisRun_grows e9 nid data.totais
                  rw [heq10] at h10
                  have hg10 := dbGrows_trans hg9 h10
                  split
                  next e11 x heq11 =>
                    have h11 := save_transporteRun_grows e10 nid tid
                      data.transporte data.volumes data.veiculos
                    rw [heq11] at h11
                    exact dbGrows_trans hg10
                      (dbGrows_trans h11 (saveFailRun_grows e11 _ xml))
                  next e11 u11 heq11 =>
                    have h11 := save_transporteRun_grows e10 nid tid
                      data.transporte data.volumes data.veiculos
                    rw [heq11] at h11
                    have hg11 := dbGrows_trans hg10 h11
                    split
                    next e12 x heq12 =>
                      have h12 := save_inf_adicRun_grows e11 nid
                        data.informacoes_adicionais
                      rw [heq12] at h12
                      exact dbGrows_trans hg11
                        (dbGrows_trans h12 (saveFailRun_grows e12 _ xml))
                    next e12 u12 heq12 =>
                      have h12 := save_inf_adicRun_grows e11 nid
                        data.informacoes_adicionais
                      rw [heq12] at h12
                      exact dbGrows_trans hg11 h12

/-! ## Claim C3: extract-persist-query roundtrip -/

/-- **C3** (counterexample): after persisting `sampleDoc`, querying by its
44-digit access key returns nothing (the all-digit identifier is routed to
the numeric-id branch), while querying by the surrogate id succeeds — the
roundtrip fails for the access-key half of the claim. -/
theorem C3_counterexample :
    get_nota_fiscal_by_identifier saved1.1 chave44 = Option.none ∧
    (get_nota_fiscal_by_identifier saved1.1 "3").isSome = true := by
  decide

theorem dictGet_serialDict (d : Dict) (k : String) :
    dictGet (serialDict d) k = (dictGet d k).map pySerial := by
  induction d with
  | nil => rfl
  | cons p rest ih =>
      show dictGet ((p.1, pySerial p.2) :: serialDict rest) k = _
      unfold dictGet
      by_cases h : p.1 = k
      · have h1 : List.find? (fun q => decide (q.1 = k))
            ((p.1, pySerial p.2) :: serialDict rest) =
            some (p.1, pySerial p.2) :=
          List.find?_cons_of_pos _ (by simpa using h)
        have h2 : List.find? (fun q => decide (q.1 = k)) (p :: rest) =
            some p :=
          List.find?_cons_of_pos _ (by simpa using h)
        rw [h1, h2]
        rfl
      · have h1 : List.find? (fun q => decide (q.1 = k))
            ((p.1, pySerial p.2) :: serialDict rest) =
            List.find? (fun q => decide (q.1 = k)) (serialDict rest) :=
          List.find?_cons_of_neg _ (by simpa using h)
        have h2 : List.find? (fun q => decide (q.1 = k)) (p :: rest) =
            List.find? (fun q => decide (q.1 = k)) rest :=
          List.find?_cons_of_neg _ (by simpa using h)
        rw [h1, h2]
        exact ih

theorem rowGet_serialDict (d : Dict) (k : String) :
    rowGet (serialDict d) k = pySerial (rowGet d k) := by
  unfold rowGet dictGetD
  rw [dictGet_serialDict]
  cases dictGet d k <;> rfl

theorem insertByNumero_length (l : List Dict) (r : Dict) :
    (insertByNumero l r).length = l.length + 1 := by
  induction l with
  | nil => rfl
  | cons x xs ih =>
      unfold insertByNumero
      by_cases h : pyNumKey r < pyNumKey x
      · rw [if_pos h]
        simp
      · rw [if_neg h]
        simp [ih]

theorem sortByNumero_length (rows : List Dict) :
    (sortByNumero rows).length = rows.length := by
  suffices h : ∀ acc : List Dict,
      (rows.foldl insertByNumero acc).length = acc.length + rows.length by
    simpa [sortByNumero] using h []
  induction rows with
  | nil =>
      intro acc
      simp
  | cons r rest ih =>
      intro acc
      rw [List.foldl_cons, ih, insertByNumero_length]
      simp only [List.length_cons]
      omega

theorem insert_or_get_cnpj_miss (db : DB) (d : Dict)
    (hc : pyTruthy (dictGetD d "cnpj" Py.none) = true)
    (hmiss : ∀ r ∈ db.pessoa,
      rowGet r "cnpj" ≠ dictGetD d "cnpj" Py.none) :
    insert_or_get_pessoa_id db d =
      ({ db with pessoa := insertRow db.pessoa d db.nextId,
                 nextId := db.nextId + 1 }, some db.nextId) := by
  have hfind : db.pessoa.find?
      (fun r => decide (rowGet r "cnpj" = dictGetD d "cnpj" Py.none)) =
      Option.none := by
    rw [List.find?_eq_none]
    intro r hr
    simpa using hmiss r hr
  simp only [insert_or_get_pessoa_id, hc, hfind]
  simp

theorem party_step_none (db : DB) (d : Dict) (h : dictTruthy d = false) :
    party_step db d = (db, Option.none) := by
  unfold party_step
  simp [h]

theorem save_itens_spec_nil (itens : List Item) (db : DB) (n : Int)
    (h : db.item_nfe = []) :
    ∃ rows, (save_itens db n itens).item_nfe = rows ∧
      rows.length = itens.length ∧
      ∀ r ∈ rows, rowGet r "nfe_id" = Py.int n := by
  obtain ⟨-, -, -, -, -, -, -, -, -, -, rows, h1, h2, h3⟩ :=
    save_itens_spec itens db n
  refine ⟨rows, ?_, h2, fun r hr => (h3 r hr).1⟩
  rw [h1, h]
  simp

theorem save_empty_spec (data : Extracted) (xml : Xml)
    (hec : pyTruthy (dictGetD data.emitente "cnpj" Py.none) = true)
    (hdc : pyTruthy (dictGetD data.destinatario "cnpj" Py.none) = true)
    (hne : dictGetD data.destinatario "cnpj" Py.none ≠
      dictGetD data.emitente "cnpj" Py.none)
    (he : dictTruthy data.emitente = true)
    (hd : dictTruthy data.destinatario = true)
    (ht : dictTruthy data.transportadora = false)
    (htot : dictTruthy data.totais = true) :
    (save_to_postgres DB.empty data xml).2 = some 3 ∧
    (save_to_postgres DB.empty data xml).1.nfe =
      [dictSet data.nfe "id" (Py.int 3)] ∧
    (save_to_postgres DB.empty data xml).1.pessoa =
      [dictSet data.emitente "id" (Py.int 1),
        dictSet data.destinatario "id" (Py.int 2)] ∧
    (∃ k1 k2 : Int, (save_to_postgres DB.empty data xml).1.nfe_pessoa =
      [dictSet [("nfe_id", Py.int 3), ("pessoa_id", Py.int 1),
          ("tipo_relacao", Py.str "EMITENTE")] "id" (Py.int k1),
        dictSet [("nfe_id", Py.int 3), ("pessoa_id", Py.int 2),
          ("tipo_relacao", Py.str "DESTINATARIO")] "id" (Py.int k2)]) ∧
    (∃ rows, (save_to_postgres DB.empty data xml).1.item_nfe = rows ∧
      rows.length = data.itens.length ∧
      ∀ r ∈ rows, rowGet r "nfe_id" = Py.int 3) ∧
    (∃ m : Int, (save_to_postgres DB.empty data xml).1.totais_nfe =
      [dictSet (dictSet data.totais "nfe_id" (Py.int 3)) "id"
        (Py.int m)]) := by
  have hs1 : party_step DB.empty data.emitente =
      ({ DB.empty with
          pessoa := [dictSet data.emitente "id" (Py.int 1)],
          nextId := 2 }, some 1) := by
    unfold party_step
    rw [if_pos he, insert_or_get_cnpj_miss DB.empty data.emitente hec
      (by intro r hr; simp [DB.empty] at hr)]
    rfl
  have hs2 : party_step
      { DB.empty with
          pessoa := [dictSet data.emitente "id" (Py.int 1)],
          nextId := 2 } data.destinatario =
      ({ DB.empty with
          pessoa := [dictSet data.emitente "id" (Py.int 1),
            dictSet data.destinatario "id" (Py.int 2)],
          nextId := 3 }, some 2) := by
    unfold party_step
    rw [if_pos hd, insert_or_get_cnpj_miss _ data.destinatario hdc ?hmiss]
    case hmiss =>
      intro r hr
      simp only [List.mem_singleton] at hr
      subst hr
      rw [rowGet_set_ne _ _ _ _ (by decide)]
      exact fun hh => hne hh.symm
    rfl
  have hs3 : party_step
      { DB.empty with
          pessoa := [dictSet data.emitente "id" (Py.int 1),
            dictSet data.destinatario "id" (Py.int 2)],
          nextId := 3 } data.transportadora =
      ({ DB.empty with
          pessoa := [dictSet data.emitente "id" (Py.int 1),
            dictSet data.destinatario "id" (Py.int 2)],
          nextId := 3 }, Option.none) :=
    party_step_none _ _ ht
  have hup : nfe_upsert
      { DB.empty with
          pessoa := [dictSet data.emitente "id" (Py.int 1),
            dictSet data.destinatario "id" (Py.int 2)],
          nextId := 3 } data.nfe =
      ({ DB.empty with
          nfe := [dictSet data.nfe "id" (Py.int 3)],
          pessoa := [dictSet data.emitente "id" (Py.int 1),
            dictSet data.destinatario "id" (Py.int 2)],
          nextId := 4 }, 3) := rfl
  have hlinks : ∀ dbx : DB, save_links dbx 3 (some 1) (some 2) =
      { dbx with
        nfe_pessoa := insertRow (insertRow dbx.nfe_pessoa
          [("nfe_id", Py.int 3), ("pessoa_id", Py.int 1),
            ("tipo_relacao", Py.str "EMITENTE")] dbx.nextId)
          [("nfe_id", Py.int 3), ("pessoa_id", Py.int 2),
            ("tipo_relacao", Py.str "DESTINATARIO")] (dbx.nextId + 1),
        nextId := dbx.nextId + 1 + 1 } :=
    fun dbx => rfl
  have htotEq : ∀ dbx : DB, save_totais dbx 3 data.totais =
      { dbx with
        totais_nfe := insertRow dbx.totais_nfe
          (dictSet data.totais "nfe_id" (Py.int 3)) dbx.nextId,
        nextId := dbx.nextId + 1 } := by
    intro dbx
    unfold save_totais
    rw [if_pos htot]
  simp only [save_to_postgres, hs1, hs2, hs3, hup]
  rw [if_neg (by norm_num : ¬(3 : Int) = 0)]
  refine ⟨rfl, ?_, ?_, ?_, ?_, ?_⟩
  · rw [(save_inf_adic_frame _ _ _).1, (save_transporte_frame _ _ _ _ _ _).1,
        (save_totais_frame _ _ _).1, ((save_itens_spec data.itens) _ _).1,
        (save_links_frame _ _ _ _).1, (save_endereco_for_frame _ _ _).1,
        (save_endereco_for_frame _ _ _).1, (save_endereco_for_frame _ _ _).1]
  · rw [(save_inf_adic_frame _ _ _).2.1,
        (save_transporte_frame _ _ _ _ _ _).2.1,
        (save_totais_frame _ _ _).2.1, ((save_itens_spec data.itens) _ _).2.1,
        (save_links_frame _ _ _ _).2.1, (save_endereco_for_frame _ _ _).2.1,
        (save_endereco_for_frame _ _ _).2.1,
        (save_endereco_for_frame _ _ _).2.1]
  · rw [(save_inf_adic_frame _ _ _).2.2.2.1,
        (save_transporte_frame _ _ _ _ _ _).2.2.2.1,
        (save_totais_frame _ _ _).2.2.2.1,
        ((save_itens_spec data.itens) _ _).2.2.2.1, hlinks]
    dsimp only
    rw [(save_endereco_for_frame _ _ _).2.2.1,
        (save_endereco_for_frame _ _ _).2.2.1,
        (save_endereco_for_frame _ _ _).2.2.1]
    refine ⟨_, _, rfl⟩
  · rw [(save_inf_adic_frame _ _ _).2.2.2.2.1,
        (save_transporte_frame _ _ _ _ _ _).2.2.2.2.1,
        (save_totais_frame _ _ _).2.2.2.2.1]
    apply save_itens_spec_nil
    rw [(save_links_frame _ _ _ _).2.2.2.1,
        (save_endereco_for_frame _ _ _).2.2.2.1,
        (save_endereco_for_frame _ _ _).2.2.2.1,
        (save_endereco_for_frame _ _ _).2.2.2.1]
    rfl
  · rw [(save_inf_adic_frame _ _ _).2.2.2.2.2.2.1,
        (save_transporte_frame _ _ _ _ _ _).2.2.2.2.2.2.1, htotEq]
    dsimp only
    rw [((save_itens_spec data.itens) _ _).2.2.2.2.1,
        (save_links_frame _ _ _ _).2.2.2.2.2.1,
        (save_endereco_for_frame _ _ _).2.2.2.2.2.1,
        (save_endereco_for_frame _ _ _).2.2.2.2.2.1,
        (save_endereco_for_frame _ _ _).2.2.2.2.2.1]
    refine ⟨_, rfl⟩

theorem assemble_fields (db : DB) (row p1 p2 l1 l2 t : Dict)
    (trows : List Dict)
    (hid : rowGet row "id" = Py.int 3)
    (hlink : db.nfe_pessoa = [l1, l2])
    (hl1n : rowGet l1 "nfe_id" = Py.int 3)
    (hl2n : rowGet l2 "nfe_id" = Py.int 3)
    (hl1t : rowGet l1 "tipo_relacao" = Py.str "EMITENTE")
    (hl2t : rowGet l2 "tipo_relacao" = Py.str "DESTINATARIO")
    (hl1p : rowGet l1 "pessoa_id" = Py.int 1)
    (hl2p : rowGet l2 "pessoa_id" = Py.int 2)
    (hpes : db.pessoa = [p1, p2])
    (hp1 : rowGet p1 "id" = Py.int 1)
    (hp2 : rowGet p2 "id" = Py.int 2)
    (hitem : db.item_nfe = trows)
    (htr : ∀ r ∈ trows, rowGet r "nfe_id" = Py.int 3)
    (htot : db.totais_nfe = [t])
    (htn : rowGet t "nfe_id" = Py.int 3) :
    (assemble_nota db row).nfe = selectCols row nfeSelectCols ∧
    (assemble_nota db row).emitente = some p1 ∧
    (assemble_nota db row).destinatario = some p2 ∧
    (assemble_nota db row).itens.length = trows.length ∧
    (assemble_nota db row).totais = some t := by
  have hfilter : List.filter
      (fun r => decide (rowGet r "nfe_id" = Py.int 3)) [l1, l2] =
      [l1, l2] := by
    simp [hl1n, hl2n]
  have hfold : List.foldl (fun (p : Py × Py) r =>
      if rowGet r "tipo_relacao" = Py.str "EMITENTE" then
        (rowGet r "pessoa_id", p.2)
      else if rowGet r "tipo_relacao" = Py.str "DESTINATARIO" then
        (p.1, rowGet r "pessoa_id")
      else p) (Py.none, Py.none) [l1, l2] = (Py.int 1, Py.int 2) := by
    simp [List.foldl_cons, List.foldl_nil, hl1t, hl2t, hl1p, hl2p]
  have hfind1 : List.find? (fun r => decide (rowGet r "id" = Py.int 1))
      [p1, p2] = some p1 :=
    List.find?_cons_of_pos _ (by simp [hp1])
  have hfind2 : List.find? (fun r => decide (rowGet r "id" = Py.int 2))
      [p1, p2] = some p2 := by
    rw [List.find?_cons_of_neg _ (by simp [hp1])]
    exact List.find?_cons_of_pos _ (by simp [hp2])
  have hfilter2 : List.filter
      (fun r => decide (rowGet r "nfe_id" = Py.int 3)) trows = trows :=
    List.filter_eq_self.mpr (fun r hr => by simp [htr r hr])
  have hfindt : List.find? (fun r => decide (rowGet r "nfe_id" = Py.int 3))
      [t] = some t :=
    List.find?_cons_of_pos _ (by simp [htn])
  refine ⟨rfl, ?_, ?_, ?_, ?_⟩
  · simp only [assemble_nota]
    rw [hlink, hid, hfilter, hfold]
    simp only [hpes]
    simp [pyTruthy, hfind1]
  · simp only [assemble_nota]
    rw [hlink, hid, hfilter, hfold]
    simp only [hpes]
    simp [pyTruthy, hfind2]
  · simp only [assemble_nota]
    rw [hitem, hid, hfilter2, List.length_map, sortByNumero_length]
  · simp only [assemble_nota]
    rw [htot, hid, hfindt]

/-- **C3** (amended): for any extraction with non-empty issuer and
recipient party dicts identified by distinct truthy CNPJs, no carrier
party, and a non-empty totals dict, persisting into an empty store returns
surrogate id 3, and querying back **by that numeric surrogate id** yields a
result whose access key, emission date (JSON-serialized), issuer CNPJ,
recipient CNPJ, item count and total value all match the extraction.  (The
access-key branch of the query is unreachable for the all-digit NF-e keys —
see C10 — so the `by access key` half of the original claim fails.) -/
theorem C3_roundtrip_by_id (data : Extracted) (xml : Xml)
    (hec : pyTruthy (dictGetD data.emitente "cnpj" Py.none) = true)
    (hdc : pyTruthy (dictGetD data.destinatario "cnpj" Py.none) = true)
    (hne : dictGetD data.destinatario "cnpj" Py.none ≠
      dictGetD data.emitente "cnpj" Py.none)
    (he : dictTruthy data.emitente = true)
    (hd : dictTruthy data.destinatario = true)
    (ht : dictTruthy data.transportadora = false)
    (htot : dictTruthy data.totais = true) :
    (save_to_postgres DB.empty data xml).2 = some 3 ∧
    ∃ nf, get_nota_fiscal_by_identifier
        (save_to_postgres DB.empty data xml).1 "3" = some nf ∧
      rowGet nf.nfe "chave_acesso" = pySerial (rowGet data.nfe "chave_acesso") ∧
      rowGet nf.nfe "data_emissao" = pySerial (rowGet data.nfe "data_emissao") ∧
      (∃ em, nf.emitente = some em ∧
        rowGet em "cnpj" = pySerial (rowGet data.emitente "cnpj")) ∧
      (∃ de, nf.destinatario = some de ∧
        rowGet de "cnpj" = pySerial (rowGet data.destinatario "cnpj")) ∧
      nf.itens.length = data.itens.length ∧
      (∃ tt, nf.totais = some tt ∧
        rowGet tt "valor_total_nfe" =
          pySerial (rowGet data.totais "valor_total_nfe")) := by
  obtain ⟨hres, hnfeT, hpesT, ⟨k1, k2, hlinkT⟩, ⟨rows, hitemT, hlen, hrows⟩,
    ⟨m, htotT⟩⟩ := save_empty_spec data xml hec hdc hne he hd ht htot
  refine ⟨hres, ?_⟩
  have hidr : rowGet (dictSet data.nfe "id" (Py.int 3)) "id" = Py.int 3 :=
    rowGet_set_self _ _ _
  have hp1 : rowGet (dictSet data.emitente "id" (Py.int 1)) "id" =
      Py.int 1 := rowGet_set_self _ _ _
  have hp2 : rowGet (dictSet data.destinatario "id" (Py.int 2)) "id" =
      Py.int 2 := rowGet_set_self _ _ _
  have htn : rowGet (dictSet (dictSet data.totais "nfe_id" (Py.int 3)) "id"
      (Py.int m)) "nfe_id" = Py.int 3 := by
    rw [rowGet_set_ne _ _ _ _ (by decide), rowGet_set_self]
  have h3 : ((pyIntOfString "3").getD 0 : Int) = 3 := by decide
  have hdig : pyIsdigit "3" = true := by decide
  have hfetch : fetch_nfe_row (save_to_postgres DB.empty data xml).1 "3" =
      some (dictSet data.nfe "id" (Py.int 3)) := by
    unfold fetch_nfe_row
    rw [if_pos hdig, hnfeT]
    exact List.find?_cons_of_pos _ (by simp [hidr, h3])
  have hq : get_nota_fiscal_by_identifier
      (save_to_postgres DB.empty data xml).1 "3" =
      some (serialNota (assemble_nota (save_to_postgres DB.empty data xml).1
        (dictSet data.nfe "id" (Py.int 3)))) := by
    unfold get_nota_fiscal_by_identifier
    rw [hfetch]
  obtain ⟨ha1, ha2, ha3, ha4, ha5⟩ :=
    assemble_fields (save_to_postgres DB.empty data xml).1
      (dictSet data.nfe "id" (Py.int 3))
      (dictSet data.emitente "id" (Py.int 1))
      (dictSet data.destinatario "id" (Py.int 2))
      (dictSet [("nfe_id", Py.int 3), ("pessoa_id", Py.int 1),
        ("tipo_relacao", Py.str "EMITENTE")] "id" (Py.int k1))
      (dictSet [("nfe_id", Py.int 3), ("pessoa_id", Py.int 2),
        ("tipo_relacao", Py.str "DESTINATARIO")] "id" (Py.int k2))
      (dictSet (dictSet data.totais "nfe_id" (Py.int 3)) "id" (Py.int m))
      rows hidr hlinkT rfl rfl rfl rfl rfl rfl hpesT hp1 hp2 hitemT
      (fun r hr => hrows r hr) htotT htn
  refine ⟨_, hq, ?_, ?_, ?_, ?_, ?_, ?_⟩
  · show rowGet (serialDict (assemble_nota
        (save_to_postgres DB.empty data xml).1
        (dictSet data.nfe "id" (Py.int 3))).nfe) "chave_acesso" = _
    rw [rowGet_serialDict, ha1]
    have hsel : rowGet (selectCols (dictSet data.nfe "id" (Py.int 3))
        nfeSelectCols) "chave_acesso" =
        rowGet (dictSet data.nfe "id" (Py.int 3)) "chave_acesso" := rfl
    rw [hsel, rowGet_set_ne _ _ _ _ (by decide)]
  · show rowGet (serialDict (assemble_nota
        (save_to_postgres DB.empty data xml).1
        (dictSet data.nfe "id" (Py.int 3))).nfe) "data_emissao" = _
    rw [rowGet_serialDict, ha1]
    have hsel : rowGet (selectCols (dictSet data.nfe "id" (Py.int 3))
        nfeSelectCols) "data_emissao" =
        rowGet (dictSet data.nfe "id" (Py.int 3)) "data_emissao" := rfl
    rw [hsel, rowGet_set_ne _ _ _ _ (by decide)]
  · refine ⟨serialDict (dictSet data.emitente "id" (Py.int 1)), ?_, ?_⟩
    · show (assemble_nota (save_to_postgres DB.empty data xml).1
          (dictSet data.nfe "id" (Py.int 3))).emitente.map serialDict = _
      rw [ha2]
      rfl
    · rw [rowGet_serialDict, rowGet_set_ne _ _ _ _ (by decide)]
  · refine ⟨serialDict (dictSet data.destinatario "id" (Py.int 2)), ?_, ?_⟩
    · show (assemble_nota (save_to_postgres DB.empty data xml).1
          (dictSet data.nfe "id" (Py.int 3))).destinatario.map serialDict = _
      rw [ha3]
      rfl
    · rw [rowGet_serialDict, rowGet_set_ne _ _ _ _ (by decide)]
  · show ((assemble_nota (save_to_postgres DB.empty data xml).1
        (dictSet data.nfe "id" (Py.int 3))).itens.map
        (fun p => (serialDict p.1, p.2.map serialDict))).length = _
    rw [List.length_map, ha4, hlen]
  · refine ⟨serialDict (dictSet (dictSet data.totais "nfe_id" (Py.int 3))
      "id" (Py.int m)), ?_, ?_⟩
    · show (assemble_nota (save_to_postgres DB.empty data xml).1
          (dictSet data.nfe "id" (Py.int 3))).totais.map serialDict = _
      rw [ha5]
      rfl
    · rw [rowGet_serialDict, rowGet_set_ne _ _ _ _ (by decide),
          rowGet_set_ne _ _ _ _ (by decide)]

/-- **C3** (witness): the amended roundtrip theorem applied to `sampleDoc`
and its extraction. -/
theorem C3_roundtrip_by_id_witness :
    (pyTruthy (dictGetD sampleData.emitente "cnpj" Py.none) = true) ∧
    (pyTruthy (dictGetD sampleData.destinatario "cnpj" Py.none) = true) ∧
    (dictGetD sampleData.destinatario "cnpj" Py.none ≠
      dictGetD sampleData.emitente "cnpj" Py.none) ∧
    (dictTruthy sampleData.emitente = true) ∧
    (dictTruthy sampleData.destinatario = true) ∧
    (dictTruthy sampleData.transportadora = false) ∧
    (dictTruthy sampleData.totais = true) ∧
    ((save_to_postgres DB.empty sampleData sampleDoc).2 = some 3 ∧
     ∃ nf, get_nota_fiscal_by_identifier
         (save_to_postgres DB.empty sampleData sampleDoc).1 "3" = some nf ∧
       rowGet nf.nfe "chave_acesso" =
         pySerial (rowGet sampleData.nfe "chave_acesso") ∧
       rowGet nf.nfe "data_emissao" =
         pySerial (rowGet sampleData.nfe "data_emissao") ∧
       (∃ em, nf.emitente = some em ∧
         rowGet em "cnpj" = pySerial (rowGet sampleData.emitente "cnpj")) ∧
       (∃ de, nf.destinatario = some de ∧
         rowGet de "cnpj" =
           pySerial (rowGet sampleData.destinatario "cnpj")) ∧
       nf.itens.length = sampleData.itens.length ∧
       (∃ tt, nf.totais = some tt ∧
         rowGet tt "valor_total_nfe" =
           pySerial (rowGet sampleData.totais "valor_total_nfe"))) :=
  ⟨by decide, by decide, by decide, by decide, by decide, by decide,
   by decide,
   C3_roundtrip_by_id sampleData sampleDoc (by decide) (by decide)
     (by decide) (by decide) (by decide) (by decide) (by decide)⟩


end Watchman
